import Mathlib

/-!
# Credit-gated application workflow (routes/applications.js, routes/credits.js)

A shallow embedding of the `POST /applications` and `PUT /applications/:id`
handlers, of the `POST /credits/update` and `POST /credits/add` handlers, of
`POST /auth/complete-profile` and of the middleware of middleware/auth.js of
the marketplace backend, together with the part of the data store they talk
to.

Modelling conventions.

* The four tables the handler touches (`leads`, `applications`, `profiles`,
  `credits`) are lists of rows.  No key constraint is built into the types:
  a query followed by `.single()` fails when zero or several rows match.
* Every store call made by the handler either succeeds (it has its effect and
  returns its data) or fails (it has no effect and returns an error object).
  Which calls fail is an input of the handler, the `PostEnv` record.  The
  client library returns errors instead of throwing, so the `catch` block of
  the handler is not reachable from a store call.
* `count_lead_applications` is a stored procedure of the database and is not
  part of the repository; what its two calls return is an input (`count1`,
  `count2` of `PostEnv`).
* Columns the handler never supplies on insert (`id`, timestamps) are filled
  in by the database; their values are inputs as well.
* Request body fields are optional strings; integer columns are `Int`.
-/

namespace Breds

/-- Row of the `leads` table (the columns the workflow reads or writes). -/
structure Lead where
  id : String
  title : String
  credit_cost : Int
  status : String
  created_by : String
  assigned_to : Option String
  assigned_at : Option String
  deriving DecidableEq, Repr

/-- Row of the `applications` table. -/
structure Application where
  id : String
  lead_id : String
  applicant_id : String
  message : String
  status : String
  created_at : String
  updated_at : String
  deriving DecidableEq, Repr

/-- Row of the `profiles` table (the columns the workflow reads or writes). -/
structure Profile where
  id : String
  credits : Int
  role : String
  deriving DecidableEq, Repr

/-- Row of the `credits` table, the ledger of balance-affecting events. -/
structure CreditTransaction where
  user_id : String
  amount : Int
  description : String
  transaction_type : String
  payment_id : Option String
  deriving DecidableEq, Repr

/-- State of the data store: the four tables. -/
structure Store where
  leads : List Lead
  applications : List Application
  profiles : List Profile
  credits : List CreditTransaction
  deriving DecidableEq, Repr

/-- Result of a query ending in `.single()`: the row when exactly one row
matches, an error otherwise. -/
def single {α : Type} : List α → Except String α
  | [a] => .ok a
  | _ => .error "JSON object requested, multiple (or no) rows returned"

/-- A store read ending in `.single()` under a possible failure of the call. -/
def selectSingle {α : Type} (fault : Option String) (rows : List α) : Except String α :=
  match fault with
  | some e => .error e
  | none => single rows

/-- JSON body of a response; a field that is absent from the body is `none`. -/
structure Response where
  status : Nat
  success : Bool
  error : Option String := none
  message : Option String := none
  maxReached : Option Bool := none
  requiredCredits : Option Int := none
  availableCredits : Option Int := none
  application : Option Application := none
  remainingCredits : Option Int := none
  deriving DecidableEq, Repr

/-- Body of `POST /applications`: `{ leadId, message }`. -/
structure PostBody where
  leadId : Option String
  message : Option String
  deriving DecidableEq, Repr

/-- Outcome of every store call of one run of the `POST /applications`
handler, in source order.  A fault `some e` means the call fails with error
message `e` and has no effect. -/
structure PostEnv where
  /-- Result of the first `rpc("count_lead_applications")`. -/
  count1 : Except String Int
  /-- Fault of the `leads` select. -/
  leadSelect : Option String
  /-- Fault of the `applications` select for an existing application. -/
  existingSelect : Option String
  /-- Fault of the `profiles` select. -/
  profileSelect : Option String
  /-- Result of the second `rpc("count_lead_applications")`. -/
  count2 : Except String Int
  /-- Fault of the `applications` insert. -/
  appInsert : Option String
  /-- The `id` the database gives the inserted application. -/
  newId : String
  /-- The timestamp the database gives the inserted application. -/
  now : String
  /-- Fault of the `profiles` update. -/
  profileUpdate : Option String
  /-- Fault of the compensating `applications` delete. -/
  rollbackDelete : Option String
  /-- Fault of the `credits` insert. -/
  creditsInsert : Option String

/-- JavaScript `message || "Lead purchased"`. -/
def orDefault (v : Option String) (d : String) : String :=
  match v with
  | none => d
  | some m => if m = "" then d else m

/-- Response `400` of the validation of the body (source lines 107-113). -/
def missingLeadResponse : Response :=
  { status := 400, success := false, error := some "Missing required fields",
    message := some "Lead ID is required" }

/-- Response `500` of a failed `count_lead_applications` call (lines 120-127
and 201-208); `msg` is the message of the store error. -/
def countErrorResponse (msg : String) : Response :=
  { status := 500, success := false, error := some "Failed to check application count",
    message := some msg }

/-- Response `400` of a lead at its cap of applications (lines 129-136 and
210-217). -/
def maxReachedResponse : Response :=
  { status := 400, success := false,
    error := some "This lead has reached the maximum number of applications",
    maxReached := some true }

/-- Response `404` of the lead lookup (lines 146-153). -/
def leadNotFoundResponse : Response :=
  { status := 404, success := false, error := some "Lead not found",
    message := some "The requested lead does not exist or is not active" }

/-- Response `409` of a caller who already applied (lines 163-169). -/
def alreadyAppliedResponse : Response :=
  { status := 409, success := false, error := some "Already applied",
    message := some "You have already applied to this lead" }

/-- Response `500` of a failed profile lookup (lines 178-185). -/
def profileErrorResponse : Response :=
  { status := 500, success := false, error := some "Profile error",
    message := some "Failed to check user credits" }

/-- Response `402` of a balance below the cost of the lead (lines 187-194). -/
def insufficientCreditsResponse (required available : Int) : Response :=
  { status := 402, success := false, error := some "Insufficient credits",
    requiredCredits := some required, availableCredits := some available }

/-- Response `500` of a failed application insert (lines 233-240). -/
def insertErrorResponse : Response :=
  { status := 500, success := false, error := some "Database error",
    message := some "Failed to create application" }

/-- Response `500` of a failed balance write (lines 253-257). -/
def creditsUpdateFailedResponse : Response :=
  { status := 500, success := false, error := some "Credits update failed",
    message := some "Failed to update user credits" }

/-- Response `201` of a purchase (lines 275-280). -/
def purchasedResponse (application : Application) (newCredits : Int) : Response :=
  { status := 201, success := true, message := some "Lead purchased successfully",
    application := some application, remainingCredits := some newCredits }

/-- Rows matched by `.from("leads").eq("id", leadId).eq("status", "active")`. -/
def activeLeadRows (s : Store) (leadId : String) : List Lead :=
  s.leads.filter (fun l => l.id == leadId && l.status == "active")

/-- Rows matched by
`.from("applications").eq("lead_id", leadId).eq("applicant_id", userId)`. -/
def existingRows (s : Store) (leadId userId : String) : List Application :=
  s.applications.filter (fun a => a.lead_id == leadId && a.applicant_id == userId)

/-- Rows matched by `.from("profiles").eq("id", userId)`. -/
def profileRows (s : Store) (userId : String) : List Profile :=
  s.profiles.filter (fun p => p.id == userId)

/-- The checks of the `POST /applications` handler that precede the first
write (source lines 106-217).  An early return is `.error response`; when all
checks pass the result carries the lead id, the lead row and the profile row
that the commit sequence uses. -/
def precheck (env : PostEnv) (s : Store) (userId : String) (body : PostBody) :
    Except Response (String × Lead × Profile) :=
  match body.leadId with
  | none => .error missingLeadResponse
  | some leadId =>
    if leadId = "" then .error missingLeadResponse
    else
      match env.count1 with
      | .error msg => .error (countErrorResponse msg)
      | .ok countData =>
        if countData ≥ 6 then .error maxReachedResponse
        else
          match selectSingle env.leadSelect (activeLeadRows s leadId) with
          | .error _ => .error leadNotFoundResponse
          | .ok lead =>
            match selectSingle env.existingSelect (existingRows s leadId userId) with
            | .ok _ => .error alreadyAppliedResponse
            | .error _ =>
              match selectSingle env.profileSelect (profileRows s userId) with
              | .error _ => .error profileErrorResponse
              | .ok profile =>
                if profile.credits < lead.credit_cost then
                  .error (insufficientCreditsResponse lead.credit_cost profile.credits)
                else
                  match env.count2 with
                  | .error msg => .error (countErrorResponse msg)
                  | .ok finalCountData =>
                    if finalCountData ≥ 6 then .error maxReachedResponse
                    else .ok (leadId, lead, profile)

/-- The application row of a purchase as stored by the insert of lines
220-231: the four supplied columns, plus the id and timestamps the database
fills in. -/
def newApplication (env : PostEnv) (userId leadId : String) (body : PostBody) : Application :=
  { id := env.newId, lead_id := leadId, applicant_id := userId,
    message := orDefault body.message "Lead purchased", status := "accepted",
    created_at := env.now, updated_at := env.now }

/-- The ledger row of a purchase (lines 261-268). -/
def purchaseTransaction (userId : String) (lead : Lead) : CreditTransaction :=
  { user_id := userId, amount := -lead.credit_cost,
    description := "Purchased lead: " ++ lead.title,
    transaction_type := "lead_purchase", payment_id := none }

/-- Effect of `.from("profiles").update({ credits }).eq("id", userId)`. -/
def setCredits (profiles : List Profile) (userId : String) (credits : Int) : List Profile :=
  profiles.map (fun p => if p.id == userId then { p with credits := credits } else p)

/-- Effect of `.from("applications").delete().eq("id", id)`. -/
def deleteApplication (apps : List Application) (id : String) : List Application :=
  apps.filter (fun a => a.id != id)

/-- The commit sequence of the `POST /applications` handler (source lines
219-280): insert the application, write the new balance (deleting the
application again when that write fails), append the ledger row. -/
def commit (env : PostEnv) (s : Store) (userId : String) (body : PostBody)
    (leadId : String) (lead : Lead) (profile : Profile) : Store × Response :=
  match env.appInsert with
  | some _ => (s, insertErrorResponse)
  | none =>
    let application := newApplication env userId leadId body
    let s1 : Store := { s with applications := s.applications ++ [application] }
    let newCredits := profile.credits - lead.credit_cost
    match env.profileUpdate with
    | some _ =>
      match env.rollbackDelete with
      | some _ => (s1, creditsUpdateFailedResponse)
      | none =>
        ({ s1 with applications := deleteApplication s1.applications application.id },
          creditsUpdateFailedResponse)
    | none =>
      let s2 : Store := { s1 with profiles := setCredits s1.profiles userId newCredits }
      match env.creditsInsert with
      | some _ => (s2, purchasedResponse application newCredits)
      | none =>
        ({ s2 with credits := s2.credits ++ [purchaseTransaction userId lead] },
          purchasedResponse application newCredits)

/-- The handler of `POST /applications` (source lines 99-289), run for the
authenticated caller `userId` after `verifyToken` and
`checkRole(["lead-finder"])` have passed.  Returns the store after the request
and the response. -/
def postApplications (env : PostEnv) (s : Store) (userId : String) (body : PostBody) :
    Store × Response :=
  match precheck env s userId body with
  | .error response => (s, response)
  | .ok (leadId, lead, profile) => commit env s userId body leadId lead profile

/-! ## `PUT /applications/:id` (routes/applications.js, lines 291-392) -/

/-- Body of `PUT /applications/:id`: `{ status }`. -/
structure PutBody where
  status : Option String
  deriving DecidableEq, Repr

/-- Outcome of every store call of one run of the `PUT /applications/:id`
handler, in source order, and the two values of `new Date().toISOString()`. -/
structure PutEnv where
  /-- Fault of the `applications` select by id. -/
  appSelect : Option String
  /-- Fault of the `applications` select for another accepted application. -/
  acceptedSelect : Option String
  /-- Fault of the `leads` update. -/
  leadUpdate : Option String
  /-- Timestamp written to `assigned_at`. -/
  assignedAt : String
  /-- Fault of the `applications` update. -/
  appUpdate : Option String
  /-- Timestamp written to `updated_at`. -/
  updatedAt : String

/-- Response `400` of the validation of the status (lines 299-305). -/
def invalidStatusResponse : Response :=
  { status := 400, success := false, error := some "Invalid status",
    message := some "Status must be \x27accepted\x27, \x27rejected\x27, or \x27pending\x27" }

/-- Response `404` of the application lookup (lines 314-321). -/
def applicationNotFoundResponse : Response :=
  { status := 404, success := false, error := some "Application not found",
    message := some "The requested application does not exist" }

/-- Response `403` of the ownership check (lines 323-329). -/
def accessDeniedResponse : Response :=
  { status := 403, success := false, error := some "Access denied",
    message := some "You don\x27t have permission to update this application" }

/-- Response `409` of the exclusivity check (lines 341-347). -/
def alreadyAcceptedResponse : Response :=
  { status := 409, success := false, error := some "Already accepted",
    message := some "Another application has already been accepted for this lead" }

/-- Response `500` of a failed status update (lines 370-377). -/
def statusUpdateErrorResponse : Response :=
  { status := 500, success := false, error := some "Database error",
    message := some "Failed to update application status" }

/-- Response `500` of the `catch` block (lines 384-391). -/
def putInternalErrorResponse : Response :=
  { status := 500, success := false, error := some "Internal server error",
    message := some "Failed to update application status" }

/-- Response `200` of a status update (lines 379-383). -/
def statusUpdatedResponse (status : String) (updatedApp : Application) : Response :=
  { status := 200, success := true, message := some ("Application " ++ status),
    application := some updatedApp }

/-- Rows matched by `.from("applications").eq("id", id)`. -/
def applicationRows (s : Store) (id : String) : List Application :=
  s.applications.filter (fun a => a.id == id)

/-- The object embedded by `leads(created_by)` in the application select: the
lead the foreign key `lead_id` points to, `none` for JavaScript `null`. -/
def parentLead (s : Store) (application : Application) : Option Lead :=
  s.leads.find? (fun l => l.id == application.lead_id)

/-- Rows matched by `.from("applications").eq("lead_id", leadId)
.eq("status", "accepted").neq("id", id)`. -/
def otherAcceptedRows (s : Store) (leadId id : String) : List Application :=
  s.applications.filter (fun a => a.lead_id == leadId && a.status == "accepted" && a.id != id)

/-- Effect of `.from("leads").update({ assigned_to, assigned_at }).eq("id", leadId)`. -/
def assignLead (leads : List Lead) (leadId applicantId assignedAt : String) : List Lead :=
  leads.map (fun l =>
    if l.id == leadId then
      { l with assigned_to := some applicantId, assigned_at := some assignedAt }
    else l)

/-- Effect of `.from("applications").update({ status, updated_at }).eq("id", id)`. -/
def setStatus (apps : List Application) (id status updatedAt : String) : List Application :=
  apps.map (fun a =>
    if a.id == id then { a with status := status, updated_at := updatedAt } else a)

/-- The status update of lines 359-383: write the status and the timestamp to
the rows with the id and return the updated row (`.select().single()`).  A
write that does not return exactly one row is an error of the call, without
effect like every failed call; it cannot happen once the lookup by id has
returned one row. -/
def updateStatus (env : PutEnv) (s : Store) (id status : String) : Store × Response :=
  match env.appUpdate with
  | some _ => (s, statusUpdateErrorResponse)
  | none =>
    match single ((setStatus s.applications id status env.updatedAt).filter
        (fun a => a.id == id)) with
    | .error _ => (s, statusUpdateErrorResponse)
    | .ok updatedApp =>
      ({ s with applications := setStatus s.applications id status env.updatedAt },
        statusUpdatedResponse status updatedApp)

/-- The handler of `PUT /applications/:id` (source lines 292-392), run for the
authenticated caller `userId` after `verifyToken` and
`checkRole(["lead-applier"])` have passed; `id` is the route parameter.
Reading `created_by` of a `null` embedded lead throws, which the `catch` block
answers with 500.  The result of the `leads` update is not examined. -/
def putApplication (env : PutEnv) (s : Store) (userId id : String) (body : PutBody) :
    Store × Response :=
  match body.status with
  | none => (s, invalidStatusResponse)
  | some status =>
    if !(["accepted", "rejected", "pending"].contains status) then (s, invalidStatusResponse)
    else
      match selectSingle env.appSelect (applicationRows s id) with
      | .error _ => (s, applicationNotFoundResponse)
      | .ok application =>
        match parentLead s application with
        | none => (s, putInternalErrorResponse)
        | some lead =>
          if lead.created_by ≠ userId then (s, accessDeniedResponse)
          else if status = "accepted" then
            match selectSingle env.acceptedSelect
                (otherAcceptedRows s application.lead_id id) with
            | .ok _ => (s, alreadyAcceptedResponse)
            | .error _ =>
              match env.leadUpdate with
              | some _ => updateStatus env s id status
              | none =>
                let leads := assignLead s.leads application.lead_id application.applicant_id
                  env.assignedAt
                updateStatus env { s with leads := leads } id status
          else updateStatus env s id status

/-! ## `POST /credits/update` (routes/credits.js, lines 16-103) -/

/-- JSON body of a response of the credits routes. -/
structure CreditsResponse where
  status : Nat
  success : Bool
  error : Option String := none
  message : Option String := none
  previousBalance : Option Int := none
  newBalance : Option Int := none
  added : Option Int := none
  deriving DecidableEq, Repr

/-- Body of `POST /credits/update`: `{ credits, paymentId, planName }`, with
`credits` an integer number when present. -/
structure UpdateBody where
  credits : Option Int
  paymentId : Option String
  planName : Option String
  deriving DecidableEq, Repr

/-- Outcome of the store calls of one run of `POST /credits/update`. -/
structure UpdateEnv where
  /-- Fault of the `profiles` select. -/
  profileSelect : Option String
  /-- Fault of the `profiles` update. -/
  profileUpdate : Option String
  /-- Fault of the `credits` insert. -/
  creditsInsert : Option String

/-- Response `400` of a missing or non-positive amount (lines 21-27). -/
def invalidCreditsResponse : CreditsResponse :=
  { status := 400, success := false, error := some "Invalid credits",
    message := some "Credit amount must be positive" }

/-- Response `400` of a missing payment id (lines 29-35). -/
def paymentRequiredResponse : CreditsResponse :=
  { status := 400, success := false, error := some "Payment ID required",
    message := some "Payment verification failed" }

/-- Response `500` of a failed profile lookup (lines 44-51). -/
def fetchProfileErrorResponse : CreditsResponse :=
  { status := 500, success := false, error := some "Database error",
    message := some "Failed to fetch user profile" }

/-- Response `500` of a failed balance write (lines 62-69). -/
def updateCreditsErrorResponse : CreditsResponse :=
  { status := 500, success := false, error := some "Database error",
    message := some "Failed to update credits" }

/-- Response `200` of a top-up (lines 87-93). -/
def creditsUpdatedResponse (previous updated added : Int) : CreditsResponse :=
  { status := 200, success := true, message := some "Credits updated successfully",
    previousBalance := some previous, newBalance := some updated, added := some added }

/-- Rendering of an optional string inside a JavaScript template literal. -/
def render (v : Option String) : String :=
  match v with
  | none => "undefined"
  | some x => x

/-- The ledger row of a top-up (lines 73-79). -/
def topUpTransaction (userId : String) (credits : Int) (planName : Option String)
    (paymentId : String) : CreditTransaction :=
  { user_id := userId, amount := credits,
    description := "Purchased " ++ render planName ++ " plan",
    transaction_type := "purchase", payment_id := some paymentId }

/-- The handler of `POST /credits/update` (source lines 16-103), run for the
authenticated caller `userId = req.user.id`, on a body whose amount is absent
or an integer number.  On an integer column `Number(profile?.credits) || 0` is
the stored value, and `Number(credits)` is the integer of the body.  The
response to the other values of the amount is given by `postCreditsUpdateRaw`. -/
def postCreditsUpdate (env : UpdateEnv) (s : Store) (userId : String) (body : UpdateBody) :
    Store × CreditsResponse :=
  match body.credits with
  | none => (s, invalidCreditsResponse)
  | some credits =>
    if credits ≤ 0 then (s, invalidCreditsResponse)
    else
      match body.paymentId with
      | none => (s, paymentRequiredResponse)
      | some paymentId =>
        if paymentId = "" then (s, paymentRequiredResponse)
        else
          match selectSingle env.profileSelect (profileRows s userId) with
          | .error _ => (s, fetchProfileErrorResponse)
          | .ok profile =>
            let currentCredits := profile.credits
            let newCredits := currentCredits + credits
            match env.profileUpdate with
            | some _ => (s, updateCreditsErrorResponse)
            | none =>
              let s1 : Store := { s with profiles := setCredits s.profiles userId newCredits }
              match env.creditsInsert with
              | some _ => (s1, creditsUpdatedResponse currentCredits newCredits credits)
              | none =>
                ({ s1 with credits := s1.credits ++
                    [topUpTransaction userId credits body.planName paymentId] },
                  creditsUpdatedResponse currentCredits newCredits credits)

/-! ## Identity gate (middleware/auth.js) -/

/-- JavaScript object with string-valued properties, as the list of its
properties in the order they are written; a property whose value is
`undefined` carries `none`. -/
abbrev JsObject := List (String × Option String)

/-- Property read `o[key]`: the value written last for the key, `none` when the
property is absent or `undefined`. -/
def JsObject.get (o : JsObject) (key : String) : Option String :=
  match o.reverse.find? (fun kv => kv.1 == key) with
  | some kv => kv.2
  | none => none

/-- The user the identity provider resolves a token to: `id`, `email`, `role`
and the `user_metadata` object (string-valued properties). -/
structure AuthUser where
  id : String
  email : String
  role : Option String
  user_metadata : List (String × String)
  deriving DecidableEq, Repr

/-- JavaScript `a || b` on optional strings. -/
def orElse (a b : Option String) : Option String :=
  match a with
  | some v => if v = "" then b else some v
  | none => b

/-- The object attached to the request (source lines 69-75):
`{ id: user.id, email: user.email, role: user.user_metadata?.role || user.role,
...user.user_metadata }`. -/
def attachUser (user : AuthUser) : JsObject :=
  let metadata : JsObject := user.user_metadata.map (fun kv => (kv.1, some kv.2))
  [("id", some user.id), ("email", some user.email),
   ("role", orElse (metadata.get "role") user.role)] ++ metadata

/-- Number of segments of `token.split(".")`. -/
def tokenSegments (token : String) : Nat :=
  (token.toList.filter (fun c => c == '.')).length + 1

/-- Response `401` of a request without token (lines 27-37). -/
def noTokenResponse : Response :=
  { status := 401, success := false, error := some "Access denied",
    message := some "No authentication token provided" }

/-- Response `403` of a malformed token (lines 40-51). -/
def malformedTokenResponse : Response :=
  { status := 403, success := false, error := some "Invalid token",
    message := some "Token is malformed" }

/-- Response `403` of a token the identity provider does not resolve (lines
56-67); `msg` is the message of the provider error, empty when there is none. -/
def invalidSessionResponse (msg : String) : Response :=
  { status := 403, success := false, error := some "Invalid session",
    message := some (if msg = "" then "Session is not valid or expired" else msg) }

/-- Response `500` of the `catch` block of `verifySupabaseSession` (lines
79-90). -/
def sessionErrorResponse : Response :=
  { status := 500, success := false, error := some "Internal server error",
    message := some "Failed to verify session" }

/-- The middleware `verifySupabaseSession` (source lines 16-91).  `bearer` is
the value of `req.headers.authorization?.split(" ")[1]` and `cookies` the
object `req.cookies`, `none` when that property is `undefined`; `server.js` and
`api.js` mount no cookie parser, so `undefined` is its value in this
application.  The token is `bearer || cookies["sb-access-token"] ||
cookies["sb:access_token"]` (lines 19-22): the cookies are read only when
`bearer` is falsy, and reading a property of `undefined` throws, which the
`catch` block answers with 500.  `provider` is `supabase.auth.getUser`,
`.error msg` standing for an error with that message or for an answer without
user.  The result is the object attached to the request, or the response of
the middleware. -/
def verifySupabaseSession (provider : String → Except String AuthUser)
    (bearer : Option String) (cookies : Option JsObject) : Except Response JsObject :=
  let token : Except Response (Option String) :=
    match orElse bearer none with
    | some tok => .ok (some tok)
    | none =>
      match cookies with
      | none => .error sessionErrorResponse
      | some jar => .ok (orElse (jar.get "sb-access-token") (jar.get "sb:access_token"))
  match token with
  | .error response => .error response
  | .ok none => .error noTokenResponse
  | .ok (some tok) =>
    if tok = "" then .error noTokenResponse
    else if tokenSegments tok ≠ 3 then .error malformedTokenResponse
    else
      match provider tok with
      | .error msg => .error (invalidSessionResponse msg)
      | .ok user => .ok (attachUser user)

/-- Rows matched by `.from("profiles").eq("id", id)` for an optional id; the
filter value `undefined` matches no row. -/
def profileRowsOf (s : Store) (id : Option String) : List Profile :=
  match id with
  | none => []
  | some userId => profileRows s userId

/-- The helper `getUserRoleFromSupabase` (source lines 124-141): the role of
the profile of the id, `.error` when the helper throws. -/
def getUserRoleFromSupabase (fault : Option String) (s : Store) (userId : Option String) :
    Except String String :=
  match selectSingle fault (profileRowsOf s userId) with
  | .error _ => .error "Failed to fetch user role"
  | .ok profile => .ok profile.role

/-- Response `401` of `checkRole` without attached user (lines 97-103). -/
def notAuthenticatedResponse : Response :=
  { status := 401, success := false, error := some "Unauthorized",
    message := some "User not authenticated" }

/-- Response `403` of `checkRole` (lines 107-113). -/
def roleDeniedResponse : Response :=
  { status := 403, success := false, error := some "Access denied",
    message := some "You don\x27t have permission to access this resource" }

/-- Response `500` of the `catch` block of `checkRole` (lines 116-121). -/
def authorizationErrorResponse : Response :=
  { status := 500, success := false, error := some "Authorization error",
    message := some "Failed to check user permissions" }

/-- The middleware `checkRole(allowedRoles)` (source lines 94-122): `.ok ()`
when it calls `next()`, its response otherwise.  `roleSelect` is the fault of
the `profiles` select of `getUserRoleFromSupabase`. -/
def checkRole (allowedRoles : List String) (roleSelect : Option String) (s : Store)
    (reqUser : Option JsObject) : Except Response Unit :=
  match reqUser with
  | none => .error notAuthenticatedResponse
  | some user =>
    let role : Except String String :=
      match orElse (user.get "role") none with
      | some r => .ok r
      | none => getUserRoleFromSupabase roleSelect s (user.get "id")
    match role with
    | .error _ => .error authorizationErrorResponse
    | .ok r =>
      if !(allowedRoles.contains r) then .error roleDeniedResponse
      else .ok ()

/-- The value of `req.user.id` for a verified user; the property is always
present in the attached object, so the default is never used. -/
def attachedId (user : AuthUser) : String :=
  ((attachUser user).get "id").getD user.id

/-- The route `POST /applications` after `verifyToken` has attached the user:
`checkRole(["lead-finder"])`, then the handler. -/
def postApplicationsRoute (roleSelect : Option String) (env : PostEnv) (s : Store)
    (user : AuthUser) (body : PostBody) : Store × Response :=
  match checkRole ["lead-finder"] roleSelect s (some (attachUser user)) with
  | .error response => (s, response)
  | .ok _ => postApplications env s (attachedId user) body

/-- The route `PUT /applications/:id` after `verifyToken` has attached the user:
`checkRole(["lead-applier"])`, then the handler. -/
def putApplicationRoute (roleSelect : Option String) (env : PutEnv) (s : Store)
    (user : AuthUser) (id : String) (body : PutBody) : Store × Response :=
  match checkRole ["lead-applier"] roleSelect s (some (attachUser user)) with
  | .error response => (s, response)
  | .ok _ => putApplication env s (attachedId user) id body

/-! ## `POST /credits/add` (routes/credits.js, lines 172-250) -/

/-- Body of `POST /credits/add`: `{ amount, paymentId, description }`, with
`amount` an integer number when present. -/
structure AddBody where
  amount : Option Int
  paymentId : Option String
  description : Option String
  deriving DecidableEq, Repr

/-- Response `400` of a missing or non-positive amount (lines 178-184). -/
def invalidAmountResponse : CreditsResponse :=
  { status := 400, success := false, error := some "Invalid amount",
    message := some "Credit amount must be positive" }

/-- Response `200` of `POST /credits/add` (lines 235-241). -/
def creditsAddedResponse (previous updated added : Int) : CreditsResponse :=
  { status := 200, success := true, message := some "Credits added successfully",
    previousBalance := some previous, newBalance := some updated, added := some added }

/-- The ledger row of `POST /credits/add` (lines 221-229). -/
def addTransaction (userId : String) (amount : Int) (description paymentId : Option String) :
    CreditTransaction :=
  { user_id := userId, amount := amount,
    description := orDefault description "Credit purchase",
    transaction_type := "purchase", payment_id := paymentId }

/-- The handler of `POST /credits/add` (source lines 172-250) for the attached
user object `reqUser`, on a body whose amount is absent or an integer number.
The handler reads `const { userId } = req.user`, the property `userId` of the
attached object; when it is undefined the filter `eq("id", undefined)` matches
no row, `.single()` fails and the answer is the 500 of the profile lookup.  The
response to the other values of the amount is given by `postCreditsAddRaw`. -/
def postCreditsAdd (env : UpdateEnv) (s : Store) (reqUser : JsObject) (body : AddBody) :
    Store × CreditsResponse :=
  match body.amount with
  | none => (s, invalidAmountResponse)
  | some amount =>
    if amount ≤ 0 then (s, invalidAmountResponse)
    else
      match reqUser.get "userId" with
      | none => (s, fetchProfileErrorResponse)
      | some userId =>
        match selectSingle env.profileSelect (profileRows s userId) with
        | .error _ => (s, fetchProfileErrorResponse)
        | .ok profile =>
          let currentCredits := profile.credits
          let newCredits := currentCredits + amount
          match env.profileUpdate with
          | some _ => (s, updateCreditsErrorResponse)
          | none =>
            let s1 : Store := { s with profiles := setCredits s.profiles userId newCredits }
            match env.creditsInsert with
            | some _ => (s1, creditsAddedResponse currentCredits newCredits amount)
            | none =>
              ({ s1 with credits := s1.credits ++
                  [addTransaction userId amount body.description body.paymentId] },
                creditsAddedResponse currentCredits newCredits amount)

/-! ## The credits routes on the JSON value of the amount (routes/credits.js) -/

/-- JavaScript number, as far as this development represents it: an integer,
or `NaN` (`none`).  Non-integer and infinite values are not represented. -/
abbrev JsNumber := Option Int

/-- JavaScript `a + b` on numbers: `NaN` when either side is `NaN`. -/
def JsNumber.add (a b : JsNumber) : JsNumber :=
  match a, b with
  | some x, some y => some (x + y)
  | _, _ => none

/-- JavaScript `a <= b` on numbers: `false` when either side is `NaN`. -/
def JsNumber.le (a b : JsNumber) : Bool :=
  match a, b with
  | some x, some y => decide (x ≤ y)
  | _, _ => false

/-- JavaScript `a > b` on numbers: `false` when either side is `NaN`. -/
def JsNumber.gt (a b : JsNumber) : Bool :=
  match a, b with
  | some x, some y => decide (x > y)
  | _, _ => false

/-- Value of the amount property (`credits`, `amount`) of a JSON body: absent
(`undefined`), `null`, a JSON number with an integer value, or a JSON string
that is empty or whose conversion to a number is `NaN`, such as `"abc"`.
Numbers with a fractional part, strings that spell a number or consist of
white space, booleans, arrays and objects are not represented. -/
inductive JsAmount
  | undefined
  | null
  | number (n : Int)
  | text (s : String)
  deriving DecidableEq, Repr

/-- JavaScript `Number(v)`: `NaN` for `undefined` and for a string that is not
a numeric literal, `0` for `null` and for the empty string. -/
def JsAmount.toNumber (v : JsAmount) : JsNumber :=
  match v with
  | .undefined => none
  | .null => some 0
  | .number n => some n
  | .text s => if s = "" then some 0 else none

/-- JavaScript `!v`: `true` for `undefined`, `null`, `0` and the empty string. -/
def JsAmount.falsy (v : JsAmount) : Bool :=
  match v with
  | .undefined => true
  | .null => true
  | .number n => n == 0
  | .text s => s == ""

/-- JSON body of a response of the credits routes to a body with any amount:
the balances are JavaScript numbers and `added` is the amount as it came. -/
structure RawCreditsResponse where
  status : Nat
  success : Bool
  error : Option String := none
  message : Option String := none
  previousBalance : Option JsNumber := none
  newBalance : Option JsNumber := none
  added : Option JsAmount := none
  deriving DecidableEq, Repr

/-- A response with integer balances as a response with JavaScript numbers. -/
def CreditsResponse.raw (r : CreditsResponse) : RawCreditsResponse :=
  { status := r.status, success := r.success, error := r.error, message := r.message,
    previousBalance := r.previousBalance.map some, newBalance := r.newBalance.map some,
    added := r.added.map JsAmount.number }

/-- Body of `POST /credits/update` with any amount. -/
structure RawUpdateBody where
  credits : JsAmount
  paymentId : Option String
  planName : Option String
  deriving DecidableEq, Repr

/-- Body of `POST /credits/add` with any amount. -/
structure RawAddBody where
  amount : JsAmount
  paymentId : Option String
  description : Option String
  deriving DecidableEq, Repr

/-- Response of the handler of `POST /credits/update` (source lines 16-103) to
a body with any amount, run for the authenticated caller `userId`: the
validation `!credits || credits <= 0` (line 21, the comparison converting
`credits` to a number), `currentCredits = Number(profile?.credits) || 0`, the
stored integer, and `newCredits = currentCredits + Number(credits)` (lines
53-54).  The result of the ledger insert is not examined.  Only the response
is given: a run that reaches the balance write with `NaN` sends `credits: null`
to the store, which the integer balances of `Store` do not represent. -/
def postCreditsUpdateRaw (env : UpdateEnv) (s : Store) (userId : String)
    (body : RawUpdateBody) : RawCreditsResponse :=
  if body.credits.falsy || JsNumber.le body.credits.toNumber (some 0) then
    invalidCreditsResponse.raw
  else
    match body.paymentId with
    | none => paymentRequiredResponse.raw
    | some paymentId =>
      if paymentId = "" then paymentRequiredResponse.raw
      else
        match selectSingle env.profileSelect (profileRows s userId) with
        | .error _ => fetchProfileErrorResponse.raw
        | .ok profile =>
          let currentCredits : JsNumber := some profile.credits
          let newCredits := JsNumber.add currentCredits body.credits.toNumber
          match env.profileUpdate with
          | some _ => updateCreditsErrorResponse.raw
          | none =>
            { status := 200, success := true, message := some "Credits updated successfully",
              previousBalance := some currentCredits, newBalance := some newCredits,
              added := some body.credits }

/-- Response of the handler of `POST /credits/add` (source lines 172-250) to a
body with any amount, for the attached user object `reqUser`: the validation
`!amount || amount <= 0` (line 178), the profile looked up by
`req.user.userId`, and `newCredits = currentCredits + Number(amount)` (lines
203-204).  Only the response is given, as for `postCreditsUpdateRaw`. -/
def postCreditsAddRaw (env : UpdateEnv) (s : Store) (reqUser : JsObject)
    (body : RawAddBody) : RawCreditsResponse :=
  if body.amount.falsy || JsNumber.le body.amount.toNumber (some 0) then
    invalidAmountResponse.raw
  else
    match reqUser.get "userId" with
    | none => fetchProfileErrorResponse.raw
    | some userId =>
      match selectSingle env.profileSelect (profileRows s userId) with
      | .error _ => fetchProfileErrorResponse.raw
      | .ok profile =>
        let currentCredits : JsNumber := some profile.credits
        let newCredits := JsNumber.add currentCredits body.amount.toNumber
        match env.profileUpdate with
        | some _ => updateCreditsErrorResponse.raw
        | none =>
          { status := 200, success := true, message := some "Credits added successfully",
            previousBalance := some currentCredits, newBalance := some newCredits,
            added := some body.amount }

/-! ## `POST /auth/complete-profile` (routes/auth.js, lines 374-450) -/

/-- The object `profileData` of the body, passed to `update` as it is: for each
stored column of `profiles` the value of the property of that name, or `none`
when the object has no such property.  Properties for other columns have no
effect on the stored columns. -/
structure ProfileData where
  id : Option String
  credits : Option Int
  role : Option String
  deriving DecidableEq, Repr

/-- Body of `POST /auth/complete-profile`: `{ userId, profileData }`. -/
structure CompleteBody where
  userId : Option String
  profileData : Option ProfileData
  deriving DecidableEq, Repr

/-- Outcome of the store calls of one run of `POST /auth/complete-profile`. -/
structure CompleteEnv where
  /-- Fault of the `profiles` update. -/
  profileUpdate : Option String
  /-- Fault of the `credits` insert. -/
  creditsInsert : Option String

/-- Response `401` of a request without token (lines 379-385). -/
def completeNoTokenResponse : Response :=
  { status := 401, success := false, error := some "No token provided",
    message := some "Authorization token is required" }

/-- Response `401` of an unresolved token (lines 388-394). -/
def completeInvalidTokenResponse : Response :=
  { status := 401, success := false, error := some "Invalid token",
    message := some "Token is invalid" }

/-- Response `400` of a body without `userId` or `profileData` (lines 398-404). -/
def completeMissingFieldsResponse : Response :=
  { status := 400, success := false, error := some "Missing required fields",
    message := some "userId and profileData are required" }

/-- Response `403` of a `userId` that is not the authenticated user (lines
406-412). -/
def completeUnauthorizedResponse : Response :=
  { status := 403, success := false, error := some "Unauthorized",
    message := some "User ID does not match authenticated user" }

/-- Response `500` of a failed profile update (lines 416-423). -/
def completeUpdateFailedResponse (msg : String) : Response :=
  { status := 500, success := false, error := some "Profile update failed",
    message := some msg }

/-- Response `200` of `POST /auth/complete-profile` (lines 438-441). -/
def profileCompletedResponse : Response :=
  { status := 200, success := true, message := some "Profile completed successfully" }

/-- Effect of `.from("profiles").update(profileData).eq("id", userId)`. -/
def applyProfileData (profiles : List Profile) (userId : String) (data : ProfileData) :
    List Profile :=
  profiles.map (fun p =>
    if p.id == userId then
      { id := data.id.getD p.id, credits := data.credits.getD p.credits,
        role := data.role.getD p.role }
    else p)

/-- The ledger row of the profile-completion bonus (lines 427-434). -/
def completionTransaction (userId : String) : CreditTransaction :=
  { user_id := userId, amount := 15, description := "Profile completion bonus",
    transaction_type := "profile_completion", payment_id := none }

/-- The handler of `POST /auth/complete-profile` (source lines 374-450).
`token` is the second word of the authorization header, `provider` is
`supabase.auth.getUser`.  The result of the ledger insert is not examined. -/
def postCompleteProfile (provider : String → Except String AuthUser) (env : CompleteEnv)
    (s : Store) (token : Option String) (body : CompleteBody) : Store × Response :=
  match token with
  | none => (s, completeNoTokenResponse)
  | some tok =>
    if tok = "" then (s, completeNoTokenResponse)
    else
      match provider tok with
      | .error _ => (s, completeInvalidTokenResponse)
      | .ok user =>
        match body.userId, body.profileData with
        | some userId, some profileData =>
          if userId = "" then (s, completeMissingFieldsResponse)
          else if userId ≠ user.id then (s, completeUnauthorizedResponse)
          else
            match env.profileUpdate with
            | some msg => (s, completeUpdateFailedResponse msg)
            | none =>
              let s1 : Store :=
                { s with profiles := applyProfileData s.profiles userId profileData }
              match env.creditsInsert with
              | some _ => (s1, profileCompletedResponse)
              | none =>
                ({ s1 with credits := s1.credits ++ [completionTransaction userId] },
                  profileCompletedResponse)
        | _, _ => (s, completeMissingFieldsResponse)

/-! ## Vocabulary of the properties -/

/-- Stored balances of a user: the `credits` of every profile row with the
user's id (one value when the id is a key of the table). -/
def balances (s : Store) (userId : String) : List Int :=
  (profileRows s userId).map (fun p => p.credits)

/-- Some application row of the caller for the lead named in the body is in
`s'` and was not in `s`. -/
def hasNewApplication (s s' : Store) (userId : String) (body : PostBody) : Prop :=
  ∃ a ∈ s'.applications, a ∉ s.applications ∧ some a.lead_id = body.leadId ∧
    a.applicant_id = userId

/-- The database gives an inserted application an id no stored application
has. -/
def freshId (env : PostEnv) (s : Store) : Prop :=
  ∀ a ∈ s.applications, a.id ≠ env.newId

/-- The two outcomes the atomicity property allows for a purchase: (a) a new
application row of the caller for the lead exists and the caller's balance went
down by the cost of that lead, or (b) no such new row exists and the caller's
balance is what it was. -/
def purchaseAtomic (s s' : Store) (userId : String) (body : PostBody) : Prop :=
  (hasNewApplication s s' userId body ∧
    ∃ lead ∈ s.leads, some lead.id = body.leadId ∧
      balances s' userId = (balances s userId).map (fun b => b - lead.credit_cost)) ∨
  (¬ hasNewApplication s s' userId body ∧ balances s' userId = balances s userId)

/-- Spec-side reading of the preconditions of a purchase: the six checks in
the order the specification lists them, each evaluated on the store on its
own, paired with the response of its failure.  `count` and `recount` are the
two application counts; the flag of a check is `true` when the check fails. -/
def postChecks (s : Store) (userId : String) (body : PostBody) (count recount : Int) :
    List (Bool × Response) :=
  let leadId := body.leadId.getD ""
  let lead := s.leads.find? (fun l => l.id == leadId && l.status == "active")
  let cost : Int := (lead.map (fun l => l.credit_cost)).getD 0
  let balance : Int :=
    ((s.profiles.find? (fun p => p.id == userId)).map (fun p => p.credits)).getD 0
  [ (leadId == "", missingLeadResponse),
    (decide (count ≥ 6), maxReachedResponse),
    (lead.isNone, leadNotFoundResponse),
    (s.applications.any (fun a => a.lead_id == leadId && a.applicant_id == userId),
      alreadyAppliedResponse),
    (decide (balance < cost), insufficientCreditsResponse cost balance),
    (decide (recount ≥ 6), maxReachedResponse) ]

/-- Response of the first failing check of a list of checks, if any fails. -/
def firstFailing (checks : List (Bool × Response)) : Option Response :=
  (checks.find? (fun c => c.1)).map (fun c => c.2)

/-- Accepted applications of a lead. -/
def acceptedRows (s : Store) (leadId : String) : List Application :=
  s.applications.filter (fun a => a.lead_id == leadId && a.status == "accepted")

/-- At most one application with status accepted per `lead_id`. -/
def atMostOneAccepted (s : Store) : Prop :=
  ∀ leadId, (acceptedRows s leadId).length ≤ 1

/-- Applications of a lead. -/
def leadRows (s : Store) (leadId : String) : List Application :=
  s.applications.filter (fun a => a.lead_id == leadId)

/-- At most 6 applications per `lead_id`. -/
def withinCap (s : Store) : Prop :=
  ∀ leadId, (leadRows s leadId).length ≤ 6

/-- Both calls of `count_lead_applications`, when they answer, return the
number of application rows of the lead named in the body. -/
def countsTruthful (env : PostEnv) (s : Store) (body : PostBody) : Prop :=
  ∀ leadId, body.leadId = some leadId →
    (∀ n, env.count1 = .ok n → n = (leadRows s leadId).length) ∧
    (∀ n, env.count2 = .ok n → n = (leadRows s leadId).length)

/-- At most one application per `(lead_id, applicant_id)` pair. -/
def pairUnique (s : Store) : Prop :=
  ∀ leadId userId, (existingRows s leadId userId).length ≤ 1

/-- Every store call of a `PUT /applications/:id` run succeeds. -/
def PutEnv.nominal (env : PutEnv) : Prop :=
  env.appSelect = none ∧ env.acceptedSelect = none ∧ env.leadUpdate = none ∧
    env.appUpdate = none

/-- The store with the timestamps a status update refreshes (`updated_at` of
applications, `assigned_at` of leads) blanked out. -/
def eraseTimestamps (s : Store) : Store :=
  { s with
    leads := s.leads.map (fun l => { l with assigned_at := none }),
    applications := s.applications.map (fun a => { a with updated_at := "" }) }

/-- Sum of the ledger amounts of a user. -/
def ledgerSum (s : Store) (userId : String) : Int :=
  ((s.credits.filter (fun t => t.user_id == userId)).map (fun t => t.amount)).sum

/-- Ledger reconciliation: the stored credits of every profile equal the sum
of the ledger amounts of its user. -/
def reconciled (s : Store) : Prop :=
  ∀ p ∈ s.profiles, p.credits = ledgerSum s p.id

/-- Every store call of a `POST /applications` run succeeds. -/
def PostEnv.nominal (env : PostEnv) : Prop :=
  (∃ n, env.count1 = .ok n) ∧ (∃ m, env.count2 = .ok m) ∧ env.leadSelect = none ∧
    env.existingSelect = none ∧ env.profileSelect = none ∧ env.appInsert = none ∧
    env.profileUpdate = none ∧ env.rollbackDelete = none ∧ env.creditsInsert = none

/-- Every store call of a `POST /credits/update` run succeeds. -/
def UpdateEnv.nominal (env : UpdateEnv) : Prop :=
  env.profileSelect = none ∧ env.profileUpdate = none ∧ env.creditsInsert = none

/-- The role stored in the profile of the attached user, if there is one. -/
def storedRole (s : Store) (reqUser : JsObject) : Option String :=
  match reqUser.get "id" with
  | none => none
  | some userId => (s.profiles.find? (fun p => p.id == userId)).map (fun p => p.role)

/-- Spec-side effective role of a caller: `req.user.role` when non-empty,
otherwise the role stored in the caller's profile. -/
def effectiveRole (s : Store) (reqUser : JsObject) : Option String :=
  match reqUser.get "role" with
  | some r => if r = "" then storedRole s reqUser else some r
  | none => storedRole s reqUser

/-- A response status of the 4xx family. -/
def clientError (status : Nat) : Prop := 400 ≤ status ∧ status < 500

/-! ## Sample data -/

/-- An active lead costing 5 credits. -/
def leadL1 : Lead :=
  { id := "L1", title := "Roof repair", credit_cost := 5, status := "active",
    created_by := "owner1", assigned_to := none, assigned_at := none }

/-- The owner of `leadL1`. -/
def ownerProfile : Profile := { id := "owner1", credits := 0, role := "lead-applier" }

/-- A store with `leadL1` and a buyer `u1` holding `b` credits. -/
def sampleStore (b : Int) : Store :=
  { leads := [leadL1], applications := [],
    profiles := [ownerProfile, { id := "u1", credits := b, role := "lead-finder" }],
    credits := [] }

/-- An application of `u1` to `L1` made earlier. -/
def earlierApplication : Application :=
  { id := "a0", lead_id := "L1", applicant_id := "u1", message := "Lead purchased",
    status := "accepted", created_at := "2024-01-01", updated_at := "2024-01-01" }

/-- A store in which `u1` has already applied to the active lead `L1`. -/
def appliedStore : Store :=
  { sampleStore 10 with applications := [earlierApplication] }

/-- A store in which `u1` has already applied to `L1` and the lead is closed. -/
def closedAppliedStore : Store :=
  { appliedStore with leads := [{ leadL1 with status := "closed" }] }

/-- A store in which `u1` has already applied to the active lead `L1` and holds
3 credits, fewer than the lead costs. -/
def poorAppliedStore : Store :=
  { sampleStore 3 with applications := [earlierApplication] }

/-- A run in which every store call succeeds and the lead has `n` applications
at both counts. -/
def okEnv (n : Int) : PostEnv :=
  { count1 := .ok n, leadSelect := none, existingSelect := none, profileSelect := none,
    count2 := .ok n, appInsert := none, newId := "a1", now := "2024-02-02",
    profileUpdate := none, rollbackDelete := none, creditsInsert := none }

/-- A run in which the balance write fails and the compensating delete works. -/
def updateFailsEnv : PostEnv := { okEnv 0 with profileUpdate := some "connection lost" }

/-- A run in which the balance write and the compensating delete both fail. -/
def rollbackFailsEnv : PostEnv :=
  { okEnv 0 with profileUpdate := some "connection lost",
                 rollbackDelete := some "connection lost" }

/-- A run in which only the ledger insert fails. -/
def ledgerFailsEnv : PostEnv := { okEnv 0 with creditsInsert := some "connection lost" }

/-- A purchase request for `L1` without a message. -/
def bodyL1 : PostBody := { leadId := some "L1", message := none }

/-- Profile of a buyer holding 10 credits. -/
def buyer (id : String) : Profile := { id := id, credits := 10, role := "lead-finder" }

/-- A store with `leadL1`, its owner and three buyers, without applications. -/
def marketStore : Store :=
  { leads := [leadL1], applications := [],
    profiles := [ownerProfile, buyer "u1", buyer "u2", buyer "u3"], credits := [] }

/-- A run of a purchase in which every store call succeeds, the lead has `n`
applications and the inserted application gets the id `id`. -/
def buyEnv (id : String) (n : Int) : PostEnv := { okEnv n with newId := id }

/-- The store after `u1` bought `L1` in `marketStore`. -/
def afterOnePurchase : Store :=
  (postApplications (buyEnv "a1" 0) marketStore "u1" bodyL1).1

/-- The store after `u1`, then `u2` bought `L1`. -/
def afterTwoPurchases : Store :=
  (postApplications (buyEnv "a2" 1) afterOnePurchase "u2" bodyL1).1

/-- The store after `u1`, `u2`, then `u3` bought `L1`. -/
def afterThreePurchases : Store :=
  (postApplications (buyEnv "a3" 2) afterTwoPurchases "u3" bodyL1).1

/-- A store in which the table holds two application rows of `u1` for the
active lead `L1` (`a0` and `a00`); `u1` holds 10 credits. -/
def twiceAppliedStore : Store :=
  { sampleStore 10 with
    applications := [earlierApplication, { earlierApplication with id := "a00" }] }

/-- A run of a purchase in which the lookup of an existing application fails
and every other store call succeeds; the lead has one application and the
inserted one gets the id `a2`. -/
def lookupFailsEnv : PostEnv :=
  { buyEnv "a2" 1 with existingSelect := some "connection lost" }

/-- A pending application of `applicant` to `L1`. -/
def pendingApplication (id applicant : String) : Application :=
  { id := id, lead_id := "L1", applicant_id := applicant, message := "Interested",
    status := "pending", created_at := "2024-01-01", updated_at := "2024-01-01" }

/-- A store with two pending applications `A` and `B` on `L1`. -/
def twoPendingStore : Store :=
  { marketStore with
    applications := [pendingApplication "A" "u1", pendingApplication "B" "u2"] }

/-- A run of a status update in which every store call succeeds. -/
def okPutEnv : PutEnv :=
  { appSelect := none, acceptedSelect := none, leadUpdate := none,
    assignedAt := "2024-03-03T10:00", appUpdate := none, updatedAt := "2024-03-03T10:01" }

/-- A later run of a status update in which every store call succeeds. -/
def laterPutEnv : PutEnv :=
  { okPutEnv with assignedAt := "2024-04-04T10:00", updatedAt := "2024-04-04T10:01" }

/-- A run of a status update in which the update of the lead fails and every
other store call succeeds. -/
def leadUpdateFailsEnv : PutEnv := { okPutEnv with leadUpdate := some "connection lost" }

/-- A run of a status update in which the lookup of another accepted
application fails and every other store call succeeds. -/
def acceptedLookupFailsEnv : PutEnv :=
  { okPutEnv with acceptedSelect := some "connection lost" }

/-- A later run of a status update in which the lookup of another accepted
application and the update of the lead fail, the application lookup and the
status write succeeding. -/
def repeatPutEnv : PutEnv :=
  { laterPutEnv with acceptedSelect := some "connection lost",
                     leadUpdate := some "connection lost" }

/-- A request to accept an application. -/
def acceptBody : PutBody := { status := some "accepted" }

/-- A run of a top-up in which every store call succeeds. -/
def okUpdateEnv : UpdateEnv :=
  { profileSelect := none, profileUpdate := none, creditsInsert := none }

/-- The verified user `u1`, a lead-finder, with no other metadata. -/
def plainUser : AuthUser :=
  { id := "u1", email := "u1@example.org", role := some "authenticated",
    user_metadata := [("role", "lead-finder")] }

/-- The verified user `u1` whose metadata carries an `id` property naming `u2`. -/
def forgedUser : AuthUser :=
  { id := "u1", email := "u1@example.org", role := some "authenticated",
    user_metadata := [("role", "lead-finder"), ("id", "u2")] }

/-- The verified user `u1` whose metadata carries a `userId` property naming
`u2`. -/
def aliasUser : AuthUser :=
  { id := "u1", email := "u1@example.org", role := some "authenticated",
    user_metadata := [("role", "lead-finder"), ("userId", "u2")] }

/-- A verified user without any role, in the token or the metadata. -/
def rolelessUser : AuthUser :=
  { id := "owner1", email := "owner1@example.org", role := none, user_metadata := [] }

/-- A verified user without any role, in the token or the metadata, and
without a profile row in the sample stores. -/
def ghostUser : AuthUser :=
  { id := "ghost", email := "ghost@example.org", role := none, user_metadata := [] }

/-- An identity provider resolving three tokens. -/
def sampleProvider (token : String) : Except String AuthUser :=
  if token = "aaa.bbb.plain" then .ok plainUser
  else if token = "aaa.bbb.forged" then .ok forgedUser
  else if token = "aaa.bbb.alias" then .ok aliasUser
  else .error "invalid JWT"

/-- A top-up request whose amount is the string `"abc"`. -/
def wordUpdateBody : RawUpdateBody :=
  { credits := .text "abc", paymentId := some "pay_1", planName := none }

/-- A request to `POST /credits/add` whose amount is the string `"abc"`. -/
def wordAddBody : RawAddBody :=
  { amount := .text "abc", paymentId := some "pay_2", description := none }

/-- A run of a top-up in which the profile lookup and the balance write succeed
and the ledger insert has the outcome `ledger`. -/
def topUpEnv (ledger : Option String) : UpdateEnv :=
  { profileSelect := none, profileUpdate := none, creditsInsert := ledger }

/-- A run of `POST /auth/complete-profile` in which every store call succeeds. -/
def okCompleteEnv : CompleteEnv := { profileUpdate := none, creditsInsert := none }

/-- A `profileData` object with properties for unstored columns only. -/
def namesOnly : ProfileData := { id := none, credits := none, role := none }

/-- A `profileData` object with a `credits` property. -/
def creditsGrab : ProfileData := { id := none, credits := some 1000000, role := none }

/-- A request to add 5 credits. -/
def addFive : AddBody := { amount := some 5, paymentId := some "pay_2", description := none }

/-! ## Lemmas on the store primitives -/

theorem single_eq_ok {α : Type} {rows : List α} {a : α} :
    single rows = .ok a ↔ rows = [a] := by
  cases rows with
  | nil => simp [single]
  | cons x xs =>
    cases xs with
    | nil => simp [single]
    | cons y ys => simp [single]

theorem selectSingle_eq_ok {α : Type} {fault : Option String} {rows : List α} {a : α} :
    selectSingle fault rows = .ok a ↔ fault = none ∧ rows = [a] := by
  cases fault with
  | none => simp [selectSingle, single_eq_ok]
  | some e => simp [selectSingle]

theorem selectSingle_ok {α : Type} (a : α) : selectSingle none [a] = .ok a := rfl

/-- Facts established by the checks when they all pass. -/
theorem precheck_ok_inv {env : PostEnv} {s : Store} {userId : String} {body : PostBody}
    {leadId : String} {lead : Lead} {profile : Profile}
    (h : precheck env s userId body = .ok (leadId, lead, profile)) :
    body.leadId = some leadId ∧ leadId ≠ "" ∧
    (∃ n, env.count1 = .ok n ∧ n < 6) ∧
    (env.leadSelect = none ∧ activeLeadRows s leadId = [lead]) ∧
    (∀ a, ¬ (env.existingSelect = none ∧ existingRows s leadId userId = [a])) ∧
    (env.profileSelect = none ∧ profileRows s userId = [profile]) ∧
    lead.credit_cost ≤ profile.credits ∧
    (∃ m, env.count2 = .ok m ∧ m < 6) := by
  unfold precheck at h
  split at h
  · simp at h
  · rename_i l hl
    split at h
    · simp at h
    · rename_i hne
      split at h
      · simp at h
      · rename_i n hn
        split at h
        · simp at h
        · rename_i hcap
          split at h
          · simp at h
          · rename_i ld hld
            split at h
            · simp at h
            · rename_i e hex
              split at h
              · simp at h
              · rename_i pr hpr
                split at h
                · simp at h
                · rename_i hbal
                  split at h
                  · simp at h
                  · rename_i m hm
                    split at h
                    · simp at h
                    · rename_i hcap2
                      simp only [Except.ok.injEq, Prod.mk.injEq] at h
                      obtain ⟨rfl, rfl, rfl⟩ := h
                      refine ⟨hl, hne, ⟨n, hn, by omega⟩, selectSingle_eq_ok.mp hld, ?_,
                        selectSingle_eq_ok.mp hpr, by omega, ⟨m, hm, by omega⟩⟩
                      intro a ha
                      rw [selectSingle_eq_ok.mpr ha] at hex
                      simp at hex

/-- The checks pass when each of them is satisfied and no read fails. -/
theorem precheck_ok_of {env : PostEnv} {s : Store} {userId : String} {body : PostBody}
    {leadId : String} {lead : Lead} {profile : Profile} {n m : Int}
    (hbody : body.leadId = some leadId) (hne : leadId ≠ "")
    (hc1 : env.count1 = .ok n) (hn : n < 6)
    (hls : env.leadSelect = none) (hlead : activeLeadRows s leadId = [lead])
    (hex : ∀ a, ¬ (env.existingSelect = none ∧ existingRows s leadId userId = [a]))
    (hps : env.profileSelect = none) (hprof : profileRows s userId = [profile])
    (hbal : lead.credit_cost ≤ profile.credits)
    (hc2 : env.count2 = .ok m) (hm : m < 6) :
    precheck env s userId body = .ok (leadId, lead, profile) := by
  have hex' : ∃ e, selectSingle env.existingSelect (existingRows s leadId userId) = .error e := by
    cases h : selectSingle env.existingSelect (existingRows s leadId userId) with
    | error e => exact ⟨e, rfl⟩
    | ok a => exact absurd (selectSingle_eq_ok.mp h) (hex a)
  obtain ⟨e, he⟩ := hex'
  have h1 : ¬ n ≥ 6 := by omega
  have h2 : ¬ m ≥ 6 := by omega
  have h3 : ¬ profile.credits < lead.credit_cost := by omega
  simp [precheck, hbody, hne, hc1, h1, hls, hlead, he, hps, hprof, h3, hc2, h2,
    selectSingle_ok]

/-- Every early return of the checks is one of the seven responses below. -/
theorem precheck_error_cases {env : PostEnv} {s : Store} {userId : String} {body : PostBody}
    {r : Response} (h : precheck env s userId body = .error r) :
    r = missingLeadResponse ∨ (∃ e, r = countErrorResponse e) ∨ r = maxReachedResponse ∨
    r = leadNotFoundResponse ∨ r = alreadyAppliedResponse ∨ r = profileErrorResponse ∨
    (∃ c b, b < c ∧ r = insufficientCreditsResponse c b) := by
  unfold precheck at h
  repeat' (split at h)
  all_goals first
    | (simp only [Except.error.injEq] at h; subst h; simp)
    | (simp only [Except.error.injEq] at h; subst h
       right; right; right; right; right; right
       exact ⟨_, _, by assumption, rfl⟩)
    | (simp at h)

/-- No early return has status `201`. -/
theorem precheck_error_status {env : PostEnv} {s : Store} {userId : String} {body : PostBody}
    {r : Response} (h : precheck env s userId body = .error r) : r.status ≠ 201 := by
  rcases precheck_error_cases h with h | ⟨e, h⟩ | h | h | h | h | ⟨c, b, _, h⟩ <;>
    subst h <;> simp [missingLeadResponse, countErrorResponse, maxReachedResponse,
      leadNotFoundResponse, alreadyAppliedResponse, profileErrorResponse,
      insufficientCreditsResponse]

/-- An early return leaves the store as it was. -/
theorem post_of_precheck_error {env : PostEnv} {s : Store} {userId : String} {body : PostBody}
    {r : Response} (h : precheck env s userId body = .error r) :
    postApplications env s userId body = (s, r) := by
  simp [postApplications, h]

theorem post_of_precheck_ok {env : PostEnv} {s : Store} {userId : String} {body : PostBody}
    {leadId : String} {lead : Lead} {profile : Profile}
    (h : precheck env s userId body = .ok (leadId, lead, profile)) :
    postApplications env s userId body = commit env s userId body leadId lead profile := by
  simp [postApplications, h]

/-- The commit sequence when the insert and the balance write succeed. -/
theorem commit_paid {env : PostEnv} {s : Store} {userId : String} {body : PostBody}
    {leadId : String} {lead : Lead} {profile : Profile}
    (hi : env.appInsert = none) (hu : env.profileUpdate = none) :
    commit env s userId body leadId lead profile =
      ({ leads := s.leads,
         applications := s.applications ++ [newApplication env userId leadId body],
         profiles := setCredits s.profiles userId (profile.credits - lead.credit_cost),
         credits := match env.creditsInsert with
           | some _ => s.credits
           | none => s.credits ++ [purchaseTransaction userId lead] },
       purchasedResponse (newApplication env userId leadId body)
         (profile.credits - lead.credit_cost)) := by
  unfold commit
  simp only [hi, hu]
  cases env.creditsInsert <;> rfl

/-- The commit sequence never answers `201` unless the insert and the balance
write succeeded. -/
theorem commit_status_201 {env : PostEnv} {s : Store} {userId : String} {body : PostBody}
    {leadId : String} {lead : Lead} {profile : Profile}
    (h : (commit env s userId body leadId lead profile).2.status = 201) :
    env.appInsert = none ∧ env.profileUpdate = none := by
  unfold commit at h
  cases hi : env.appInsert with
  | some e => simp [hi, insertErrorResponse] at h
  | none =>
    cases hu : env.profileUpdate with
    | some e =>
      simp only [hi, hu] at h
      cases hd : env.rollbackDelete <;> simp [hd, creditsUpdateFailedResponse] at h
    | none => exact ⟨rfl, rfl⟩

/-- A `201` response comes from the commit sequence after all checks passed. -/
theorem post_status_201 {env : PostEnv} {s : Store} {userId : String} {body : PostBody}
    (h : (postApplications env s userId body).2.status = 201) :
    ∃ leadId lead profile, precheck env s userId body = .ok (leadId, lead, profile) ∧
      env.appInsert = none ∧ env.profileUpdate = none := by
  cases hp : precheck env s userId body with
  | error r =>
    rw [post_of_precheck_error hp] at h
    exact absurd h (precheck_error_status hp)
  | ok t =>
    obtain ⟨leadId, lead, profile⟩ := t
    rw [post_of_precheck_ok hp] at h
    exact ⟨leadId, lead, profile, rfl, commit_status_201 h⟩

/-- The profile rows of the updated user after the balance write. -/
theorem profileRows_setCredits (ps : List Profile) (u : String) (c : Int) :
    (setCredits ps u c).filter (fun p => p.id == u) =
      (ps.filter (fun p => p.id == u)).map (fun p => { p with credits := c }) := by
  induction ps with
  | nil => rfl
  | cons p ps ih =>
    by_cases hp : p.id = u
    · simp [setCredits, List.filter_cons, hp] at ih ⊢
      exact ih
    · simp [setCredits, List.filter_cons, hp] at ih ⊢
      exact ih

/-- The compensating delete undoes the insert when the inserted id is fresh. -/
theorem deleteApplication_append_fresh (apps : List Application) (a : Application)
    (hfresh : ∀ x ∈ apps, x.id ≠ a.id) :
    deleteApplication (apps ++ [a]) a.id = apps := by
  unfold deleteApplication
  rw [List.filter_append]
  have h1 : apps.filter (fun x => x.id != a.id) = apps := by
    rw [List.filter_eq_self]
    intro x hx
    simpa using hfresh x hx
  simp [h1]

/-! ## Claims C2 - C6 -/

/-- C2. For every non-empty leadId, when the first `count_lead_applications`
call answers 6 or more, `POST /applications` returns 400 with
`maxReached = true` and leaves the whole store as it was, whatever the store
holds (balance, lead status or existence, earlier applications) and whatever
the other store calls would do. -/
theorem C2_full_lead_rejected (env : PostEnv) (s : Store) (userId : String) (body : PostBody)
    (leadId : String) (n : Int)
    (hbody : body.leadId = some leadId) (hne : leadId ≠ "")
    (hcount : env.count1 = .ok n) (hfull : 6 ≤ n) :
    (postApplications env s userId body).2.status = 400 ∧
    (postApplications env s userId body).2.maxReached = some true ∧
    (postApplications env s userId body).1 = s := by
  have h : precheck env s userId body = .error maxReachedResponse := by
    have h6 : n ≥ 6 := hfull
    simp [precheck, hbody, hne, hcount, h6]
  rw [post_of_precheck_error h]
  exact ⟨rfl, rfl, rfl⟩

/-- Witness of C2: a lead reported with 6 applications, asked for by a buyer
holding 10 credits in a store where the lead does not even exist. -/
theorem C2_full_lead_rejected_witness :
    (postApplications (okEnv 6) { sampleStore 10 with leads := [] } "u1" bodyL1).2.status = 400 ∧
    (postApplications (okEnv 6) { sampleStore 10 with leads := [] } "u1" bodyL1).2.maxReached
      = some true ∧
    (postApplications (okEnv 6) { sampleStore 10 with leads := [] } "u1" bodyL1).1
      = { sampleStore 10 with leads := [] } :=
  C2_full_lead_rejected (okEnv 6) { sampleStore 10 with leads := [] } "u1" bodyL1 "L1" 6
    rfl (by decide) rfl (by decide)

/-- C3. For an active lead below the cap, a caller without an earlier
application whose stored balance `b` is below the cost `c` of the lead gets
402 with `requiredCredits = c` and `availableCredits = b`; the store is left
as it was: no application row, the balance still `b`, no ledger row. -/
theorem C3_insufficient_credits (env : PostEnv) (s : Store) (userId : String) (body : PostBody)
    (leadId : String) (lead : Lead) (profile : Profile) (n : Int)
    (hbody : body.leadId = some leadId) (hne : leadId ≠ "")
    (hcount : env.count1 = .ok n) (hcap : n < 6)
    (hreads : env.leadSelect = none ∧ env.profileSelect = none)
    (hlead : activeLeadRows s leadId = [lead])
    (hnoprior : existingRows s leadId userId = [])
    (hprofile : profileRows s userId = [profile])
    (hlt : profile.credits < lead.credit_cost) :
    (postApplications env s userId body).2.status = 402 ∧
    (postApplications env s userId body).2.requiredCredits = some lead.credit_cost ∧
    (postApplications env s userId body).2.availableCredits = some profile.credits ∧
    (postApplications env s userId body).1 = s ∧
    balances (postApplications env s userId body).1 userId = [profile.credits] := by
  have hex : ∃ e, selectSingle env.existingSelect (existingRows s leadId userId) = .error e := by
    rw [hnoprior]
    cases env.existingSelect with
    | none => exact ⟨_, rfl⟩
    | some e => exact ⟨e, rfl⟩
  obtain ⟨e, he⟩ := hex
  have h1 : ¬ n ≥ 6 := by omega
  have h : precheck env s userId body =
      .error (insufficientCreditsResponse lead.credit_cost profile.credits) := by
    simp [precheck, hbody, hne, hcount, h1, hreads.1, hlead, he, hreads.2, hprofile, hlt,
      selectSingle_ok]
  rw [post_of_precheck_error h]
  refine ⟨rfl, rfl, rfl, rfl, ?_⟩
  simp [balances, hprofile]

/-- Witness of C3: cost 5, balance 3. -/
theorem C3_insufficient_credits_witness :
    (postApplications (okEnv 0) (sampleStore 3) "u1" bodyL1).2.status = 402 ∧
    (postApplications (okEnv 0) (sampleStore 3) "u1" bodyL1).2.requiredCredits = some 5 ∧
    (postApplications (okEnv 0) (sampleStore 3) "u1" bodyL1).2.availableCredits = some 3 ∧
    (postApplications (okEnv 0) (sampleStore 3) "u1" bodyL1).1 = sampleStore 3 ∧
    balances (postApplications (okEnv 0) (sampleStore 3) "u1" bodyL1).1 "u1" = [3] :=
  C3_insufficient_credits (okEnv 0) (sampleStore 3) "u1" bodyL1 "L1" leadL1
    { id := "u1", credits := 3, role := "lead-finder" } 0
    rfl (by decide) rfl (by decide) ⟨rfl, rfl⟩ (by decide) (by decide) (by decide) (by decide)

/-- C4, as stated, fails: `u1` has an application row for `L1`, the lead is
closed, and the further request is answered 404, not 409. -/
theorem C4_counterexample :
    (∃ a ∈ closedAppliedStore.applications, a.lead_id = "L1" ∧ a.applicant_id = "u1") ∧
    (postApplications (okEnv 1) closedAppliedStore "u1" bodyL1).2.status = 404 := by
  refine ⟨⟨earlierApplication, ?_, rfl, rfl⟩, ?_⟩
  · simp [closedAppliedStore, appliedStore]
  · decide

/-- C4, amended. When exactly one application row exists for the pair and the
lookup of existing applications succeeds, a further request by that user for
that lead leaves the store as it was (no second application); and when
moreover the lead id is non-empty, the count is below 6 and the lead is found
active, the response is 409 with error "Already applied". -/
theorem C4_already_applied (env : PostEnv) (s : Store) (userId : String) (body : PostBody)
    (leadId : String) (existing : Application)
    (hbody : body.leadId = some leadId)
    (hexisting : existingRows s leadId userId = [existing])
    (hlookup : env.existingSelect = none) :
    (postApplications env s userId body).1 = s ∧
    (∀ (n : Int) (lead : Lead), leadId ≠ "" → env.count1 = .ok n → n < 6 →
      env.leadSelect = none → activeLeadRows s leadId = [lead] →
      (postApplications env s userId body).2.status = 409 ∧
      (postApplications env s userId body).2.error = some "Already applied") := by
  constructor
  · cases hp : precheck env s userId body with
    | error r => rw [post_of_precheck_error hp]
    | ok t =>
      obtain ⟨l, lead, profile⟩ := t
      obtain ⟨hl, -, -, -, hno, -⟩ := precheck_ok_inv hp
      rw [hbody] at hl
      cases hl
      exact absurd ⟨hlookup, hexisting⟩ (hno existing)
  · intro n lead hne hcount hcap hls hlead
    have h1 : ¬ n ≥ 6 := by omega
    have h : precheck env s userId body = .error alreadyAppliedResponse := by
      simp [precheck, hbody, hne, hcount, h1, hls, hlead, hlookup, hexisting, selectSingle_ok]
    rw [post_of_precheck_error h]
    exact ⟨rfl, rfl⟩

/-- Witness of C4 (amended): `u1` asks again for the active lead `L1`. -/
theorem C4_already_applied_witness :
    (postApplications (okEnv 1) appliedStore "u1" bodyL1).1 = appliedStore ∧
    (postApplications (okEnv 1) appliedStore "u1" bodyL1).2.status = 409 ∧
    (postApplications (okEnv 1) appliedStore "u1" bodyL1).2.error = some "Already applied" :=
  ⟨(C4_already_applied (okEnv 1) appliedStore "u1" bodyL1 "L1" earlierApplication
      rfl (by decide) rfl).1,
   (C4_already_applied (okEnv 1) appliedStore "u1" bodyL1 "L1" earlierApplication
      rfl (by decide) rfl).2 1 leadL1 (by decide) rfl (by decide) rfl (by decide)⟩

/-- The stored balance of the updated user after the balance write. -/
theorem balances_setCredits {s s' : Store} {u : String} {c : Int}
    (hs : s'.profiles = setCredits s.profiles u c) :
    balances s' u = (balances s u).map (fun _ => c) := by
  unfold balances profileRows
  rw [hs, profileRows_setCredits]
  simp [List.map_map, Function.comp_def]

/-- A store with the same applications has no new application. -/
theorem not_hasNewApplication_of_eq {s s' : Store} {u : String} {body : PostBody}
    (h : s'.applications = s.applications) : ¬ hasNewApplication s s' u body := by
  rintro ⟨a, ha, hna, -⟩
  rw [h] at ha
  exact hna ha

/-- The commit sequence when the balance write fails and the compensating
delete works, for a fresh id: the store is as before. -/
theorem commit_rolled_back {env : PostEnv} {s : Store} {userId : String} {body : PostBody}
    {leadId : String} {lead : Lead} {profile : Profile} {e : String}
    (hi : env.appInsert = none) (hu : env.profileUpdate = some e)
    (hd : env.rollbackDelete = none) (hfresh : freshId env s) :
    commit env s userId body leadId lead profile = (s, creditsUpdateFailedResponse) := by
  unfold commit
  simp only [hi, hu, hd]
  have h := deleteApplication_append_fresh s.applications (newApplication env userId leadId body)
    hfresh
  rw [h]

/-! ## Claims C1, C5 - C8, C10 -/

/-- C5. For an active lead below the cap at both counts, costing `c`, and a
caller without an earlier application holding `b >= c`, when every store call
succeeds the response is 201, exactly one application row is added (lead id,
caller, status accepted, the message of the request or "Lead purchased" when
it is omitted or empty), the caller's stored balance becomes `b - c`, and
`remainingCredits` is that balance. -/
theorem C5_purchase_succeeds (env : PostEnv) (s : Store) (userId : String) (body : PostBody)
    (leadId : String) (lead : Lead) (profile : Profile) (n m : Int)
    (hbody : body.leadId = some leadId) (hne : leadId ≠ "")
    (hc1 : env.count1 = .ok n) (hn : n < 6) (hc2 : env.count2 = .ok m) (hm : m < 6)
    (hreads : env.leadSelect = none ∧ env.existingSelect = none ∧ env.profileSelect = none)
    (hwrites : env.appInsert = none ∧ env.profileUpdate = none ∧ env.creditsInsert = none)
    (hlead : activeLeadRows s leadId = [lead])
    (hnoprior : existingRows s leadId userId = [])
    (hprofile : profileRows s userId = [profile])
    (hbal : lead.credit_cost ≤ profile.credits) :
    (postApplications env s userId body).2.status = 201 ∧
    (∃ a : Application,
      (postApplications env s userId body).1.applications = s.applications ++ [a] ∧
      (postApplications env s userId body).2.application = some a ∧
      a.lead_id = leadId ∧ a.applicant_id = userId ∧ a.status = "accepted" ∧
      ((body.message = none ∨ body.message = some "") → a.message = "Lead purchased") ∧
      (∀ msg, body.message = some msg → msg ≠ "" → a.message = msg)) ∧
    balances (postApplications env s userId body).1 userId
      = [profile.credits - lead.credit_cost] ∧
    (postApplications env s userId body).2.remainingCredits
      = some (profile.credits - lead.credit_cost) := by
  have hp : precheck env s userId body = .ok (leadId, lead, profile) :=
    precheck_ok_of hbody hne hc1 hn hreads.1 hlead
      (by intro a ha; rw [hnoprior] at ha; simp at ha) hreads.2.2 hprofile hbal hc2 hm
  rw [post_of_precheck_ok hp, commit_paid hwrites.1 hwrites.2.1]
  refine ⟨rfl, ⟨newApplication env userId leadId body, rfl, rfl, rfl, rfl, rfl, ?_, ?_⟩, ?_, rfl⟩
  · rintro (h | h) <;> simp [newApplication, orDefault, h]
  · intro msg h hmsg
    simp [newApplication, orDefault, h, hmsg]
  · rw [balances_setCredits (s := s) rfl]
    simp [balances, hprofile]

/-- Witness of C5: cost 5, balance 10, balance afterwards 5. -/
theorem C5_purchase_succeeds_witness :
    (postApplications (okEnv 0) (sampleStore 10) "u1" bodyL1).2.status = 201 ∧
    (∃ a : Application,
      (postApplications (okEnv 0) (sampleStore 10) "u1" bodyL1).1.applications
        = (sampleStore 10).applications ++ [a] ∧
      (postApplications (okEnv 0) (sampleStore 10) "u1" bodyL1).2.application = some a ∧
      a.lead_id = "L1" ∧ a.applicant_id = "u1" ∧ a.status = "accepted" ∧
      ((bodyL1.message = none ∨ bodyL1.message = some "") → a.message = "Lead purchased") ∧
      (∀ msg, bodyL1.message = some msg → msg ≠ "" → a.message = msg)) ∧
    balances (postApplications (okEnv 0) (sampleStore 10) "u1" bodyL1).1 "u1" = [10 - 5] ∧
    (postApplications (okEnv 0) (sampleStore 10) "u1" bodyL1).2.remainingCredits
      = some (10 - 5) :=
  C5_purchase_succeeds (okEnv 0) (sampleStore 10) "u1" bodyL1 "L1" leadL1
    { id := "u1", credits := 10, role := "lead-finder" } 0 0
    rfl (by decide) rfl (by decide) rfl (by decide) ⟨rfl, rfl, rfl⟩ ⟨rfl, rfl, rfl⟩
    (by decide) (by decide) (by decide) (by decide)

/-- C6. Whenever `POST /applications` answers 201 and the ledger insert
succeeds, the ledger after the request is the ledger before it followed by
exactly one row, with `user_id` the caller, `transaction_type` "lead_purchase"
and `amount` minus the cost of the purchased lead. -/
theorem C6_ledger_row (env : PostEnv) (s : Store) (userId : String) (body : PostBody)
    (h201 : (postApplications env s userId body).2.status = 201)
    (hledger : env.creditsInsert = none) :
    ∃ (leadId : String) (lead : Lead), body.leadId = some leadId ∧
      activeLeadRows s leadId = [lead] ∧
      (postApplications env s userId body).1.credits = s.credits ++
        [{ user_id := userId, amount := -lead.credit_cost,
           description := "Purchased lead: " ++ lead.title,
           transaction_type := "lead_purchase", payment_id := none }] := by
  obtain ⟨leadId, lead, profile, hp, hi, hu⟩ := post_status_201 h201
  obtain ⟨hl, -, -, ⟨-, hlead⟩, -⟩ := precheck_ok_inv hp
  refine ⟨leadId, lead, hl, hlead, ?_⟩
  rw [post_of_precheck_ok hp, commit_paid hi hu]
  simp [hledger, purchaseTransaction]

/-- Witness of C6: cost 5, one ledger row of amount -5. -/
theorem C6_ledger_row_witness :
    (postApplications (okEnv 0) (sampleStore 10) "u1" bodyL1).2.status = 201 ∧
    ∃ (leadId : String) (lead : Lead), bodyL1.leadId = some leadId ∧
      activeLeadRows (sampleStore 10) leadId = [lead] ∧
      (postApplications (okEnv 0) (sampleStore 10) "u1" bodyL1).1.credits =
        (sampleStore 10).credits ++
        [{ user_id := "u1", amount := -lead.credit_cost,
           description := "Purchased lead: " ++ lead.title,
           transaction_type := "lead_purchase", payment_id := none }] :=
  ⟨by decide, C6_ledger_row (okEnv 0) (sampleStore 10) "u1" bodyL1 (by decide) rfl⟩

/-- C1, as stated, fails: the insert succeeds, the balance write fails and the
compensating delete fails too; the new application row of `u1` for `L1` stays
while the balance of `u1` is still 10, which is neither outcome (a) nor (b). -/
theorem C1_counterexample :
    ¬ purchaseAtomic (sampleStore 10)
        (postApplications rollbackFailsEnv (sampleStore 10) "u1" bodyL1).1 "u1" bodyL1 := by
  have hnew : hasNewApplication (sampleStore 10)
      (postApplications rollbackFailsEnv (sampleStore 10) "u1" bodyL1).1 "u1" bodyL1 :=
    ⟨newApplication rollbackFailsEnv "u1" "L1" bodyL1, by decide, by decide, rfl, rfl⟩
  have hbal : balances (postApplications rollbackFailsEnv (sampleStore 10) "u1" bodyL1).1 "u1"
      = [10] := by decide
  rintro (⟨-, lead, hlead, -, hb⟩ | ⟨hno, -⟩)
  · have hl : lead = leadL1 := by simpa [sampleStore] using hlead
    subst hl
    rw [hbal] at hb
    revert hb
    decide
  · exact hno hnew

/-- C1, amended. For every store state, every request and every pattern of
success or failure of the store calls in which the compensating delete does
not fail (the database giving the inserted row a fresh id), exactly one of
(a) a new application row of the caller for the lead exists and the caller's
balance went down by the cost of the lead, (b) no new application row exists
and the balance is unchanged, holds when the handler returns. -/
theorem C1_atomic_unless_rollback_fails (env : PostEnv) (s : Store) (userId : String)
    (body : PostBody)
    (hfresh : freshId env s) (hrollback : env.rollbackDelete = none) :
    purchaseAtomic s (postApplications env s userId body).1 userId body := by
  cases hp : precheck env s userId body with
  | error r =>
    rw [post_of_precheck_error hp]
    exact Or.inr ⟨not_hasNewApplication_of_eq rfl, rfl⟩
  | ok t =>
    obtain ⟨leadId, lead, profile⟩ := t
    rw [post_of_precheck_ok hp]
    obtain ⟨hl, -, -, ⟨-, hlead⟩, -, ⟨-, hprofile⟩, -⟩ := precheck_ok_inv hp
    cases hi : env.appInsert with
    | some e =>
      have hc : commit env s userId body leadId lead profile = (s, insertErrorResponse) := by
        simp [commit, hi]
      rw [hc]
      exact Or.inr ⟨not_hasNewApplication_of_eq rfl, rfl⟩
    | none =>
      cases hu : env.profileUpdate with
      | some e =>
        rw [commit_rolled_back hi hu hrollback hfresh]
        exact Or.inr ⟨not_hasNewApplication_of_eq rfl, rfl⟩
      | none =>
        rw [commit_paid hi hu]
        refine Or.inl ⟨⟨newApplication env userId leadId body, by simp, ?_, ?_, rfl⟩,
          lead, ?_, ?_, ?_⟩
        · intro hmem
          exact hfresh _ hmem rfl
        · simp [newApplication, hl]
        · have hmem : lead ∈ activeLeadRows s leadId := by simp [hlead]
          exact (List.mem_filter.mp hmem).1
        · have hmem : lead ∈ activeLeadRows s leadId := by simp [hlead]
          have hid := (List.mem_filter.mp hmem).2
          simp only [Bool.and_eq_true, beq_iff_eq] at hid
          rw [hl, hid.1]
        · rw [balances_setCredits (s := s) rfl]
          simp [balances, hprofile]

/-- Witness of C1 (amended): the balance write fails and the compensating
delete works. -/
theorem C1_atomic_unless_rollback_fails_witness :
    freshId updateFailsEnv (sampleStore 10) ∧ updateFailsEnv.rollbackDelete = none ∧
    purchaseAtomic (sampleStore 10)
      (postApplications updateFailsEnv (sampleStore 10) "u1" bodyL1).1 "u1" bodyL1 :=
  ⟨by simp [freshId, sampleStore], rfl,
   C1_atomic_unless_rollback_fails updateFailsEnv (sampleStore 10) "u1" bodyL1
     (by simp [freshId, sampleStore]) rfl⟩

/-- C7, as stated, fails: the insert succeeds, the balance write fails and so
does the compensating delete; the answer is 500 "Credits update failed" and
the unpaid application row of `u1` for `L1` is still stored. -/
theorem C7_counterexample :
    existingRows (sampleStore 7) "L1" "u1" = [] ∧
    (postApplications rollbackFailsEnv (sampleStore 7) "u1" bodyL1).2.status = 500 ∧
    existingRows (postApplications rollbackFailsEnv (sampleStore 7) "u1" bodyL1).1 "L1" "u1"
      = [newApplication rollbackFailsEnv "u1" "L1" bodyL1] ∧
    balances (postApplications rollbackFailsEnv (sampleStore 7) "u1" bodyL1).1 "u1" = [7] := by
  decide

/-- C7, amended. When all checks pass, the application insert succeeds, the
balance write fails and the compensating delete succeeds (the inserted id
being fresh), the handler answers 500 "Credits update failed" and the store is
exactly as before the request: the inserted row and only it is deleted, no
ledger row is appended, the balance is unchanged; and when the lookup of
existing applications succeeded on a table with at most one row for the pair,
no application row for (leadId, caller) exists afterwards. -/
theorem C7_rollback_restores (env : PostEnv) (s : Store) (userId : String) (body : PostBody)
    (leadId : String) (lead : Lead) (profile : Profile) (e : String)
    (hchecks : precheck env s userId body = .ok (leadId, lead, profile))
    (hinsert : env.appInsert = none) (hupdate : env.profileUpdate = some e)
    (hdelete : env.rollbackDelete = none) (hfresh : freshId env s) :
    (postApplications env s userId body).2.status = 500 ∧
    (postApplications env s userId body).2.error = some "Credits update failed" ∧
    (postApplications env s userId body).1 = s ∧
    newApplication env userId leadId body ∉ (postApplications env s userId body).1.applications ∧
    (postApplications env s userId body).1.credits = s.credits ∧
    balances (postApplications env s userId body).1 userId = [profile.credits] ∧
    (env.existingSelect = none → (existingRows s leadId userId).length ≤ 1 →
      existingRows (postApplications env s userId body).1 leadId userId = []) := by
  obtain ⟨-, -, -, -, hno, ⟨-, hprofile⟩, -⟩ := precheck_ok_inv hchecks
  rw [post_of_precheck_ok hchecks, commit_rolled_back hinsert hupdate hdelete hfresh]
  refine ⟨rfl, rfl, rfl, ?_, rfl, ?_, ?_⟩
  · intro hmem
    exact hfresh _ hmem rfl
  · simp [balances, hprofile]
  · intro hsel hlen
    cases hrows : existingRows s leadId userId with
    | nil => rfl
    | cons a rest =>
      cases rest with
      | nil => exact absurd ⟨hsel, hrows⟩ (hno a)
      | cons b rest => rw [hrows] at hlen; simp at hlen

/-- Witness of C7 (amended): cost 5, balance 10, the balance write fails. -/
theorem C7_rollback_restores_witness :
    (postApplications updateFailsEnv (sampleStore 10) "u1" bodyL1).2.status = 500 ∧
    (postApplications updateFailsEnv (sampleStore 10) "u1" bodyL1).2.error
      = some "Credits update failed" ∧
    (postApplications updateFailsEnv (sampleStore 10) "u1" bodyL1).1 = sampleStore 10 :=
  have h := C7_rollback_restores updateFailsEnv (sampleStore 10) "u1" bodyL1 "L1" leadL1
    { id := "u1", credits := 10, role := "lead-finder" } "connection lost"
    rfl rfl rfl rfl (by simp [freshId, sampleStore])
  ⟨h.1, h.2.1, h.2.2.1⟩

/-- C8. When all checks pass and the application insert and the balance write
succeed but the ledger insert fails, the handler still answers 201 with the
created application and `remainingCredits = balance - credit_cost`; the
application row is stored and the balance is debited.  Response and store are
those of the run in which the ledger insert succeeds, except that the ledger
is the one before the request. -/
theorem C8_ledger_failure_ignored (env : PostEnv) (s : Store) (userId : String)
    (body : PostBody) (leadId : String) (lead : Lead) (profile : Profile) (e : String)
    (hchecks : precheck env s userId body = .ok (leadId, lead, profile))
    (hinsert : env.appInsert = none) (hupdate : env.profileUpdate = none)
    (hledger : env.creditsInsert = some e) :
    (postApplications env s userId body).2.status = 201 ∧
    (postApplications env s userId body).2.remainingCredits
      = some (profile.credits - lead.credit_cost) ∧
    (∃ a : Application, (postApplications env s userId body).2.application = some a ∧
      a.lead_id = leadId ∧ a.applicant_id = userId ∧
      (postApplications env s userId body).1.applications = s.applications ++ [a]) ∧
    balances (postApplications env s userId body).1 userId
      = [profile.credits - lead.credit_cost] ∧
    (postApplications env s userId body).1.credits = s.credits ∧
    (postApplications env s userId body).2
      = (postApplications { env with creditsInsert := none } s userId body).2 ∧
    (postApplications env s userId body).1
      = { (postApplications { env with creditsInsert := none } s userId body).1 with
          credits := s.credits } ∧
    (postApplications { env with creditsInsert := none } s userId body).1.credits
      = s.credits ++ [purchaseTransaction userId lead] := by
  obtain ⟨-, -, -, -, -, ⟨-, hprofile⟩, -⟩ := precheck_ok_inv hchecks
  have hchecks' : precheck { env with creditsInsert := none } s userId body
      = .ok (leadId, lead, profile) := hchecks
  have hpaid := @commit_paid { env with creditsInsert := none } s userId body leadId lead profile
    hinsert hupdate
  rw [post_of_precheck_ok hchecks, post_of_precheck_ok hchecks', commit_paid hinsert hupdate,
    hpaid]
  rw [hledger]
  refine ⟨rfl, rfl, ⟨newApplication env userId leadId body, rfl, rfl, rfl, rfl⟩, ?_, rfl, rfl,
    rfl, rfl⟩
  rw [balances_setCredits (s := s) rfl]
  simp [balances, hprofile]

/-- Witness of C8: cost 5, balance 10, the ledger insert fails. -/
theorem C8_ledger_failure_ignored_witness :
    (postApplications ledgerFailsEnv (sampleStore 10) "u1" bodyL1).2.status = 201 ∧
    (postApplications ledgerFailsEnv (sampleStore 10) "u1" bodyL1).2.remainingCredits
      = some (10 - 5) ∧
    (postApplications ledgerFailsEnv (sampleStore 10) "u1" bodyL1).1.credits = [] :=
  have h := C8_ledger_failure_ignored ledgerFailsEnv (sampleStore 10) "u1" bodyL1 "L1" leadL1
    { id := "u1", credits := 10, role := "lead-finder" } "connection lost"
    rfl rfl rfl rfl
  ⟨h.1, h.2.1, h.2.2.2.2.1⟩

/-! ## Claims C9, C10 -/

theorem find?_eq_head?_filter {α : Type} (p : α → Bool) (l : List α) :
    l.find? p = (l.filter p).head? := by
  induction l with
  | nil => rfl
  | cons a l ih =>
    cases h : p a
    · rw [List.find?_cons_of_neg _ (by simp [h]), List.filter_cons_of_neg (by simp [h])]
      exact ih
    · rw [List.find?_cons_of_pos _ h, List.filter_cons_of_pos h]
      rfl

theorem any_eq_filter_isEmpty {α : Type} (p : α → Bool) (l : List α) :
    l.any p = !(l.filter p).isEmpty := by
  induction l with
  | nil => rfl
  | cons a l ih =>
    cases h : p a <;> simp [List.any_cons, List.filter_cons, h, ih]

/-- A member of the table after the balance write is an old row or carries
the written balance. -/
theorem mem_setCredits {ps : List Profile} {u : String} {c : Int} {p : Profile}
    (h : p ∈ setCredits ps u c) : p ∈ ps ∨ p.credits = c := by
  unfold setCredits at h
  obtain ⟨q, hq, rfl⟩ := List.mem_map.mp h
  by_cases hid : (q.id == u) = true
  · right; simp [hid]
  · left; simpa [hid] using hq

/-- The profiles after the commit sequence are the old ones or the ones of the
balance write. -/
theorem commit_profiles (env : PostEnv) (s : Store) (userId : String) (body : PostBody)
    (leadId : String) (lead : Lead) (profile : Profile) :
    (commit env s userId body leadId lead profile).1.profiles = s.profiles ∨
    (commit env s userId body leadId lead profile).1.profiles
      = setCredits s.profiles userId (profile.credits - lead.credit_cost) := by
  unfold commit
  cases env.appInsert with
  | some e => left; rfl
  | none =>
    cases env.profileUpdate with
    | some e => cases env.rollbackDelete <;> (left; rfl)
    | none => cases env.creditsInsert <;> (right; rfl)

/-- C10. In a store whose balances are all non-negative, after any
`POST /applications` request, whatever the store calls do and whatever the
response, every stored balance is still non-negative; on a 201 response
`remainingCredits` is non-negative. -/
theorem C10_balances_stay_nonnegative (env : PostEnv) (s : Store) (userId : String)
    (body : PostBody) (hnonneg : ∀ p ∈ s.profiles, 0 ≤ p.credits) :
    (∀ p ∈ (postApplications env s userId body).1.profiles, 0 ≤ p.credits) ∧
    ((postApplications env s userId body).2.status = 201 →
      ∃ c, (postApplications env s userId body).2.remainingCredits = some c ∧ 0 ≤ c) := by
  cases hp : precheck env s userId body with
  | error r =>
    rw [post_of_precheck_error hp]
    exact ⟨hnonneg, fun h => absurd h (precheck_error_status hp)⟩
  | ok t =>
    obtain ⟨leadId, lead, profile⟩ := t
    obtain ⟨-, -, -, -, -, -, hbal, -⟩ := precheck_ok_inv hp
    rw [post_of_precheck_ok hp]
    constructor
    · intro p hmem
      rcases commit_profiles env s userId body leadId lead profile with h | h
      · rw [h] at hmem; exact hnonneg p hmem
      · rw [h] at hmem
        rcases mem_setCredits hmem with h' | h'
        · exact hnonneg p h'
        · omega
    · intro h201
      obtain ⟨hi, hu⟩ := commit_status_201 h201
      rw [commit_paid hi hu]
      exact ⟨profile.credits - lead.credit_cost, rfl, by omega⟩

/-- Witness of C10: a purchase of cost 5 with balance 10. -/
theorem C10_balances_stay_nonnegative_witness :
    (∀ p ∈ (sampleStore 10).profiles, 0 ≤ p.credits) ∧
    (∀ p ∈ (postApplications (okEnv 0) (sampleStore 10) "u1" bodyL1).1.profiles,
      0 ≤ p.credits) ∧
    ((postApplications (okEnv 0) (sampleStore 10) "u1" bodyL1).2.status = 201 →
      ∃ c, (postApplications (okEnv 0) (sampleStore 10) "u1" bodyL1).2.remainingCredits
        = some c ∧ 0 ≤ c) :=
  ⟨by decide, C10_balances_stay_nonnegative (okEnv 0) (sampleStore 10) "u1" bodyL1 (by decide)⟩

/-- Order of the checks. When no store call of the checks fails (both counts answer, the three
reads succeed), the caller has a profile and the tables hold at most one active
row per lead id and at most one application per (lead, applicant), the outcome
of `POST /applications` is that of the first failing check in the order
(1) leadId missing, (2) count >= 6, (3) lead absent or not active, (4) caller
already applied, (5) balance < cost, (6) re-checked count >= 6: the response of
that check with the store unchanged; all checks pass exactly when none fails,
and an application is inserted only then. -/
theorem post_first_failing_check (env : PostEnv) (s : Store) (userId : String) (body : PostBody)
    (n1 n2 : Int) (profile : Profile)
    (hc1 : env.count1 = .ok n1) (hc2 : env.count2 = .ok n2)
    (hreads : env.leadSelect = none ∧ env.existingSelect = none ∧ env.profileSelect = none)
    (hleadKey : (activeLeadRows s (body.leadId.getD "")).length ≤ 1)
    (hpairKey : (existingRows s (body.leadId.getD "") userId).length ≤ 1)
    (hprofile : profileRows s userId = [profile]) :
    (∀ r, firstFailing (postChecks s userId body n1 n2) = some r →
      postApplications env s userId body = (s, r)) ∧
    (firstFailing (postChecks s userId body n1 n2) = none →
      ∃ leadId lead, precheck env s userId body = .ok (leadId, lead, profile)) ∧
    ((postApplications env s userId body).1.applications ≠ s.applications →
      firstFailing (postChecks s userId body n1 n2) = none) := by
  obtain ⟨hls, hes, hps⟩ := hreads
  have hbalfind : s.profiles.find? (fun p => p.id == userId) = some profile := by
    rw [find?_eq_head?_filter]
    change (profileRows s userId).head? = _
    rw [hprofile]
    rfl
  have key : (∀ r, firstFailing (postChecks s userId body n1 n2) = some r →
      precheck env s userId body = .error r) ∧
    (firstFailing (postChecks s userId body n1 n2) = none →
      ∃ leadId lead, precheck env s userId body = .ok (leadId, lead, profile)) := by
    cases hb : body.leadId with
    | none =>
      have hf : firstFailing (postChecks s userId body n1 n2) = some missingLeadResponse := by
        simp [postChecks, firstFailing, hb]
      have hpre : precheck env s userId body = .error missingLeadResponse := by
        simp [precheck, hb]
      rw [hf, hpre]
      simp
    | some l =>
      rw [hb] at hleadKey hpairKey
      simp only [Option.getD_some] at hleadKey hpairKey
      have hfind : s.leads.find? (fun x => x.id == l && x.status == "active")
          = (activeLeadRows s l).head? := find?_eq_head?_filter _ _
      have hany : s.applications.any (fun a => a.lead_id == l && a.applicant_id == userId)
          = !(existingRows s l userId).isEmpty := any_eq_filter_isEmpty _ _
      by_cases hl : l = ""
      · have hf : firstFailing (postChecks s userId body n1 n2) = some missingLeadResponse := by
          simp [postChecks, firstFailing, hb, hl]
        have hpre : precheck env s userId body = .error missingLeadResponse := by
          simp [precheck, hb, hl]
        rw [hf, hpre]
        simp
      · by_cases h6 : n1 ≥ 6
        · have hf : firstFailing (postChecks s userId body n1 n2) = some maxReachedResponse := by
            simp [postChecks, firstFailing, hb, hl, h6]
          have hpre : precheck env s userId body = .error maxReachedResponse := by
            simp [precheck, hb, hl, hc1, h6]
          rw [hf, hpre]
          simp
        · cases hrows : activeLeadRows s l with
          | nil =>
            have hf : firstFailing (postChecks s userId body n1 n2)
                = some leadNotFoundResponse := by
              simp [postChecks, firstFailing, hb, hl, h6, hfind, hrows]
            have hpre : precheck env s userId body = .error leadNotFoundResponse := by
              simp [precheck, hb, hl, hc1, h6, hls, hrows, selectSingle, single]
            rw [hf, hpre]
            simp
          | cons lead rest =>
            have hrest : rest = [] := by
              rw [hrows] at hleadKey
              cases rest with
              | nil => rfl
              | cons x xs => simp at hleadKey
            subst hrest
            cases hex : existingRows s l userId with
            | cons a rest2 =>
              have hrest2 : rest2 = [] := by
                rw [hex] at hpairKey
                cases rest2 with
                | nil => rfl
                | cons x xs => simp at hpairKey
              subst hrest2
              have hf : firstFailing (postChecks s userId body n1 n2)
                  = some alreadyAppliedResponse := by
                simp [postChecks, firstFailing, hb, hl, h6, hfind, hrows, hany, hex]
              have hpre : precheck env s userId body = .error alreadyAppliedResponse := by
                simp [precheck, hb, hl, hc1, h6, hls, hrows, hes, hex, selectSingle_ok]
              rw [hf, hpre]
              simp
            | nil =>
              by_cases hlt : profile.credits < lead.credit_cost
              · have hf : firstFailing (postChecks s userId body n1 n2)
                    = some (insufficientCreditsResponse lead.credit_cost profile.credits) := by
                  simp [postChecks, firstFailing, hb, hl, h6, hfind, hrows, hany, hex, hbalfind,
                    hlt]
                have hpre : precheck env s userId body
                    = .error (insufficientCreditsResponse lead.credit_cost profile.credits) := by
                  simp [precheck, hb, hl, hc1, h6, hls, hrows, hes, hex, selectSingle_ok,
                    selectSingle, single, hps, hprofile, hlt]
                rw [hf, hpre]
                simp
              · by_cases h62 : n2 ≥ 6
                · have hf : firstFailing (postChecks s userId body n1 n2)
                      = some maxReachedResponse := by
                    simp [postChecks, firstFailing, hb, hl, h6, hfind, hrows, hany, hex, hbalfind,
                      hlt, h62]
                  have hpre : precheck env s userId body = .error maxReachedResponse := by
                    simp [precheck, hb, hl, hc1, h6, hls, hrows, hes, hex, selectSingle_ok,
                      selectSingle, single, hps, hprofile, hlt, hc2, h62]
                  rw [hf, hpre]
                  simp
                · have hf : firstFailing (postChecks s userId body n1 n2) = none := by
                    simp [postChecks, firstFailing, hb, hl, h6, hfind, hrows, hany, hex, hbalfind,
                      hlt, h62]
                  have hpre : precheck env s userId body = .ok (l, lead, profile) := by
                    simp [precheck, hb, hl, hc1, h6, hls, hrows, hes, hex, selectSingle_ok,
                      selectSingle, single, hps, hprofile, hlt, hc2, h62]
                  rw [hf, hpre]
                  simp
  refine ⟨fun r hr => post_of_precheck_error (key.1 r hr), key.2, ?_⟩
  intro hne
  cases hf : firstFailing (postChecks s userId body n1 n2) with
  | none => rfl
  | some r =>
    rw [post_of_precheck_error (key.1 r hf)] at hne
    exact absurd rfl hne

/-- The order of the checks on three cases: a full and
closed lead answers 400 (`maxReached`), a closed lead the caller already
applied to answers 404, and a caller who already applied and lacks credits is
answered 409. -/
theorem post_first_failing_check_examples :
    postApplications (okEnv 6) closedAppliedStore "u1" bodyL1
      = (closedAppliedStore, maxReachedResponse) ∧
    postApplications (okEnv 1) closedAppliedStore "u1" bodyL1
      = (closedAppliedStore, leadNotFoundResponse) ∧
    postApplications (okEnv 1) poorAppliedStore "u1" bodyL1
      = (poorAppliedStore, alreadyAppliedResponse) :=
  ⟨(post_first_failing_check (okEnv 6) closedAppliedStore "u1" bodyL1 6 6
      { id := "u1", credits := 10, role := "lead-finder" }
      rfl rfl ⟨rfl, rfl, rfl⟩ (by decide) (by decide) (by decide)).1
      maxReachedResponse (by decide),
   (post_first_failing_check (okEnv 1) closedAppliedStore "u1" bodyL1 1 1
      { id := "u1", credits := 10, role := "lead-finder" }
      rfl rfl ⟨rfl, rfl, rfl⟩ (by decide) (by decide) (by decide)).1
      leadNotFoundResponse (by decide),
   (post_first_failing_check (okEnv 1) poorAppliedStore "u1" bodyL1 1 1
      { id := "u1", credits := 3, role := "lead-finder" }
      rfl rfl ⟨rfl, rfl, rfl⟩ (by decide) (by decide) (by decide)).1
      alreadyAppliedResponse (by decide)⟩

/-- C9 fails on the code at check (4). The table holds two application rows
of `u1` for the active lead `L1`, `u1` holds 10 credits, the lead costs 5 and
both counts answer 2, every store call succeeding. The caller has already
applied, so the first failing check is (4) and the outcome the order of the
checks prescribes is 409 "Already applied" with nothing inserted; the handler
answers 201, inserts a third row for the pair and takes 5 credits. -/
theorem C9_duplicate_rows_skip_conflict :
    existingRows twiceAppliedStore "L1" "u1"
      = [earlierApplication, { earlierApplication with id := "a00" }] ∧
    firstFailing (postChecks twiceAppliedStore "u1" bodyL1 2 2) = some alreadyAppliedResponse ∧
    (postApplications (buyEnv "a3" 2) twiceAppliedStore "u1" bodyL1).2.status = 201 ∧
    (postApplications (buyEnv "a3" 2) twiceAppliedStore "u1" bodyL1).2.remainingCredits
      = some 5 ∧
    (existingRows (postApplications (buyEnv "a3" 2) twiceAppliedStore "u1" bodyL1).1
      "L1" "u1").length = 3 := by
  refine ⟨by decide, by decide, by decide, by decide, by decide⟩

/-! ## Lemmas on `PUT /applications/:id` -/

/-- The rows with the updated id after the status write. -/
theorem applicationRows_setStatus (apps : List Application) (id st t : String) :
    (setStatus apps id st t).filter (fun a => a.id == id) =
      (apps.filter (fun a => a.id == id)).map
        (fun a => { a with status := st, updated_at := t }) := by
  induction apps with
  | nil => rfl
  | cons a apps ih =>
    by_cases ha : a.id = id
    · simp [setStatus, List.filter_cons, ha] at ih ⊢
      exact ih
    · simp [setStatus, List.filter_cons, ha] at ih ⊢
      exact ih

/-- The status update when the write succeeds and one row has the id. -/
theorem updateStatus_ok {env : PutEnv} {s : Store} {id st : String} {application : Application}
    (hu : env.appUpdate = none) (happ : applicationRows s id = [application]) :
    updateStatus env s id st =
      ({ s with applications := setStatus s.applications id st env.updatedAt },
        statusUpdatedResponse st
          { application with status := st, updated_at := env.updatedAt }) := by
  unfold applicationRows at happ
  simp [updateStatus, hu, applicationRows_setStatus, happ, single]

/-- The status update never answers `400`, and answers `200` only after
writing the status. -/
theorem updateStatus_cases (env : PutEnv) (s : Store) (id st : String) :
    (updateStatus env s id st = (s, statusUpdateErrorResponse)) ∨
    (∃ updated, updateStatus env s id st =
      ({ s with applications := setStatus s.applications id st env.updatedAt },
        statusUpdatedResponse st updated)) := by
  unfold updateStatus
  cases env.appUpdate with
  | some e => left; rfl
  | none =>
    cases single ((setStatus s.applications id st env.updatedAt).filter
        (fun a => a.id == id)) with
    | error e => left; rfl
    | ok updated => right; exact ⟨updated, rfl⟩

/-- Membership of a status in the list of the three valid values. -/
theorem contains_valid_iff (st : String) :
    ["accepted", "rejected", "pending"].contains st = true ↔
      st = "accepted" ∨ st = "rejected" ∨ st = "pending" := by
  rw [List.contains, List.elem_iff]
  simp

/-- The handler after the validation, the application lookup and the ownership
check have passed. -/
theorem put_of_owner {env : PutEnv} {s : Store} {userId id st : String} {body : PutBody}
    {application : Application} {lead : Lead}
    (hstatus : body.status = some st)
    (hvalid : st = "accepted" ∨ st = "rejected" ∨ st = "pending")
    (hsel : env.appSelect = none) (happ : applicationRows s id = [application])
    (hlead : parentLead s application = some lead) (hown : lead.created_by = userId) :
    putApplication env s userId id body =
      if st = "accepted" then
        match selectSingle env.acceptedSelect (otherAcceptedRows s application.lead_id id) with
        | .ok _ => (s, alreadyAcceptedResponse)
        | .error _ =>
          match env.leadUpdate with
          | some _ => updateStatus env s id st
          | none =>
            updateStatus env
              { s with leads := (assignLead s.leads application.lead_id
                  application.applicant_id env.assignedAt) } id st
      else updateStatus env s id st := by
  have hc := (contains_valid_iff st).mpr hvalid
  unfold putApplication
  simp only [hstatus, hc, hsel, happ, selectSingle_ok, hlead, hown]
  simp

/-- The parent lead of an application after the assignment of its lead. -/
theorem find?_assignLead (leads : List Lead) (leadId applicantId t : String) :
    (assignLead leads leadId applicantId t).find? (fun l => l.id == leadId) =
      (leads.find? (fun l => l.id == leadId)).map
        (fun l => { l with assigned_to := some applicantId, assigned_at := some t }) := by
  induction leads with
  | nil => rfl
  | cons l leads ih =>
    by_cases hl : l.id = leadId
    · simp [assignLead, List.find?_cons, hl]
    · simp [assignLead, List.find?_cons, hl] at ih ⊢
      exact ih

/-- The accepting run of the handler when no other accepted application is
found and the lead update and the status update succeed. -/
theorem put_accept_ok {env : PutEnv} {s : Store} {userId id : String} {body : PutBody}
    {application : Application} {lead : Lead}
    (hstatus : body.status = some "accepted") (hnom : env.nominal)
    (happ : applicationRows s id = [application])
    (hlead : parentLead s application = some lead) (hown : lead.created_by = userId)
    (hnot : ∀ x, otherAcceptedRows s application.lead_id id ≠ [x]) :
    putApplication env s userId id body =
      ({ s with
          leads := assignLead s.leads application.lead_id application.applicant_id
            env.assignedAt,
          applications := setStatus s.applications id "accepted" env.updatedAt },
        statusUpdatedResponse "accepted"
          { application with status := "accepted", updated_at := env.updatedAt }) := by
  obtain ⟨hsel, hacc, hlu, hau⟩ := hnom
  rw [put_of_owner hstatus (Or.inl rfl) hsel happ hlead hown]
  have herr : ∃ e, selectSingle env.acceptedSelect
      (otherAcceptedRows s application.lead_id id) = .error e := by
    cases h : selectSingle env.acceptedSelect (otherAcceptedRows s application.lead_id id) with
    | error e => exact ⟨e, rfl⟩
    | ok x => exact absurd (selectSingle_eq_ok.mp h).2 (hnot x)
  obtain ⟨e, he⟩ := herr
  simp only [he, hlu, if_true]
  exact updateStatus_ok hau happ

/-- The run of the handler for a target other than accepted when the status
update succeeds. -/
theorem put_other_ok {env : PutEnv} {s : Store} {userId id st : String} {body : PutBody}
    {application : Application} {lead : Lead}
    (hstatus : body.status = some st) (hvalid : st = "rejected" ∨ st = "pending")
    (hsel : env.appSelect = none) (hau : env.appUpdate = none)
    (happ : applicationRows s id = [application])
    (hlead : parentLead s application = some lead) (hown : lead.created_by = userId) :
    putApplication env s userId id body =
      ({ s with applications := setStatus s.applications id st env.updatedAt },
        statusUpdatedResponse st { application with status := st, updated_at := env.updatedAt })
    := by
  have hne : st ≠ "accepted" := by
    rcases hvalid with h | h <;> (subst h; decide)
  rw [put_of_owner hstatus (Or.inr hvalid) hsel happ hlead hown, if_neg hne,
    updateStatus_ok hau happ]

/-- Every run of the handler ends in one of its five early returns or in the
status update, on the store as it was or on the store with the lead assigned. -/
theorem put_cases (env : PutEnv) (s : Store) (userId id : String) (body : PutBody) :
    (putApplication env s userId id body = (s, invalidStatusResponse) ∧
      body.status ≠ some "accepted" ∧ body.status ≠ some "rejected" ∧
      body.status ≠ some "pending") ∨
    ∃ st, body.status = some st ∧ (st = "accepted" ∨ st = "rejected" ∨ st = "pending") ∧
      (putApplication env s userId id body = (s, applicationNotFoundResponse) ∨
       putApplication env s userId id body = (s, putInternalErrorResponse) ∨
       putApplication env s userId id body = (s, accessDeniedResponse) ∨
       putApplication env s userId id body = (s, alreadyAcceptedResponse) ∨
       ∃ application lead,
         selectSingle env.appSelect (applicationRows s id) = .ok application ∧
         parentLead s application = some lead ∧ lead.created_by = userId ∧
         ((st ≠ "accepted" ∧ putApplication env s userId id body = updateStatus env s id st) ∨
          (st = "accepted" ∧
           (∃ e, selectSingle env.acceptedSelect
              (otherAcceptedRows s application.lead_id id) = .error e) ∧
           (putApplication env s userId id body = updateStatus env s id st ∨
            putApplication env s userId id body = updateStatus env
              { s with leads := (assignLead s.leads application.lead_id
                  application.applicant_id env.assignedAt) } id st)))) := by
  unfold putApplication
  split
  · rename_i hs
    left
    simp [hs]
  · rename_i st hs
    split
    · rename_i hc
      left
      refine ⟨rfl, ?_, ?_, ?_⟩ <;>
        (intro h; rw [hs] at h; cases h; simp [List.contains, List.elem] at hc)
    · rename_i hc
      have hv : st = "accepted" ∨ st = "rejected" ∨ st = "pending" := by
        cases hcon : ["accepted", "rejected", "pending"].contains st with
        | true => exact (contains_valid_iff st).mp hcon
        | false => rw [hcon] at hc; exact absurd rfl hc
      right
      refine ⟨st, hs, hv, ?_⟩
      split
      · left; rfl
      · rename_i application happ
        split
        · right; left; rfl
        · rename_i lead hlead
          split
          · right; right; left; rfl
          · rename_i hown
            have hown' : lead.created_by = userId := by
              by_contra hne
              exact hown hne
            split
            · rename_i hacc
              split
              · right; right; right; left; rfl
              · rename_i e he
                right; right; right; right
                refine ⟨application, lead, happ, hlead, hown', Or.inr ⟨hacc, ⟨e, he⟩, ?_⟩⟩
                split
                · left; rfl
                · right; rfl
            · rename_i hacc
              right; right; right; right
              exact ⟨application, lead, happ, hlead, hown', Or.inl ⟨hacc, rfl⟩⟩

/-- The status update answers `500` or `200`. -/
theorem updateStatus_status (env : PutEnv) (s : Store) (id st : String) :
    (updateStatus env s id st).2.status = 500 ∨ (updateStatus env s id st).2.status = 200 := by
  rcases updateStatus_cases env s id st with h | ⟨u, h⟩ <;> rw [h]
  · left; rfl
  · right; rfl

/-! ## Claims C15 - C17, C19 -/

/-- C15. For an existing application whose parent lead was created by someone
other than the caller, `PUT /applications/:id` with any of the three valid
statuses answers 403 and leaves the store as it was: the status of the
application and `assigned_to`/`assigned_at` of the lead are unchanged. -/
theorem C15_not_owner_forbidden (env : PutEnv) (s : Store) (userId id st : String)
    (body : PutBody) (application : Application) (lead : Lead)
    (hstatus : body.status = some st)
    (hvalid : st = "accepted" ∨ st = "rejected" ∨ st = "pending")
    (hsel : env.appSelect = none) (happ : applicationRows s id = [application])
    (hlead : parentLead s application = some lead) (hother : lead.created_by ≠ userId) :
    (putApplication env s userId id body).2.status = 403 ∧
    (putApplication env s userId id body).1 = s := by
  have hc := (contains_valid_iff st).mpr hvalid
  have h : putApplication env s userId id body = (s, accessDeniedResponse) := by
    unfold putApplication
    simp only [hstatus, hc, hsel, happ, selectSingle_ok, hlead]
    simp [hother]
  rw [h]
  exact ⟨rfl, rfl⟩

/-- Witness of C15: `u2`, who does not own `L1`, tries to reject application
`A`. -/
theorem C15_not_owner_forbidden_witness :
    (putApplication okPutEnv twoPendingStore "u2" "A" { status := some "rejected" }).2.status
      = 403 ∧
    (putApplication okPutEnv twoPendingStore "u2" "A" { status := some "rejected" }).1
      = twoPendingStore :=
  C15_not_owner_forbidden okPutEnv twoPendingStore "u2" "A" "rejected"
    { status := some "rejected" } (pendingApplication "A" "u1") leadL1
    rfl (Or.inr (Or.inl rfl)) rfl (by decide) (by decide) (by decide)

/-- C16. A status other than exactly "accepted", "rejected" or "pending"
(a missing status included) is answered 400 with the store untouched, for
every outcome of the store calls and every store content: the answer does not
depend on the store.  A status among the three is never answered 400. -/
theorem C16_status_validation (body : PutBody) :
    (body.status ≠ some "accepted" → body.status ≠ some "rejected" →
      body.status ≠ some "pending" →
      ∀ (env : PutEnv) (s : Store) (userId id : String),
        (putApplication env s userId id body).2.status = 400 ∧
        (putApplication env s userId id body).1 = s ∧
        ∀ (env' : PutEnv) (s' : Store),
          (putApplication env' s' userId id body).2 = (putApplication env s userId id body).2) ∧
    ((body.status = some "accepted" ∨ body.status = some "rejected" ∨
        body.status = some "pending") →
      ∀ (env : PutEnv) (s : Store) (userId id : String),
        (putApplication env s userId id body).2.status ≠ 400) := by
  constructor
  · intro h1 h2 h3
    have hall : ∀ (env : PutEnv) (s : Store) (userId id : String),
        putApplication env s userId id body = (s, invalidStatusResponse) := by
      intro env s userId id
      rcases put_cases env s userId id body with ⟨h, -⟩ | ⟨st, hs, hv, -⟩
      · exact h
      · rcases hv with h | h | h
        · exact absurd (by rw [hs, h]) h1
        · exact absurd (by rw [hs, h]) h2
        · exact absurd (by rw [hs, h]) h3
    intro env s userId id
    rw [hall]
    refine ⟨rfl, rfl, ?_⟩
    intro env' s'
    rw [hall]
  · intro hvalid env s userId id
    rcases put_cases env s userId id body with ⟨-, h1, h2, h3⟩ | ⟨st, hs, hv, hcases⟩
    · rcases hvalid with h | h | h
      · exact absurd h h1
      · exact absurd h h2
      · exact absurd h h3
    · have hstep : ∀ s0 : Store, (updateStatus env s0 id st).2.status ≠ 400 := by
        intro s0
        rcases updateStatus_status env s0 id st with h | h <;> rw [h] <;> decide
      rcases hcases with h | h | h | h | ⟨application, lead, -, -, -, h⟩
      · rw [h]; show applicationNotFoundResponse.status ≠ 400; decide
      · rw [h]; show putInternalErrorResponse.status ≠ 400; decide
      · rw [h]; show accessDeniedResponse.status ≠ 400; decide
      · rw [h]; show alreadyAcceptedResponse.status ≠ 400; decide
      · rcases h with ⟨-, h⟩ | ⟨-, -, h | h⟩ <;> rw [h] <;> exact hstep _

/-- Witness of C16: a misspelt status and a missing status are answered 400,
and the valid status "pending" is not. -/
theorem C16_status_validation_witness :
    (putApplication okPutEnv twoPendingStore "owner1" "A" { status := some "Accepted" }).2.status
      = 400 ∧
    (putApplication okPutEnv twoPendingStore "owner1" "A" { status := none }).2.status = 400 ∧
    (putApplication okPutEnv twoPendingStore "owner1" "A" { status := some "pending" }).2.status
      ≠ 400 :=
  ⟨((C16_status_validation { status := some "Accepted" }).1 (by decide) (by decide) (by decide)
      okPutEnv twoPendingStore "owner1" "A").1,
   ((C16_status_validation { status := none }).1 (by decide) (by decide) (by decide)
      okPutEnv twoPendingStore "owner1" "A").1,
   (C16_status_validation { status := some "pending" }).2 (Or.inr (Or.inr rfl))
      okPutEnv twoPendingStore "owner1" "A"⟩

/-- C17. For an application `A` of a lead owned by the caller with no other
accepted application on that lead, when every store call succeeds
`PUT /applications/:id` with status accepted answers 200 with `A` updated to
accepted; afterwards the stored row of `A` has status accepted, its lead has
`assigned_to` equal to the applicant of `A`; every application with another id
and every lead with another id is as before, and profiles and ledger are
untouched. -/
theorem C17_accept_succeeds (env : PutEnv) (s : Store) (userId id : String) (body : PutBody)
    (application : Application) (lead : Lead)
    (hstatus : body.status = some "accepted") (hnom : env.nominal)
    (happ : applicationRows s id = [application])
    (hlead : parentLead s application = some lead) (hown : lead.created_by = userId)
    (hnone : otherAcceptedRows s application.lead_id id = []) :
    (putApplication env s userId id body).2.status = 200 ∧
    (putApplication env s userId id body).2.application
      = some { application with status := "accepted", updated_at := env.updatedAt } ∧
    applicationRows (putApplication env s userId id body).1 id
      = [{ application with status := "accepted", updated_at := env.updatedAt }] ∧
    parentLead (putApplication env s userId id body).1 application
      = some { lead with assigned_to := some application.applicant_id,
                         assigned_at := some env.assignedAt } ∧
    (putApplication env s userId id body).1.applications
      = s.applications.map (fun a =>
          if a.id = id then { a with status := "accepted", updated_at := env.updatedAt }
          else a) ∧
    (putApplication env s userId id body).1.leads
      = s.leads.map (fun l =>
          if l.id = application.lead_id then
            { l with assigned_to := some application.applicant_id,
                     assigned_at := some env.assignedAt }
          else l) ∧
    (putApplication env s userId id body).1.profiles = s.profiles ∧
    (putApplication env s userId id body).1.credits = s.credits := by
  rw [put_accept_ok hstatus hnom happ hlead hown (by rw [hnone]; simp)]
  refine ⟨rfl, rfl, ?_, ?_, ?_, ?_, rfl, rfl⟩
  · show (setStatus s.applications id "accepted" env.updatedAt).filter (fun a => a.id == id) = _
    rw [applicationRows_setStatus]
    unfold applicationRows at happ
    rw [happ]
    rfl
  · show (assignLead s.leads application.lead_id application.applicant_id env.assignedAt).find?
      (fun l => l.id == application.lead_id) = _
    rw [find?_assignLead]
    unfold parentLead at hlead
    rw [hlead]
    rfl
  · simp [setStatus]
  · simp [assignLead]

/-- Witness of C17: the owner accepts the pending application `A` of `u1`. -/
theorem C17_accept_succeeds_witness :
    (putApplication okPutEnv twoPendingStore "owner1" "A" acceptBody).2.status = 200 ∧
    applicationRows (putApplication okPutEnv twoPendingStore "owner1" "A" acceptBody).1 "A"
      = [{ pendingApplication "A" "u1" with
            status := "accepted", updated_at := "2024-03-03T10:01" }] ∧
    parentLead (putApplication okPutEnv twoPendingStore "owner1" "A" acceptBody).1
        (pendingApplication "A" "u1")
      = some { leadL1 with assigned_to := some "u1", assigned_at := some "2024-03-03T10:00" } :=
  have h := C17_accept_succeeds okPutEnv twoPendingStore "owner1" "A" acceptBody
    (pendingApplication "A" "u1") leadL1 rfl ⟨rfl, rfl, rfl, rfl⟩ (by decide) (by decide) rfl
    (by decide)
  ⟨h.1, h.2.2.1, h.2.2.2.1⟩

/-- C19. No status is terminal: for an application of a lead owned by the
caller, whatever its current status, and a target among pending, accepted and
rejected, `PUT /applications/:id` answers 200 and stores the target status
when every store call succeeds, unless the target is accepted and another
application of the same lead is currently accepted. -/
theorem C19_no_terminal_status (env : PutEnv) (s : Store) (userId id target : String)
    (body : PutBody) (application : Application) (lead : Lead)
    (hstatus : body.status = some target)
    (hvalid : target = "pending" ∨ target = "accepted" ∨ target = "rejected")
    (hnom : env.nominal)
    (happ : applicationRows s id = [application])
    (hlead : parentLead s application = some lead) (hown : lead.created_by = userId)
    (hexcl : target = "accepted" → otherAcceptedRows s application.lead_id id = []) :
    (putApplication env s userId id body).2.status = 200 ∧
    applicationRows (putApplication env s userId id body).1 id
      = [{ application with status := target, updated_at := env.updatedAt }] := by
  have hrows : ∀ (s' : Store), s'.applications = setStatus s.applications id target env.updatedAt →
      applicationRows s' id
        = [{ application with status := target, updated_at := env.updatedAt }] := by
    intro s' hs'
    unfold applicationRows at happ ⊢
    rw [hs', applicationRows_setStatus, happ]
    rfl
  by_cases hacc : target = "accepted"
  · subst hacc
    rw [put_accept_ok hstatus hnom happ hlead hown (by rw [hexcl rfl]; simp)]
    exact ⟨rfl, hrows _ rfl⟩
  · have hv : target = "rejected" ∨ target = "pending" := by
      rcases hvalid with h | h | h
      · exact Or.inr h
      · exact absurd h hacc
      · exact Or.inl h
    rw [put_other_ok hstatus hv hnom.1 hnom.2.2.2 happ hlead hown]
    exact ⟨rfl, hrows _ rfl⟩

/-- Witness of C19: an accepted application created by a purchase is moved to
pending, then from pending to rejected. -/
theorem C19_no_terminal_status_witness :
    (putApplication okPutEnv afterOnePurchase "owner1" "a1" { status := some "pending" }).2.status
      = 200 ∧
    (putApplication laterPutEnv
      (putApplication okPutEnv afterOnePurchase "owner1" "a1" { status := some "pending" }).1
      "owner1" "a1" { status := some "rejected" }).2.status = 200 :=
  ⟨(C19_no_terminal_status okPutEnv afterOnePurchase "owner1" "a1" "pending"
      { status := some "pending" } (newApplication (buyEnv "a1" 0) "u1" "L1" bodyL1)
      { leadL1 with assigned_to := none } rfl (Or.inl rfl) ⟨rfl, rfl, rfl, rfl⟩
      (by decide) (by decide) rfl (by decide)).1,
   (C19_no_terminal_status laterPutEnv
      (putApplication okPutEnv afterOnePurchase "owner1" "a1" { status := some "pending" }).1
      "owner1" "a1" "rejected" { status := some "rejected" }
      { newApplication (buyEnv "a1" 0) "u1" "L1" bodyL1 with
          status := "pending", updated_at := "2024-03-03T10:01" }
      leadL1 rfl (Or.inr (Or.inr rfl)) ⟨rfl, rfl, rfl, rfl⟩
      (by decide) (by decide) rfl (by decide)).1⟩

/-! ## Claim C11 -/

/-- When exactly one other application of the lead is accepted and the lookup
succeeds, accepting is answered 409 "Already accepted" and nothing changes. -/
theorem put_conflict_of_single_other_accepted (env : PutEnv) (s : Store) (userId id : String)
    (body : PutBody) (application other : Application) (lead : Lead)
    (hstatus : body.status = some "accepted")
    (hsel : env.appSelect = none) (hacc : env.acceptedSelect = none)
    (happ : applicationRows s id = [application])
    (hlead : parentLead s application = some lead) (hown : lead.created_by = userId)
    (hother : otherAcceptedRows s application.lead_id id = [other]) :
    putApplication env s userId id body = (s, alreadyAcceptedResponse) := by
  rw [put_of_owner hstatus (Or.inl rfl) hsel happ hlead hown]
  simp [hacc, hother, selectSingle_ok]

/-- The scenario of two pending applications `A` and `B` on one lead: accepting
`A` succeeds, accepting `B` afterwards is answered 409, and `A` is still
accepted. -/
theorem put_second_accept_conflict_scenario :
    (putApplication okPutEnv twoPendingStore "owner1" "A" acceptBody).2.status = 200 ∧
    (putApplication laterPutEnv
      (putApplication okPutEnv twoPendingStore "owner1" "A" acceptBody).1
      "owner1" "B" acceptBody).2.status = 409 ∧
    (putApplication laterPutEnv
      (putApplication okPutEnv twoPendingStore "owner1" "A" acceptBody).1
      "owner1" "B" acceptBody).1
      = (putApplication okPutEnv twoPendingStore "owner1" "A" acceptBody).1 := by
  decide

/-- C11 fails on the code.  After three purchases of `L1` (each answered 201 and
stored as accepted), the two applications `a2` and `a3` other than `a1` are
accepted; accepting `a1` is nevertheless answered 200, not 409, and the
`assigned_to` of the lead is overwritten with the applicant of `a1`. -/
theorem C11_two_others_accepted_not_rejected :
    (postApplications (buyEnv "a1" 0) marketStore "u1" bodyL1).2.status = 201 ∧
    (postApplications (buyEnv "a2" 1) afterOnePurchase "u2" bodyL1).2.status = 201 ∧
    (postApplications (buyEnv "a3" 2) afterTwoPurchases "u3" bodyL1).2.status = 201 ∧
    (otherAcceptedRows afterThreePurchases "L1" "a1").map (fun a => a.id) = ["a2", "a3"] ∧
    (putApplication okPutEnv afterThreePurchases "owner1" "a1" acceptBody).2.status = 200 ∧
    afterThreePurchases.leads.map (fun l => l.assigned_to) = [none] ∧
    (putApplication okPutEnv afterThreePurchases "owner1" "a1" acceptBody).1.leads.map
      (fun l => l.assigned_to) = [some "u1"] := by
  decide

/-! ## Invariants: claims C12 - C14 -/

/-- The applications after a purchase request are the old ones, or a sublist
of the old ones followed by the inserted row, all checks having passed. -/
theorem post_applications_sublist (env : PostEnv) (s : Store) (userId : String)
    (body : PostBody) :
    (postApplications env s userId body).1.applications = s.applications ∨
    ∃ leadId lead profile, precheck env s userId body = .ok (leadId, lead, profile) ∧
      List.Sublist (postApplications env s userId body).1.applications
        (s.applications ++ [newApplication env userId leadId body]) := by
  cases hp : precheck env s userId body with
  | error r => left; rw [post_of_precheck_error hp]
  | ok t =>
    obtain ⟨leadId, lead, profile⟩ := t
    right
    refine ⟨leadId, lead, profile, rfl, ?_⟩
    rw [post_of_precheck_ok hp]
    unfold commit
    cases env.appInsert with
    | some e => exact List.sublist_append_left _ _
    | none =>
      cases env.profileUpdate with
      | some e =>
        cases env.rollbackDelete with
        | some e2 => exact List.Sublist.refl _
        | none => exact List.filter_sublist _
      | none =>
        cases env.creditsInsert with
        | some e => exact List.Sublist.refl _
        | none => exact List.Sublist.refl _

/-- Counting the rows that satisfy `p` after a purchase request. -/
theorem post_filter_length (env : PostEnv) (s : Store) (userId : String) (body : PostBody)
    (p : Application → Bool) :
    ((postApplications env s userId body).1.applications.filter p).length
        ≤ (s.applications.filter p).length ∨
    ∃ leadId lead profile, precheck env s userId body = .ok (leadId, lead, profile) ∧
      p (newApplication env userId leadId body) = true ∧
      ((postApplications env s userId body).1.applications.filter p).length
        ≤ (s.applications.filter p).length + 1 := by
  rcases post_applications_sublist env s userId body with h | ⟨leadId, lead, profile, hp, hsub⟩
  · left; rw [h]
  · have hlen := (List.Sublist.filter p hsub).length_le
    rw [List.filter_append, List.length_append] at hlen
    cases hnew : p (newApplication env userId leadId body) with
    | false =>
      left
      simpa [List.filter_cons, hnew] using hlen
    | true =>
      right
      refine ⟨leadId, lead, profile, hp, hnew, ?_⟩
      simpa [List.filter_cons, hnew] using hlen

/-- Counting the accepted rows of a lead after the status write. -/
theorem acceptedRows_setStatus_length (apps : List Application) (id st t leadId : String) :
    ((setStatus apps id st t).filter
        (fun a => a.lead_id == leadId && a.status == "accepted")).length =
      (apps.filter (fun a => a.id == id && a.lead_id == leadId && st == "accepted")).length +
      (apps.filter
        (fun a => a.lead_id == leadId && a.status == "accepted" && a.id != id)).length := by
  induction apps with
  | nil => rfl
  | cons a apps ih =>
    have ih' := ih
    unfold setStatus at ih' ⊢
    by_cases h1 : a.id = id <;> by_cases h2 : a.lead_id = leadId <;>
      by_cases h3 : st = "accepted" <;> by_cases h4 : a.status = "accepted" <;>
      simp [List.filter_cons, h1, h2, h3, h4] at ih' ⊢ <;> omega

/-- The status update changes the applications, if at all, by the status
write. -/
theorem updateStatus_applications (env : PutEnv) (s : Store) (id st : String) :
    (updateStatus env s id st).1.applications = s.applications ∨
    (updateStatus env s id st).1.applications = setStatus s.applications id st env.updatedAt := by
  rcases updateStatus_cases env s id st with h | ⟨u, h⟩ <;> rw [h]
  · left; rfl
  · right; rfl

/-- The applications after a status update request: the old ones, or the old
ones with the status written to the rows of the id, in which case the
application lookup had succeeded and, for the target accepted, the lookup of
another accepted application had found no single row. -/
theorem put_applications (env : PutEnv) (s : Store) (userId id : String) (body : PutBody) :
    (putApplication env s userId id body).1.applications = s.applications ∨
    ∃ st application, body.status = some st ∧
      selectSingle env.appSelect (applicationRows s id) = .ok application ∧
      (st = "accepted" → ∃ e, selectSingle env.acceptedSelect
        (otherAcceptedRows s application.lead_id id) = .error e) ∧
      (putApplication env s userId id body).1.applications
        = setStatus s.applications id st env.updatedAt := by
  rcases put_cases env s userId id body with ⟨h, -⟩ | ⟨st, hs, -, hcases⟩
  · left; rw [h]
  · rcases hcases with h | h | h | h | ⟨application, lead, happ, -, -, h⟩
    · left; rw [h]
    · left; rw [h]
    · left; rw [h]
    · left; rw [h]
    · rcases h with ⟨hne, h⟩ | ⟨hacc, herr, h | h⟩
      · rw [h]
        rcases updateStatus_applications env s id st with h2 | h2
        · left; exact h2
        · right; exact ⟨st, application, hs, happ, fun h => absurd h hne, h2⟩
      · rw [h]
        rcases updateStatus_applications env s id st with h2 | h2
        · left; exact h2
        · right; exact ⟨st, application, hs, happ, fun _ => herr, h2⟩
      · rw [h]
        rcases updateStatus_applications env
          { s with leads := (assignLead s.leads application.lead_id
              application.applicant_id env.assignedAt) } id st with h2 | h2
        · left; exact h2
        · right; exact ⟨st, application, hs, happ, fun _ => herr, h2⟩

/-- C12, as stated, fails: after the purchase of `L1` by `u1` the lead has one
accepted application; the purchase of the same lead by `u2` is answered 201 and
stored as accepted too, so the lead has two accepted applications. -/
theorem C12_counterexample :
    atMostOneAccepted afterOnePurchase ∧
    (postApplications (buyEnv "a2" 1) afterOnePurchase "u2" bodyL1).2.status = 201 ∧
    ¬ atMostOneAccepted (postApplications (buyEnv "a2" 1) afterOnePurchase "u2" bodyL1).1 := by
  refine ⟨?_, by decide, ?_⟩
  · intro leadId
    have h : afterOnePurchase.applications
        = [newApplication (buyEnv "a1" 0) "u1" "L1" bodyL1] := by decide
    unfold acceptedRows
    rw [h]
    exact List.length_filter_le _ _
  · intro h
    exact absurd (h "L1") (by decide)

/-- C12, amended. "At most one accepted application per lead" is preserved by
every `PUT /applications/:id` request whose lookup of another accepted
application does not fail, and by every `POST /applications` request for a
lead that has no accepted application; every `POST /applications` answered 201
adds one accepted application to the lead it names, so the purchase of a lead
that already has an accepted application leaves it with one more. -/
theorem C12_accepted_invariant (s : Store) (hinv : atMostOneAccepted s) :
    (∀ (env : PutEnv) (userId id : String) (body : PutBody), env.acceptedSelect = none →
      atMostOneAccepted (putApplication env s userId id body).1) ∧
    (∀ (env : PostEnv) (userId : String) (body : PostBody),
      (∀ leadId, body.leadId = some leadId → acceptedRows s leadId = []) →
      atMostOneAccepted (postApplications env s userId body).1) ∧
    (∀ (env : PostEnv) (userId : String) (body : PostBody) (leadId : String),
      (postApplications env s userId body).2.status = 201 → body.leadId = some leadId →
      (acceptedRows (postApplications env s userId body).1 leadId).length
        = (acceptedRows s leadId).length + 1) := by
  refine ⟨?_, ?_, ?_⟩
  · intro env userId id body hacc leadId
    unfold acceptedRows
    rcases put_applications env s userId id body with h | ⟨st, application, -, happ, herr, h⟩
    · rw [h]; exact hinv leadId
    · rw [h, acceptedRows_setStatus_length]
      have hrows := (selectSingle_eq_ok.mp happ).2
      have hsecond : (s.applications.filter (fun a =>
          a.lead_id == leadId && a.status == "accepted" && a.id != id)).length
          ≤ (acceptedRows s leadId).length := by
        unfold acceptedRows
        have hsub : List.Sublist
            (s.applications.filter (fun a =>
              a.lead_id == leadId && a.status == "accepted" && a.id != id))
            (s.applications.filter (fun a => a.lead_id == leadId && a.status == "accepted")) := by
          have hff : s.applications.filter (fun a =>
              a.lead_id == leadId && a.status == "accepted" && a.id != id)
              = (s.applications.filter
                  (fun a => a.lead_id == leadId && a.status == "accepted")).filter
                  (fun a => a.id != id) := by
            rw [List.filter_filter]
            congr 1
            funext a
            exact Bool.and_comm _ _
          rw [hff]
          exact List.filter_sublist _
        exact hsub.length_le
      have hinvL := hinv leadId
      by_cases hst : st = "accepted"
      · obtain ⟨e, he⟩ := herr hst
        have hnone : otherAcceptedRows s application.lead_id id = [] := by
          have hle : (otherAcceptedRows s application.lead_id id).length ≤ 1 := by
            have h1 : (otherAcceptedRows s application.lead_id id).length
                ≤ (acceptedRows s application.lead_id).length := by
              unfold otherAcceptedRows acceptedRows
              have hff : s.applications.filter (fun a =>
                  a.lead_id == application.lead_id && a.status == "accepted" && a.id != id)
                  = (s.applications.filter
                      (fun a => a.lead_id == application.lead_id && a.status == "accepted")).filter
                      (fun a => a.id != id) := by
                rw [List.filter_filter]
                congr 1
                funext a
                exact Bool.and_comm _ _
              rw [hff]
              exact (List.filter_sublist _).length_le
            exact le_trans h1 (hinv application.lead_id)
          cases hrows2 : otherAcceptedRows s application.lead_id id with
          | nil => rfl
          | cons x rest =>
            cases rest with
            | nil =>
              rw [hacc, hrows2] at he
              simp [selectSingle, single] at he
            | cons y rest2 => rw [hrows2] at hle; simp at hle
        have hfirst : (s.applications.filter (fun a =>
            a.id == id && a.lead_id == leadId && st == "accepted")).length
            ≤ if application.lead_id = leadId then 1 else 0 := by
          have hff : s.applications.filter (fun a =>
              a.id == id && a.lead_id == leadId && st == "accepted")
              = (applicationRows s id).filter (fun a => a.lead_id == leadId && st == "accepted")
              := by
            unfold applicationRows
            rw [List.filter_filter]
            congr 1
            funext a
            cases (a.id == id) <;> cases (a.lead_id == leadId) <;> cases (st == "accepted") <;> rfl
          rw [hff, hrows]
          by_cases hl : application.lead_id = leadId <;> simp [List.filter_cons, hl, hst]
        by_cases hl : application.lead_id = leadId
        · rw [if_pos hl] at hfirst
          subst hl
          unfold otherAcceptedRows at hnone
          rw [hnone]
          simpa using hfirst
        · rw [if_neg hl] at hfirst
          omega
      · have hfirst : (s.applications.filter (fun a =>
            a.id == id && a.lead_id == leadId && st == "accepted")).length = 0 := by
          simp [hst]
        omega
  · intro env userId body hnone leadId
    unfold acceptedRows
    rcases post_filter_length env s userId body
        (fun a => a.lead_id == leadId && a.status == "accepted") with
      h | ⟨l, lead, profile, hp, hnew, h⟩
    · exact le_trans h (hinv leadId)
    · obtain ⟨hl, -⟩ := precheck_ok_inv hp
      have hleq : l = leadId := by
        simpa [newApplication] using hnew
      subst hleq
      have h0 := hnone l hl
      unfold acceptedRows at h0
      rw [h0] at h
      simpa using h
  · intro env userId body leadId h201 hbody
    obtain ⟨l, lead, profile, hp, hi, hu⟩ := post_status_201 h201
    obtain ⟨hl, -⟩ := precheck_ok_inv hp
    have hleq : l = leadId := by
      rw [hbody] at hl
      exact (Option.some.inj hl).symm
    subst hleq
    rw [post_of_precheck_ok hp, commit_paid hi hu]
    unfold acceptedRows
    simp [List.filter_append, List.filter_cons, newApplication]

/-- Witness of C12 (amended).  In the store after the purchase by `u1` (one
accepted application on `L1`) the owner moves `a1` to pending, answered 200,
and the invariant holds afterwards; in the store with two pending applications
on `L1` the purchase by `u3`, answered 201, keeps it, and so does the
acceptance of `A` by the owner, answered 200, after which `L1` has one accepted
application; and the purchase of `L1` by `u2` after the purchase by `u1` leaves
`L1` with two accepted applications. -/
theorem C12_accepted_invariant_witness :
    (atMostOneAccepted afterOnePurchase ∧
      (putApplication okPutEnv afterOnePurchase "owner1" "a1"
        { status := some "pending" }).2.status = 200 ∧
      atMostOneAccepted
        (putApplication okPutEnv afterOnePurchase "owner1" "a1"
          { status := some "pending" }).1) ∧
    (atMostOneAccepted twoPendingStore ∧
      (postApplications (buyEnv "a3" 2) twoPendingStore "u3" bodyL1).2.status = 201 ∧
      atMostOneAccepted (postApplications (buyEnv "a3" 2) twoPendingStore "u3" bodyL1).1) ∧
    ((putApplication okPutEnv twoPendingStore "owner1" "A" acceptBody).2.status = 200 ∧
      (acceptedRows (putApplication okPutEnv twoPendingStore "owner1" "A" acceptBody).1
        "L1").length = 1 ∧
      atMostOneAccepted (putApplication okPutEnv twoPendingStore "owner1" "A" acceptBody).1) ∧
    (acceptedRows (postApplications (buyEnv "a2" 1) afterOnePurchase "u2" bodyL1).1
        "L1").length = (acceptedRows afterOnePurchase "L1").length + 1 :=
  have hone : atMostOneAccepted afterOnePurchase := fun _ => List.length_filter_le _ _
  have htwo : atMostOneAccepted twoPendingStore := by
    intro leadId
    have h : acceptedRows twoPendingStore leadId = [] := by
      simp [acceptedRows, twoPendingStore, pendingApplication, List.filter_cons]
    rw [h]
    exact Nat.zero_le _
  ⟨⟨hone, by decide,
      (C12_accepted_invariant afterOnePurchase hone).1 okPutEnv "owner1" "a1"
        { status := some "pending" } rfl⟩,
   ⟨htwo, by decide,
      (C12_accepted_invariant twoPendingStore htwo).2.1 (buyEnv "a3" 2) "u3" bodyL1
        (fun leadId _ => by
          simp [acceptedRows, twoPendingStore, pendingApplication, List.filter_cons])⟩,
   ⟨by decide, by decide,
      (C12_accepted_invariant twoPendingStore htwo).1 okPutEnv "owner1" "A" acceptBody rfl⟩,
   (C12_accepted_invariant afterOnePurchase hone).2.2 (buyEnv "a2" 1) "u2" bodyL1 "L1"
     (by decide) rfl⟩

/-- C13. "At most 6 applications per lead" is preserved by every
`POST /applications` request, whatever the outcome of its store calls, when
the calls of `count_lead_applications` that answer return the number of
application rows of the lead. -/
theorem C13_cap_invariant (env : PostEnv) (s : Store) (userId : String) (body : PostBody)
    (hcap : withinCap s) (htrue : countsTruthful env s body) :
    withinCap (postApplications env s userId body).1 := by
  intro leadId
  unfold leadRows
  rcases post_filter_length env s userId body (fun a => a.lead_id == leadId) with
    h | ⟨l, lead, profile, hp, hnew, h⟩
  · exact le_trans h (hcap leadId)
  · obtain ⟨hl, -, -, -, -, -, -, ⟨m, hm, hm6⟩⟩ := precheck_ok_inv hp
    have hleq : l = leadId := by
      simpa [newApplication] using hnew
    subst hleq
    have hcount := (htrue l hl).2 m hm
    unfold leadRows at hcount
    omega

/-- Witness of C13: the third purchase of `L1`, the count answering 2. -/
theorem C13_cap_invariant_witness :
    withinCap afterTwoPurchases ∧ countsTruthful (buyEnv "a3" 2) afterTwoPurchases bodyL1 ∧
    withinCap (postApplications (buyEnv "a3" 2) afterTwoPurchases "u3" bodyL1).1 :=
  have hcap : withinCap afterTwoPurchases :=
    fun _ => le_trans (List.length_filter_le _ _) (by decide)
  have htrue : countsTruthful (buyEnv "a3" 2) afterTwoPurchases bodyL1 := by
    intro leadId hl
    have hid : leadId = "L1" := by
      have h : some "L1" = some leadId := hl
      exact (Option.some.inj h).symm
    subst hid
    constructor <;> (intro n hn; cases hn; decide)
  ⟨hcap, htrue, C13_cap_invariant (buyEnv "a3" 2) afterTwoPurchases "u3" bodyL1 hcap htrue⟩

/-- Pair uniqueness. "At most one application per (lead, applicant) pair" is preserved by
every `POST /applications` request whose lookup of an existing application
does not fail, whatever the outcome of the other store calls and whatever the
response. -/
theorem post_pair_unique_of_lookup (env : PostEnv) (s : Store) (userId : String) (body : PostBody)
    (hinv : pairUnique s) (hlookup : env.existingSelect = none) :
    pairUnique (postApplications env s userId body).1 := by
  intro leadId applicant
  unfold existingRows
  rcases post_filter_length env s userId body
      (fun a => a.lead_id == leadId && a.applicant_id == applicant) with
    h | ⟨l, lead, profile, hp, hnew, h⟩
  · exact le_trans h (hinv leadId applicant)
  · obtain ⟨-, -, -, -, hno, -⟩ := precheck_ok_inv hp
    have hleq : l = leadId ∧ userId = applicant := by
      simpa [newApplication] using hnew
    obtain ⟨h1, h2⟩ := hleq
    subst h1 h2
    have hle := hinv l userId
    have hnil : existingRows s l userId = [] := by
      cases hrows : existingRows s l userId with
      | nil => rfl
      | cons a rest =>
        cases rest with
        | nil => exact absurd ⟨hlookup, hrows⟩ (hno a)
        | cons b rest2 => rw [hrows] at hle; simp at hle
    unfold existingRows at hnil
    rw [hnil] at h
    simpa using h

/-- Example: `u1` asks again for the lead `L1` they already bought, the lookup
succeeding. -/
theorem post_pair_unique_of_lookup_example :
    pairUnique afterOnePurchase ∧
    pairUnique (postApplications (buyEnv "a2" 1) afterOnePurchase "u1" bodyL1).1 :=
  have hinv : pairUnique afterOnePurchase := fun _ _ => List.length_filter_le _ _
  ⟨hinv, post_pair_unique_of_lookup (buyEnv "a2" 1) afterOnePurchase "u1" bodyL1 hinv rfl⟩

/-- C14 fails on the code when the lookup of an existing application fails.
`u1` has bought `L1` (one application row for the pair, balance 5, cost 5) and
asks for `L1` again; the lookup fails, every other store call succeeds. The
handler never examines the error of the lookup: it answers 201 and inserts a
second row for the pair `(L1, u1)`, so the invariant that held before the
request no longer holds after it. -/
theorem C14_failed_lookup_duplicates_pair :
    pairUnique afterOnePurchase ∧
    (existingRows afterOnePurchase "L1" "u1").length = 1 ∧
    (postApplications lookupFailsEnv afterOnePurchase "u1" bodyL1).2.status = 201 ∧
    (existingRows (postApplications lookupFailsEnv afterOnePurchase "u1" bodyL1).1
      "L1" "u1").length = 2 ∧
    ¬ pairUnique (postApplications lookupFailsEnv afterOnePurchase "u1" bodyL1).1 := by
  have h2 : (existingRows (postApplications lookupFailsEnv afterOnePurchase "u1" bodyL1).1
      "L1" "u1").length = 2 := by decide
  refine ⟨fun _ _ => List.length_filter_le _ _, by decide, by decide, h2, ?_⟩
  intro h
  have h1 := h "L1" "u1"
  rw [h2] at h1
  exact absurd h1 (by decide)

/-! ## Claim C18 -/

/-- The other accepted applications of a lead are not touched by the status
write to the rows of the id. -/
theorem otherAcceptedRows_setStatus (apps : List Application) (id st t leadId : String) :
    (setStatus apps id st t).filter
        (fun a => a.lead_id == leadId && a.status == "accepted" && a.id != id) =
      apps.filter (fun a => a.lead_id == leadId && a.status == "accepted" && a.id != id) := by
  induction apps with
  | nil => rfl
  | cons a apps ih =>
    have ih' := ih
    unfold setStatus at ih' ⊢
    by_cases h1 : a.id = id
    · simp [List.filter_cons, h1] at ih' ⊢
      exact ih'
    · simp [List.filter_cons, h1] at ih' ⊢
      rw [ih']

/-- Writing the same status twice differs from writing it once only in
`updated_at`. -/
theorem setStatus_twice (apps : List Application) (id st t1 t2 : String) :
    (setStatus (setStatus apps id st t1) id st t2).map (fun a => { a with updated_at := "" }) =
      (setStatus apps id st t1).map (fun a => { a with updated_at := "" }) := by
  simp only [setStatus, List.map_map]
  apply List.map_congr_left
  intro a _
  by_cases h : a.id = id <;> simp [h]

/-- Assigning the same applicant twice differs from assigning once only in
`assigned_at`. -/
theorem assignLead_twice (leads : List Lead) (leadId u t1 t2 : String) :
    (assignLead (assignLead leads leadId u t1) leadId u t2).map
        (fun l => { l with assigned_at := none }) =
      (assignLead leads leadId u t1).map (fun l => { l with assigned_at := none }) := by
  simp only [assignLead, List.map_map]
  apply List.map_congr_left
  intro l _
  by_cases h : l.id = leadId <;> simp [h]

/-- A `200` answer comes from the status update after the application lookup
and the ownership check have passed. -/
theorem put_status_200 {env : PutEnv} {s : Store} {userId id : String} {body : PutBody}
    (h : (putApplication env s userId id body).2.status = 200) :
    ∃ st application lead, body.status = some st ∧
      (st = "accepted" ∨ st = "rejected" ∨ st = "pending") ∧
      env.appSelect = none ∧ applicationRows s id = [application] ∧
      parentLead s application = some lead ∧ lead.created_by = userId ∧
      (st = "accepted" → ∃ e, selectSingle env.acceptedSelect
        (otherAcceptedRows s application.lead_id id) = .error e) := by
  rcases put_cases env s userId id body with ⟨h0, -⟩ | ⟨st, hs, hv, hcases⟩
  · rw [h0] at h; exact absurd h (show invalidStatusResponse.status ≠ 200 by decide)
  · rcases hcases with h0 | h0 | h0 | h0 | ⟨application, lead, happ, hlead, hown, hrest⟩
    · rw [h0] at h; exact absurd h (show applicationNotFoundResponse.status ≠ 200 by decide)
    · rw [h0] at h; exact absurd h (show putInternalErrorResponse.status ≠ 200 by decide)
    · rw [h0] at h; exact absurd h (show accessDeniedResponse.status ≠ 200 by decide)
    · rw [h0] at h; exact absurd h (show alreadyAcceptedResponse.status ≠ 200 by decide)
    · obtain ⟨hsel, hrows⟩ := selectSingle_eq_ok.mp happ
      refine ⟨st, application, lead, hs, hv, hsel, hrows, hlead, hown, ?_⟩
      intro hacc
      rcases hrest with ⟨hne, -⟩ | ⟨-, herr, -⟩
      · exact absurd hacc hne
      · exact herr

/-- A `200` answer comes with a status write that did not fail. -/
theorem put_status_200_write {env : PutEnv} {s : Store} {userId id : String} {body : PutBody}
    (h : (putApplication env s userId id body).2.status = 200) : env.appUpdate = none := by
  cases hu : env.appUpdate with
  | none => rfl
  | some e =>
    exfalso
    have hup : ∀ (s0 : Store) (st : String),
        (updateStatus env s0 id st).2.status = 500 := by
      intro s0 st
      simp [updateStatus, hu, statusUpdateErrorResponse]
    rcases put_cases env s userId id body with ⟨h0, -⟩ | ⟨st, -, -, hcases⟩
    · rw [h0] at h; exact absurd h (show invalidStatusResponse.status ≠ 200 by decide)
    · rcases hcases with h0 | h0 | h0 | h0 | ⟨application, lead, -, -, -, hrest⟩
      · rw [h0] at h; exact absurd h (show applicationNotFoundResponse.status ≠ 200 by decide)
      · rw [h0] at h; exact absurd h (show putInternalErrorResponse.status ≠ 200 by decide)
      · rw [h0] at h; exact absurd h (show accessDeniedResponse.status ≠ 200 by decide)
      · rw [h0] at h; exact absurd h (show alreadyAcceptedResponse.status ≠ 200 by decide)
      · rcases hrest with ⟨-, h0⟩ | ⟨-, -, h0 | h0⟩ <;>
          (rw [h0, hup] at h; omega)

/-- The accepting run of the handler when the application lookup and the
status write succeed and the other accepted applications of the lead are not
exactly one row: whatever the outcome of the lookup of another accepted
application and of the lead update, the status is written and the leads are
left as they were or assigned. -/
theorem put_accept_any {env : PutEnv} {s : Store} {userId id : String} {body : PutBody}
    {application : Application} {lead : Lead}
    (hstatus : body.status = some "accepted")
    (hsel : env.appSelect = none) (hau : env.appUpdate = none)
    (happ : applicationRows s id = [application])
    (hlead : parentLead s application = some lead) (hown : lead.created_by = userId)
    (hnot : ∀ x, otherAcceptedRows s application.lead_id id ≠ [x]) :
    ∃ leads, (leads = s.leads ∨
        leads = assignLead s.leads application.lead_id application.applicant_id
          env.assignedAt) ∧
      putApplication env s userId id body =
        ({ s with
            leads := leads,
            applications := setStatus s.applications id "accepted" env.updatedAt },
          statusUpdatedResponse "accepted"
            { application with status := "accepted", updated_at := env.updatedAt }) := by
  rw [put_of_owner hstatus (Or.inl rfl) hsel happ hlead hown]
  have herr : ∃ e, selectSingle env.acceptedSelect
      (otherAcceptedRows s application.lead_id id) = .error e := by
    cases h : selectSingle env.acceptedSelect (otherAcceptedRows s application.lead_id id) with
    | error e => exact ⟨e, rfl⟩
    | ok x => exact absurd (selectSingle_eq_ok.mp h).2 (hnot x)
  obtain ⟨e, he⟩ := herr
  simp only [he, if_true]
  cases hlu : env.leadUpdate with
  | some e2 =>
    refine ⟨s.leads, Or.inl rfl, ?_⟩
    exact updateStatus_ok hau happ
  | none =>
    refine ⟨_, Or.inr rfl, ?_⟩
    exact updateStatus_ok hau happ

/-- C18, as stated, fails. (1) The owner accepts application `A`; the update
of the lead fails, which the handler does not examine (a best-effort side
update), and the answer is 200 with the lead unassigned. The same request
issued again, every store call succeeding, answers 200 and assigns the lead to
`u1`: `assigned_to` differs from what the first call left. (2) `a1` and `a2`
are both accepted on `L1`; the owner accepts `a1` while the lookup of another
accepted application fails, which the handler does not examine either, and the
answer is 200. The same request issued again, every store call succeeding,
finds `a2` and answers 409. -/
theorem C18_counterexample :
    (putApplication leadUpdateFailsEnv twoPendingStore "owner1" "A" acceptBody).2.status
      = 200 ∧
    (putApplication laterPutEnv
      (putApplication leadUpdateFailsEnv twoPendingStore "owner1" "A" acceptBody).1
      "owner1" "A" acceptBody).2.status = 200 ∧
    (putApplication leadUpdateFailsEnv twoPendingStore "owner1" "A" acceptBody).1.leads.map
      (fun l => l.assigned_to) = [none] ∧
    (putApplication laterPutEnv
      (putApplication leadUpdateFailsEnv twoPendingStore "owner1" "A" acceptBody).1
      "owner1" "A" acceptBody).1.leads.map (fun l => l.assigned_to) = [some "u1"] ∧
    eraseTimestamps (putApplication laterPutEnv
      (putApplication leadUpdateFailsEnv twoPendingStore "owner1" "A" acceptBody).1
      "owner1" "A" acceptBody).1
      ≠ eraseTimestamps
        (putApplication leadUpdateFailsEnv twoPendingStore "owner1" "A" acceptBody).1 ∧
    (putApplication acceptedLookupFailsEnv afterTwoPurchases "owner1" "a1" acceptBody).2.status
      = 200 ∧
    (putApplication laterPutEnv
      (putApplication acceptedLookupFailsEnv afterTwoPurchases "owner1" "a1" acceptBody).1
      "owner1" "a1" acceptBody).2.status = 409 := by
  refine ⟨by decide, by decide, by decide, by decide, by decide, by decide, by decide⟩

/-- C18, amended. Status update is idempotent up to timestamps when, for an
accepting request, the lookup of another accepted application and the update
of the lead of the first call do not fail, and the application lookup and the
status write of the repeated call do not fail: if `PUT /applications/:id`
answers 200, the same request issued again on the resulting store answers 200
too and yields the same store except for `updated_at` of applications and
`assigned_at` of leads: same rows, same statuses, same `assigned_to`. -/
theorem C18_status_update_idempotent (env1 env2 : PutEnv) (s : Store) (userId id : String)
    (body : PutBody)
    (hfirst : body.status = some "accepted" →
      env1.acceptedSelect = none ∧ env1.leadUpdate = none)
    (hsecond : env2.appSelect = none ∧ env2.appUpdate = none)
    (h200 : (putApplication env1 s userId id body).2.status = 200) :
    (putApplication env2 (putApplication env1 s userId id body).1 userId id body).2.status
      = 200 ∧
    eraseTimestamps
        (putApplication env2 (putApplication env1 s userId id body).1 userId id body).1
      = eraseTimestamps (putApplication env1 s userId id body).1 := by
  obtain ⟨st, application, lead, hs, hv, hsel1, happ, hlead, hown, herr⟩ :=
    put_status_200 h200
  have hau1 := put_status_200_write h200
  have hrows' : ∀ (s' : Store) (t : String),
      s'.applications = setStatus s.applications id st t →
      applicationRows s' id = [{ application with status := st, updated_at := t }] := by
    intro s' t hs'
    unfold applicationRows at happ ⊢
    rw [hs', applicationRows_setStatus, happ]
    rfl
  by_cases hacc : st = "accepted"
  · subst hacc
    obtain ⟨hacc1, hlu1⟩ := hfirst hs
    have hnom1 : env1.nominal := ⟨hsel1, hacc1, hlu1, hau1⟩
    have hnot : ∀ x, otherAcceptedRows s application.lead_id id ≠ [x] := by
      intro x hx
      obtain ⟨e, he⟩ := herr rfl
      rw [hacc1, hx] at he
      simp [selectSingle, single] at he
    rw [put_accept_ok hs hnom1 happ hlead hown hnot]
    have happ2 := hrows' { s with
      leads := assignLead s.leads application.lead_id application.applicant_id
        env1.assignedAt,
      applications := setStatus s.applications id "accepted" env1.updatedAt }
      env1.updatedAt rfl
    have hlead2 : parentLead { s with
        leads := assignLead s.leads application.lead_id application.applicant_id
          env1.assignedAt,
        applications := setStatus s.applications id "accepted" env1.updatedAt }
        { application with status := "accepted", updated_at := env1.updatedAt }
        = some { lead with assigned_to := some application.applicant_id,
                           assigned_at := some env1.assignedAt } := by
      unfold parentLead at hlead ⊢
      show (assignLead s.leads application.lead_id application.applicant_id
        env1.assignedAt).find? (fun l => l.id == application.lead_id) = _
      rw [find?_assignLead, hlead]
      rfl
    have hnot2 : ∀ x, otherAcceptedRows { s with
        leads := assignLead s.leads application.lead_id application.applicant_id
          env1.assignedAt,
        applications := setStatus s.applications id "accepted" env1.updatedAt }
        application.lead_id id ≠ [x] := by
      intro x
      unfold otherAcceptedRows
      show (setStatus s.applications id "accepted" env1.updatedAt).filter _ ≠ [x]
      rw [otherAcceptedRows_setStatus]
      exact hnot x
    obtain ⟨leads, hleads, hput⟩ :=
      put_accept_any hs hsecond.1 hsecond.2 happ2 hlead2 hown hnot2
    rw [hput]
    refine ⟨rfl, ?_⟩
    rcases hleads with h | h <;> subst h <;>
      simp only [eraseTimestamps, setStatus_twice, assignLead_twice]
  · have hv2 : st = "rejected" ∨ st = "pending" := by
      rcases hv with h | h
      · exact absurd h hacc
      · exact h
    rw [put_other_ok hs hv2 hsel1 hau1 happ hlead hown]
    have happ2 := hrows' { s with
      applications := setStatus s.applications id st env1.updatedAt } env1.updatedAt rfl
    have hlead2 : parentLead { s with
        applications := setStatus s.applications id st env1.updatedAt }
        { application with status := st, updated_at := env1.updatedAt } = some lead := hlead
    rw [put_other_ok hs hv2 hsecond.1 hsecond.2 happ2 hlead2 hown]
    refine ⟨rfl, ?_⟩
    simp only [eraseTimestamps, setStatus_twice]

/-- Witness of C18 (amended): the owner accepts application `A` twice; in the
repeated call the lookup of another accepted application and the update of the
lead fail, which changes nothing. -/
theorem C18_status_update_idempotent_witness :
    (putApplication okPutEnv twoPendingStore "owner1" "A" acceptBody).2.status = 200 ∧
    (putApplication repeatPutEnv
      (putApplication okPutEnv twoPendingStore "owner1" "A" acceptBody).1
      "owner1" "A" acceptBody).2.status = 200 ∧
    eraseTimestamps (putApplication repeatPutEnv
      (putApplication okPutEnv twoPendingStore "owner1" "A" acceptBody).1
      "owner1" "A" acceptBody).1
      = eraseTimestamps (putApplication okPutEnv twoPendingStore "owner1" "A" acceptBody).1 :=
  have h200 : (putApplication okPutEnv twoPendingStore "owner1" "A" acceptBody).2.status
      = 200 := by decide
  ⟨h200, C18_status_update_idempotent okPutEnv repeatPutEnv twoPendingStore "owner1" "A"
    acceptBody (fun _ => ⟨rfl, rfl⟩) ⟨rfl, rfl⟩ h200⟩

/-! ## Claim C20 -/

/-- C20. For a caller with stored balance `b`, a positive integer `c` and a
non-empty payment id, when the store calls succeed `POST /credits/update`
writes `b + c` to the caller's profile, answers 200 with `previousBalance = b`,
`newBalance = b + c` and `added = c`, and appends exactly one ledger row, with
`user_id` the caller, `amount = c`, `transaction_type` "purchase" and
`payment_id` the payment id; leads and applications are untouched. -/
theorem C20_credits_update (env : UpdateEnv) (s : Store) (userId : String) (body : UpdateBody)
    (c : Int) (paymentId : String) (profile : Profile)
    (hcredits : body.credits = some c) (hpos : 0 < c)
    (hpay : body.paymentId = some paymentId) (hne : paymentId ≠ "")
    (hstore : env.profileSelect = none ∧ env.profileUpdate = none ∧ env.creditsInsert = none)
    (hprofile : profileRows s userId = [profile]) :
    (postCreditsUpdate env s userId body).2.status = 200 ∧
    (postCreditsUpdate env s userId body).2.previousBalance = some profile.credits ∧
    (postCreditsUpdate env s userId body).2.newBalance = some (profile.credits + c) ∧
    (postCreditsUpdate env s userId body).2.added = some c ∧
    balances (postCreditsUpdate env s userId body).1 userId = [profile.credits + c] ∧
    (∃ row : CreditTransaction,
      (postCreditsUpdate env s userId body).1.credits = s.credits ++ [row] ∧
      row.user_id = userId ∧ row.amount = c ∧ row.transaction_type = "purchase" ∧
      row.payment_id = some paymentId) ∧
    (postCreditsUpdate env s userId body).1.leads = s.leads ∧
    (postCreditsUpdate env s userId body).1.applications = s.applications := by
  have hc : ¬ c ≤ 0 := by omega
  have h : postCreditsUpdate env s userId body =
      ({ s with profiles := setCredits s.profiles userId (profile.credits + c),
                credits := s.credits ++ [topUpTransaction userId c body.planName paymentId] },
        creditsUpdatedResponse profile.credits (profile.credits + c) c) := by
    unfold postCreditsUpdate
    simp only [hcredits, hc, hpay, hne, hstore.1, hstore.2.1, hstore.2.2, hprofile,
      selectSingle_ok, if_false]
  rw [h]
  refine ⟨rfl, rfl, rfl, rfl, ?_, ⟨_, rfl, rfl, rfl, rfl, rfl⟩, rfl, rfl⟩
  rw [balances_setCredits (s := s) rfl]
  simp [balances, hprofile]

/-- Witness of C20: balance 10, top-up of 7 with payment id "pay_1". -/
theorem C20_credits_update_witness :
    (postCreditsUpdate okUpdateEnv (sampleStore 10) "u1"
      { credits := some 7, paymentId := some "pay_1", planName := some "Pro" }).2.status = 200 ∧
    (postCreditsUpdate okUpdateEnv (sampleStore 10) "u1"
      { credits := some 7, paymentId := some "pay_1", planName := some "Pro" }).2.newBalance
      = some (10 + 7) ∧
    balances (postCreditsUpdate okUpdateEnv (sampleStore 10) "u1"
      { credits := some 7, paymentId := some "pay_1", planName := some "Pro" }).1 "u1"
      = [10 + 7] :=
  have h := C20_credits_update okUpdateEnv (sampleStore 10) "u1"
    { credits := some 7, paymentId := some "pay_1", planName := some "Pro" } 7 "pay_1"
    { id := "u1", credits := 10, role := "lead-finder" }
    rfl (by decide) rfl (by decide) ⟨rfl, rfl, rfl⟩ (by decide)
  ⟨h.1, h.2.2.1, h.2.2.2.2.1⟩

/-! ## Frame properties: claims C28 - C30 -/

/-- The commit sequence answers `500` or `201`. -/
theorem commit_status (env : PostEnv) (s : Store) (userId : String) (body : PostBody)
    (leadId : String) (lead : Lead) (profile : Profile) :
    (commit env s userId body leadId lead profile).2.status = 500 ∨
    (commit env s userId body leadId lead profile).2.status = 201 := by
  unfold commit
  cases env.appInsert with
  | some e => left; rfl
  | none =>
    cases env.profileUpdate with
    | some e => cases env.rollbackDelete <;> (left; rfl)
    | none => cases env.creditsInsert <;> (right; rfl)

/-- C28. Client-error outcomes are write-free: whenever `POST /applications`
or `PUT /applications/:id` answers with a 4xx status (400, 402, 403, 404 or
409), for every store and every outcome of the store calls, the store after
the request is the store before it. -/
theorem C28_client_errors_write_free :
    (∀ (env : PostEnv) (s : Store) (userId : String) (body : PostBody),
      clientError (postApplications env s userId body).2.status →
      (postApplications env s userId body).1 = s) ∧
    (∀ (env : PutEnv) (s : Store) (userId id : String) (body : PutBody),
      clientError (putApplication env s userId id body).2.status →
      (putApplication env s userId id body).1 = s) := by
  constructor
  · intro env s userId body h4
    cases hp : precheck env s userId body with
    | error r => rw [post_of_precheck_error hp]
    | ok t =>
      obtain ⟨leadId, lead, profile⟩ := t
      rw [post_of_precheck_ok hp] at h4
      unfold clientError at h4
      rcases commit_status env s userId body leadId lead profile with h | h <;>
        (rw [h] at h4; omega)
  · intro env s userId id body h4
    have hstep : ∀ (s0 : Store) (st : String),
        ¬ clientError (updateStatus env s0 id st).2.status := by
      intro s0 st hc
      unfold clientError at hc
      rcases updateStatus_status env s0 id st with h | h <;> (rw [h] at hc; omega)
    rcases put_cases env s userId id body with ⟨h, -⟩ | ⟨st, -, -, hcases⟩
    · rw [h]
    · rcases hcases with h | h | h | h | ⟨application, lead, -, -, -, h⟩
      · rw [h]
      · rw [h]
      · rw [h]
      · rw [h]
      · rcases h with ⟨-, h⟩ | ⟨-, -, h | h⟩ <;> (rw [h] at h4; exact absurd h4 (hstep _ _))

/-- Witness of C28: a 402 of `POST /applications` and a 409 of
`PUT /applications/:id` leave the store as it was. -/
theorem C28_client_errors_write_free_witness :
    (postApplications (okEnv 0) (sampleStore 3) "u1" bodyL1).2.status = 402 ∧
    (postApplications (okEnv 0) (sampleStore 3) "u1" bodyL1).1 = sampleStore 3 ∧
    (putApplication okPutEnv afterTwoPurchases "owner1" "a1" acceptBody).2.status = 409 ∧
    (putApplication okPutEnv afterTwoPurchases "owner1" "a1" acceptBody).1 = afterTwoPurchases :=
  ⟨by decide,
   C28_client_errors_write_free.1 (okEnv 0) (sampleStore 3) "u1" bodyL1
     ⟨by decide, by decide⟩,
   by decide,
   C28_client_errors_write_free.2 okPutEnv afterTwoPurchases "owner1" "a1" acceptBody
     ⟨by decide, by decide⟩⟩

/-- C29. A purchase touches only the buyer's side: whenever `POST /applications`
answers 201, the leads are as before (status, `assigned_to`, `assigned_at`,
`credit_cost` of the purchased lead included), the applications are the old
rows followed by one new row, the profiles are the old rows with only the
`credits` of the rows of the caller's id rewritten, and every other user's
profile rows are as before. -/
theorem C29_purchase_frame (env : PostEnv) (s : Store) (userId : String) (body : PostBody)
    (h201 : (postApplications env s userId body).2.status = 201) :
    (postApplications env s userId body).1.leads = s.leads ∧
    (∃ a, (postApplications env s userId body).1.applications = s.applications ++ [a]) ∧
    (∃ c, (postApplications env s userId body).1.profiles
      = s.profiles.map (fun p => if p.id = userId then { p with credits := c } else p)) ∧
    (∀ other, other ≠ userId →
      profileRows (postApplications env s userId body).1 other = profileRows s other) := by
  obtain ⟨leadId, lead, profile, hp, hi, hu⟩ := post_status_201 h201
  rw [post_of_precheck_ok hp, commit_paid hi hu]
  refine ⟨rfl, ⟨_, rfl⟩, ⟨profile.credits - lead.credit_cost, ?_⟩, ?_⟩
  · simp [setCredits]
  · intro other hne
    show (setCredits s.profiles userId (profile.credits - lead.credit_cost)).filter
      (fun p => p.id == other) = s.profiles.filter (fun p => p.id == other)
    generalize profile.credits - lead.credit_cost = c
    induction s.profiles with
    | nil => rfl
    | cons p ps ih =>
      unfold setCredits at ih ⊢
      by_cases h1 : p.id = userId
      · have h2 : ¬ p.id = other := fun h => hne (h ▸ h1 ▸ rfl)
        have h3 : ¬ userId = other := fun h => hne h.symm
        simp [List.filter_cons, h1, h3] at ih ⊢
        exact ih
      · by_cases h2 : p.id = other
        · simp [List.filter_cons, h1, h2, hne] at ih ⊢
          exact ih
        · simp [List.filter_cons, h1, h2] at ih ⊢
          exact ih

/-- Witness of C29: `u2` buys `L1` after `u1` did; the owner and `u1` keep
their profile rows. -/
theorem C29_purchase_frame_witness :
    (postApplications (buyEnv "a2" 1) afterOnePurchase "u2" bodyL1).1.leads
      = afterOnePurchase.leads ∧
    profileRows (postApplications (buyEnv "a2" 1) afterOnePurchase "u2" bodyL1).1 "owner1"
      = profileRows afterOnePurchase "owner1" ∧
    profileRows (postApplications (buyEnv "a2" 1) afterOnePurchase "u2" bodyL1).1 "u1"
      = profileRows afterOnePurchase "u1" :=
  have h := C29_purchase_frame (buyEnv "a2" 1) afterOnePurchase "u2" bodyL1 (by decide)
  ⟨h.1, h.2.2.2 "owner1" (by decide), h.2.2.2 "u1" (by decide)⟩

/-- C30. For a target status pending or rejected, `PUT /applications/:id`
leaves the leads (`assigned_to` and `assigned_at` of the parent lead included),
the profiles and the ledger as they were, for every store and every outcome of
the store calls; the applications are unchanged or differ only in `status` and
`updated_at` of the rows of the id. -/
theorem C30_lead_untouched_unless_accepting (env : PutEnv) (s : Store) (userId id st : String)
    (body : PutBody) (hstatus : body.status = some st)
    (htarget : st = "pending" ∨ st = "rejected") :
    (putApplication env s userId id body).1.leads = s.leads ∧
    (putApplication env s userId id body).1.profiles = s.profiles ∧
    (putApplication env s userId id body).1.credits = s.credits ∧
    ((putApplication env s userId id body).1.applications = s.applications ∨
     (putApplication env s userId id body).1.applications
       = s.applications.map (fun a =>
           if a.id = id then { a with status := st, updated_at := env.updatedAt } else a)) := by
  have hne : st ≠ "accepted" := by
    rcases htarget with h | h <;> (subst h; decide)
  have hstep : (updateStatus env s id st).1.leads = s.leads ∧
      (updateStatus env s id st).1.profiles = s.profiles ∧
      (updateStatus env s id st).1.credits = s.credits ∧
      ((updateStatus env s id st).1.applications = s.applications ∨
       (updateStatus env s id st).1.applications
         = s.applications.map (fun a =>
             if a.id = id then { a with status := st, updated_at := env.updatedAt } else a)) := by
    rcases updateStatus_cases env s id st with h | ⟨u, h⟩ <;> rw [h]
    · exact ⟨rfl, rfl, rfl, Or.inl rfl⟩
    · refine ⟨rfl, rfl, rfl, Or.inr ?_⟩
      simp [setStatus]
  rcases put_cases env s userId id body with ⟨h, -⟩ | ⟨st2, hs2, -, hcases⟩
  · rw [h]; exact ⟨rfl, rfl, rfl, Or.inl rfl⟩
  · have hst : st2 = st := by
      rw [hstatus] at hs2
      exact (Option.some.inj hs2).symm
    subst hst
    rcases hcases with h | h | h | h | ⟨application, lead, -, -, -, h⟩
    · rw [h]; exact ⟨rfl, rfl, rfl, Or.inl rfl⟩
    · rw [h]; exact ⟨rfl, rfl, rfl, Or.inl rfl⟩
    · rw [h]; exact ⟨rfl, rfl, rfl, Or.inl rfl⟩
    · rw [h]; exact ⟨rfl, rfl, rfl, Or.inl rfl⟩
    · rcases h with ⟨-, h⟩ | ⟨hacc, -⟩
      · rw [h]; exact hstep
      · exact absurd hacc hne

/-- Witness of C30: the owner accepts `A` (the lead is assigned to `u1`), then
rejects `A`; the lead is still assigned to `u1`. -/
theorem C30_lead_untouched_unless_accepting_witness :
    (putApplication okPutEnv twoPendingStore "owner1" "A" acceptBody).1.leads.map
      (fun l => l.assigned_to) = [some "u1"] ∧
    (putApplication laterPutEnv
      (putApplication okPutEnv twoPendingStore "owner1" "A" acceptBody).1
      "owner1" "A" { status := some "rejected" }).1.leads
      = (putApplication okPutEnv twoPendingStore "owner1" "A" acceptBody).1.leads :=
  ⟨by decide,
   (C30_lead_untouched_unless_accepting laterPutEnv
      (putApplication okPutEnv twoPendingStore "owner1" "A" acceptBody).1
      "owner1" "A" "rejected" { status := some "rejected" } rfl (Or.inr rfl)).1⟩

/-! ## Ledger reconciliation: claim C25 -/

/-- The ledger sum of a user after one row is appended. -/
theorem ledgerSum_append {s s' : Store} {row : CreditTransaction}
    (h : s'.credits = s.credits ++ [row]) (u : String) :
    ledgerSum s' u = ledgerSum s u + (if row.user_id = u then row.amount else 0) := by
  unfold ledgerSum
  rw [h, List.filter_append, List.map_append, List.sum_append]
  by_cases hu : row.user_id = u <;> simp [List.filter_cons, hu]

/-- Writing `balance + delta` to the profile of a user and appending a ledger
row of amount `delta` for that user keeps the ledger reconciled. -/
theorem reconciled_adjust {s s' : Store} {u : String} {profile : Profile}
    {row : CreditTransaction} (hrec : reconciled s) (hprofile : profileRows s u = [profile])
    (hp : s'.profiles = setCredits s.profiles u (profile.credits + row.amount))
    (hc : s'.credits = s.credits ++ [row]) (hrow : row.user_id = u) : reconciled s' := by
  intro q hq
  rw [hp] at hq
  unfold setCredits at hq
  obtain ⟨p, hpm, rfl⟩ := List.mem_map.mp hq
  rw [ledgerSum_append hc]
  by_cases hid : p.id = u
  · have hmem : p ∈ profileRows s u := by
      unfold profileRows
      exact List.mem_filter.mpr ⟨hpm, by simp [hid]⟩
    rw [hprofile] at hmem
    have hpe : p = profile := by simpa using hmem
    subst hpe
    have h0 := hrec p hpm
    simp only [hid, beq_self_eq_true, if_true, hrow]
    rw [hid] at h0
    omega
  · have h0 := hrec p hpm
    have hne : ¬ row.user_id = p.id := by
      rw [hrow]
      exact fun h => hid h.symm
    simp only [beq_iff_eq, hid, if_false, hne]
    omega

/-- C25. Ledger reconciliation is preserved when no store call fails: in a
store where the credits of every profile equal the sum of the ledger amounts of
its user, this still holds after any `POST /applications` request and after
any `POST /credits/update` request in which every store call succeeds,
whatever the response. -/
theorem C25_reconciliation_preserved (s : Store) (hrec : reconciled s) :
    (∀ (env : PostEnv) (userId : String) (body : PostBody), env.nominal →
      reconciled (postApplications env s userId body).1) ∧
    (∀ (env : UpdateEnv) (userId : String) (body : UpdateBody), env.nominal →
      reconciled (postCreditsUpdate env s userId body).1) := by
  constructor
  · intro env userId body hnom
    obtain ⟨-, -, -, -, -, hi, hu, -, hl⟩ := hnom
    cases hp : precheck env s userId body with
    | error r => rw [post_of_precheck_error hp]; exact hrec
    | ok t =>
      obtain ⟨leadId, lead, profile⟩ := t
      obtain ⟨-, -, -, -, -, ⟨-, hprofile⟩, -⟩ := precheck_ok_inv hp
      rw [post_of_precheck_ok hp, commit_paid hi hu]
      refine @reconciled_adjust s _ userId profile (purchaseTransaction userId lead) hrec
        hprofile ?_ ?_ rfl
      · show setCredits s.profiles userId (profile.credits - lead.credit_cost) = _
        simp [purchaseTransaction, Int.sub_eq_add_neg]
      · simp [hl]
  · intro env userId body hnom
    obtain ⟨hsel, hu, hl⟩ := hnom
    unfold postCreditsUpdate
    split
    · exact hrec
    · rename_i c hc
      split
      · exact hrec
      · split
        · exact hrec
        · rename_i paymentId hpay
          split
          · exact hrec
          · split
            · exact hrec
            · rename_i profile hprof
              have hprofile := (selectSingle_eq_ok.mp hprof).2
              simp only [hu, hl]
              exact @reconciled_adjust s _ userId profile
                (topUpTransaction userId c body.planName paymentId) hrec hprofile rfl rfl rfl

/-- Witness of C25: starting from a reconciled store (one profile with 10
credits and its signup ledger row), a top-up of 7 and a purchase of cost 5. -/
theorem C25_reconciliation_preserved_witness :
    reconciled { sampleStore 10 with
      profiles := [buyer "u1"],
      credits := [{ user_id := "u1", amount := 10, description := "Welcome bonus",
                    transaction_type := "signup_bonus", payment_id := none }] } ∧
    reconciled (postApplications (okEnv 0) { sampleStore 10 with
      profiles := [buyer "u1"],
      credits := [{ user_id := "u1", amount := 10, description := "Welcome bonus",
                    transaction_type := "signup_bonus", payment_id := none }] }
      "u1" bodyL1).1 ∧
    reconciled (postCreditsUpdate okUpdateEnv { sampleStore 10 with
      profiles := [buyer "u1"],
      credits := [{ user_id := "u1", amount := 10, description := "Welcome bonus",
                    transaction_type := "signup_bonus", payment_id := none }] }
      "u1" { credits := some 7, paymentId := some "pay_1", planName := some "Pro" }).1 :=
  have hrec : reconciled { sampleStore 10 with
      profiles := [buyer "u1"],
      credits := [{ user_id := "u1", amount := 10, description := "Welcome bonus",
                    transaction_type := "signup_bonus", payment_id := none }] } := by
    intro p hp
    have hpe : p = buyer "u1" := by simpa using hp
    subst hpe
    decide
  ⟨hrec,
   (C25_reconciliation_preserved _ hrec).1 (okEnv 0) "u1" bodyL1
     ⟨⟨0, rfl⟩, ⟨0, rfl⟩, rfl, rfl, rfl, rfl, rfl, rfl, rfl⟩,
   (C25_reconciliation_preserved _ hrec).2 okUpdateEnv "u1"
     { credits := some 7, paymentId := some "pay_1", planName := some "Pro" }
     ⟨rfl, rfl, rfl⟩⟩

/-! ## Top-ups: claims C21, C22 -/

/-- A response of `POST /credits/update` other than `200` or the response of
a top-up by a positive amount. -/
theorem postCreditsUpdate_response (env : UpdateEnv) (s : Store) (userId : String)
    (body : UpdateBody) :
    (postCreditsUpdate env s userId body).2.status ≠ 200 ∨
    ∃ b c, 0 < c ∧ (postCreditsUpdate env s userId body).2 = creditsUpdatedResponse b (b + c) c := by
  unfold postCreditsUpdate
  split
  · left; simp [invalidCreditsResponse]
  · rename_i c hc
    split
    · left; simp [invalidCreditsResponse]
    · rename_i hpos
      split
      · left; simp [paymentRequiredResponse]
      · split
        · left; simp [paymentRequiredResponse]
        · split
          · left; simp [fetchProfileErrorResponse]
          · rename_i profile hprof
            split
            · left; simp [updateCreditsErrorResponse]
            · split
              · right; exact ⟨profile.credits, c, by omega, rfl⟩
              · right; exact ⟨profile.credits, c, by omega, rfl⟩

/-- A response of `POST /credits/add` other than `200` or the response of a
top-up by a positive amount. -/
theorem postCreditsAdd_response (env : UpdateEnv) (s : Store) (reqUser : JsObject)
    (body : AddBody) :
    (postCreditsAdd env s reqUser body).2.status ≠ 200 ∨
    ∃ b c, 0 < c ∧ (postCreditsAdd env s reqUser body).2 = creditsAddedResponse b (b + c) c := by
  unfold postCreditsAdd
  split
  · left; simp [invalidAmountResponse]
  · rename_i c hc
    split
    · left; simp [invalidAmountResponse]
    · rename_i hpos
      split
      · left; simp [fetchProfileErrorResponse]
      · split
        · left; simp [fetchProfileErrorResponse]
        · rename_i profile hprof
          split
          · left; simp [updateCreditsErrorResponse]
          · split
            · right; exact ⟨profile.credits, c, by omega, rfl⟩
            · right; exact ⟨profile.credits, c, by omega, rfl⟩

/-- Top-ups by integer amounts apply a positive delta.  For `POST /credits/update`
and `POST /credits/add`, with amounts that are integers when present: a
missing, zero or negative amount is answered 400 with the store untouched,
whatever the store calls would do, and every 200 response has `newBalance`
strictly greater than `previousBalance`. -/
theorem topups_positive_on_integers :
    (∀ (env : UpdateEnv) (s : Store) (userId : String) (body : UpdateBody),
      ((body.credits = none ∨ ∃ c, body.credits = some c ∧ c ≤ 0) →
        (postCreditsUpdate env s userId body).2.status = 400 ∧
        (postCreditsUpdate env s userId body).1 = s) ∧
      ((postCreditsUpdate env s userId body).2.status = 200 →
        ∃ b n, (postCreditsUpdate env s userId body).2.previousBalance = some b ∧
          (postCreditsUpdate env s userId body).2.newBalance = some n ∧ b < n)) ∧
    (∀ (env : UpdateEnv) (s : Store) (reqUser : JsObject) (body : AddBody),
      ((body.amount = none ∨ ∃ c, body.amount = some c ∧ c ≤ 0) →
        (postCreditsAdd env s reqUser body).2.status = 400 ∧
        (postCreditsAdd env s reqUser body).1 = s) ∧
      ((postCreditsAdd env s reqUser body).2.status = 200 →
        ∃ b n, (postCreditsAdd env s reqUser body).2.previousBalance = some b ∧
          (postCreditsAdd env s reqUser body).2.newBalance = some n ∧ b < n)) := by
  constructor
  · intro env s userId body
    constructor
    · intro h
      have hr : postCreditsUpdate env s userId body = (s, invalidCreditsResponse) := by
        rcases h with h | ⟨c, h, hc⟩
        · simp [postCreditsUpdate, h]
        · simp [postCreditsUpdate, h, hc]
      rw [hr]
      exact ⟨rfl, rfl⟩
    · intro h200
      rcases postCreditsUpdate_response env s userId body with h | ⟨b, c, hc, h⟩
      · exact absurd h200 h
      · rw [h]
        exact ⟨b, b + c, rfl, rfl, by omega⟩
  · intro env s reqUser body
    constructor
    · intro h
      have hr : postCreditsAdd env s reqUser body = (s, invalidAmountResponse) := by
        rcases h with h | ⟨c, h, hc⟩
        · simp [postCreditsAdd, h]
        · simp [postCreditsAdd, h, hc]
      rw [hr]
      exact ⟨rfl, rfl⟩
    · intro h200
      rcases postCreditsAdd_response env s reqUser body with h | ⟨b, c, hc, h⟩
      · exact absurd h200 h
      · rw [h]
        exact ⟨b, b + c, rfl, rfl, by omega⟩

/-- Examples: a negative amount sent to `POST /credits/update` and a
missing amount sent to `POST /credits/add` are answered 400; a top-up of 7 on
a balance of 10 is answered 200 with a larger new balance. -/
theorem topups_positive_on_integers_examples :
    (postCreditsUpdate okUpdateEnv (sampleStore 10) "u1"
      { credits := some (-3), paymentId := some "pay_1", planName := none }).2.status = 400 ∧
    (postCreditsAdd okUpdateEnv (sampleStore 10) (attachUser aliasUser)
      { amount := none, paymentId := none, description := none }).2.status = 400 ∧
    (∃ b n, (postCreditsUpdate okUpdateEnv (sampleStore 10) "u1"
        { credits := some 7, paymentId := some "pay_1", planName := none }).2.previousBalance
        = some b ∧
      (postCreditsUpdate okUpdateEnv (sampleStore 10) "u1"
        { credits := some 7, paymentId := some "pay_1", planName := none }).2.newBalance
        = some n ∧ b < n) :=
  ⟨((topups_positive_on_integers.1 okUpdateEnv (sampleStore 10) "u1"
      { credits := some (-3), paymentId := some "pay_1", planName := none }).1
      (Or.inr ⟨-3, rfl, by decide⟩)).1,
   ((topups_positive_on_integers.2 okUpdateEnv (sampleStore 10) (attachUser aliasUser)
      { amount := none, paymentId := none, description := none }).1 (Or.inl rfl)).1,
   (topups_positive_on_integers.1 okUpdateEnv (sampleStore 10) "u1"
      { credits := some 7, paymentId := some "pay_1", planName := none }).2 (by decide)⟩

/-- On an integer amount the response to the JSON value is the response of
`postCreditsUpdate`. -/
theorem postCreditsUpdateRaw_number (env : UpdateEnv) (s : Store) (userId : String) (n : Int)
    (paymentId planName : Option String) :
    postCreditsUpdateRaw env s userId
        { credits := .number n, paymentId := paymentId, planName := planName } =
      (postCreditsUpdate env s userId
        { credits := some n, paymentId := paymentId, planName := planName }).2.raw := by
  unfold postCreditsUpdateRaw postCreditsUpdate
  by_cases hn : n ≤ 0
  · have h0 : (JsAmount.falsy (.number n) || JsNumber.le (JsAmount.toNumber (.number n)) (some 0))
        = true := by
      simp [JsAmount.falsy, JsAmount.toNumber, JsNumber.le, hn]
    simp only [h0, hn, if_true]
  · have h0 : (JsAmount.falsy (.number n) || JsNumber.le (JsAmount.toNumber (.number n)) (some 0))
        = false := by
      have hne : n ≠ 0 := by omega
      simp [JsAmount.falsy, JsAmount.toNumber, JsNumber.le, hn, hne]
    simp only [h0, hn, if_false, Bool.false_eq_true]
    cases paymentId with
    | none => rfl
    | some pid =>
      by_cases hp : pid = ""
      · simp only [hp, if_true]
      · simp only [hp, if_false]
        cases selectSingle env.profileSelect (profileRows s userId) with
        | error e => rfl
        | ok profile =>
          cases env.profileUpdate with
          | some e => rfl
          | none => cases env.creditsInsert <;> rfl

/-- On an integer amount the response to the JSON value is the response of
`postCreditsAdd`. -/
theorem postCreditsAddRaw_number (env : UpdateEnv) (s : Store) (reqUser : JsObject) (n : Int)
    (paymentId description : Option String) :
    postCreditsAddRaw env s reqUser
        { amount := .number n, paymentId := paymentId, description := description } =
      (postCreditsAdd env s reqUser
        { amount := some n, paymentId := paymentId, description := description }).2.raw := by
  unfold postCreditsAddRaw postCreditsAdd
  by_cases hn : n ≤ 0
  · have h0 : (JsAmount.falsy (.number n) || JsNumber.le (JsAmount.toNumber (.number n)) (some 0))
        = true := by
      simp [JsAmount.falsy, JsAmount.toNumber, JsNumber.le, hn]
    simp only [h0, hn, if_true]
  · have h0 : (JsAmount.falsy (.number n) || JsNumber.le (JsAmount.toNumber (.number n)) (some 0))
        = false := by
      have hne : n ≠ 0 := by omega
      simp [JsAmount.falsy, JsAmount.toNumber, JsNumber.le, hn, hne]
    simp only [h0, hn, if_false, Bool.false_eq_true]
    cases reqUser.get "userId" with
    | none => rfl
    | some userId =>
      dsimp only
      cases selectSingle env.profileSelect (profileRows s userId) with
      | error e => rfl
      | ok profile =>
        cases env.profileUpdate with
        | some e => rfl
        | none => cases env.creditsInsert <;> rfl

/-- An absent or `null` amount is answered 400 by both routes, whatever the
store calls would do. -/
theorem topups_reject_missing_amount (env : UpdateEnv) (s : Store) (userId : String)
    (reqUser : JsObject) (paymentId other : Option String) :
    postCreditsUpdateRaw env s userId
        { credits := .undefined, paymentId := paymentId, planName := other }
      = invalidCreditsResponse.raw ∧
    postCreditsUpdateRaw env s userId
        { credits := .null, paymentId := paymentId, planName := other }
      = invalidCreditsResponse.raw ∧
    postCreditsAddRaw env s reqUser
        { amount := .undefined, paymentId := paymentId, description := other }
      = invalidAmountResponse.raw ∧
    postCreditsAddRaw env s reqUser
        { amount := .null, paymentId := paymentId, description := other }
      = invalidAmountResponse.raw :=
  ⟨rfl, rfl, rfl, rfl⟩

/-- C21 fails on the code.  The amount `"abc"` is not missing (`!"abc"` is
false) and not found non-positive (`"abc" <= 0` compares `NaN` and is false),
so it passes the validation of both routes.  For `u1` with balance 10,
`POST /credits/update` with `{credits: "abc", paymentId: "pay_1"}`, the profile
lookup and the balance write succeeding and whatever the outcome of the ledger
insert, is answered 200 with `previousBalance` 10 and `newBalance`
`10 + Number("abc")`, which is `NaN` and not greater than 10.
`POST /credits/add` with `{amount: "abc"}` by a caller whose attached object
names `u2` as `userId` is answered 200 with `newBalance` `NaN` in the same
way. -/
theorem C21_non_numeric_amount_accepted :
    JsAmount.falsy (.text "abc") = false ∧
    JsNumber.le (JsAmount.toNumber (.text "abc")) (some 0) = false ∧
    balances (sampleStore 10) "u1" = [10] ∧
    (∀ ledger, (postCreditsUpdateRaw (topUpEnv ledger) (sampleStore 10) "u1"
      wordUpdateBody).status = 200) ∧
    (∀ ledger, (postCreditsUpdateRaw (topUpEnv ledger) (sampleStore 10) "u1"
      wordUpdateBody).previousBalance = some (some 10)) ∧
    (∀ ledger, (postCreditsUpdateRaw (topUpEnv ledger) (sampleStore 10) "u1"
      wordUpdateBody).newBalance = some none) ∧
    JsNumber.gt none (some 10) = false ∧
    (∀ ledger, (postCreditsAddRaw (topUpEnv ledger) marketStore (attachUser aliasUser)
      wordAddBody).status = 200) ∧
    (∀ ledger, (postCreditsAddRaw (topUpEnv ledger) marketStore (attachUser aliasUser)
      wordAddBody).previousBalance = some (some 10)) ∧
    (∀ ledger, (postCreditsAddRaw (topUpEnv ledger) marketStore (attachUser aliasUser)
      wordAddBody).newBalance = some none) := by
  refine ⟨by decide, by decide, by decide, ?_, ?_, ?_, by decide, ?_, ?_, ?_⟩ <;>
    (intro ledger; rfl)

/-- C22 fails on the code.  For the verified user `u1` (whose attached object
has `id = "u1"` and no `userId` property) `POST /credits/add` of 5 credits,
every store call succeeding, is answered 500 and the balance of `u1` stays 10:
the handler looks the profile up by `req.user.userId`, which is undefined.
For a verified `u1` whose metadata carries `userId = "u2"` the same request is
answered 200 and tops up the profile of `u2`, not of `u1`. -/
theorem C22_add_ignores_caller_id :
    (attachUser plainUser).get "id" = some "u1" ∧
    (attachUser plainUser).get "userId" = none ∧
    (postCreditsAdd okUpdateEnv marketStore (attachUser plainUser) addFive).2.status = 500 ∧
    (postCreditsAdd okUpdateEnv marketStore (attachUser plainUser) addFive).1 = marketStore ∧
    balances marketStore "u1" = [10] ∧
    (attachUser aliasUser).get "id" = some "u1" ∧
    (postCreditsAdd okUpdateEnv marketStore (attachUser aliasUser) addFive).2.status = 200 ∧
    balances (postCreditsAdd okUpdateEnv marketStore (attachUser aliasUser) addFive).1 "u1"
      = [10] ∧
    balances (postCreditsAdd okUpdateEnv marketStore (attachUser aliasUser) addFive).1 "u2"
      = [15] := by
  decide

/-! ## Profile completion: claims C23, C24 -/

/-- C23 fails on the code.  For the verified user `u1` with balance 10,
`POST /auth/complete-profile` with a `profileData` that names no stored column
is answered 200 and appends the ledger row of amount 15 and type
"profile_completion", but the stored balance of `u1` is still 10, not 25: the
handler never writes the bonus to `profiles.credits`. -/
theorem C23_bonus_not_credited :
    (postCompleteProfile sampleProvider okCompleteEnv (sampleStore 10) (some "aaa.bbb.plain")
      { userId := some "u1", profileData := some namesOnly }).2.status = 200 ∧
    balances (sampleStore 10) "u1" = [10] ∧
    balances (postCompleteProfile sampleProvider okCompleteEnv (sampleStore 10)
      (some "aaa.bbb.plain") { userId := some "u1", profileData := some namesOnly }).1 "u1"
      = [10] ∧
    (postCompleteProfile sampleProvider okCompleteEnv (sampleStore 10) (some "aaa.bbb.plain")
      { userId := some "u1", profileData := some namesOnly }).1.credits
      = [{ user_id := "u1", amount := 15, description := "Profile completion bonus",
           transaction_type := "profile_completion", payment_id := none }] := by
  decide

/-- C24 fails on the code.  For the verified user `u1` with balance 10,
`POST /auth/complete-profile` with `profileData = { credits: 1000000 }` is
answered 200 and the stored credits of `u1` become 1000000: `profileData` is
passed to `update` without any selection of columns. -/
theorem C24_complete_profile_writes_credits :
    (postCompleteProfile sampleProvider okCompleteEnv (sampleStore 10) (some "aaa.bbb.plain")
      { userId := some "u1", profileData := some creditsGrab }).2.status = 200 ∧
    balances (sampleStore 10) "u1" = [10] ∧
    balances (postCompleteProfile sampleProvider okCompleteEnv (sampleStore 10)
      (some "aaa.bbb.plain") { userId := some "u1", profileData := some creditsGrab }).1 "u1"
      = [1000000] := by
  decide

/-! ## Identity gate: claims C26, C27 -/

/-- A request without bearer token.  With `req.cookies` undefined, as in this
application, reading the cookie throws and the answer is the 500 of the
`catch` block; with a cookie object that carries neither cookie the answer is
the 401 of the missing token. -/
theorem verifySupabaseSession_without_bearer (provider : String → Except String AuthUser) :
    verifySupabaseSession provider none none = .error sessionErrorResponse ∧
    verifySupabaseSession provider none (some []) = .error noTokenResponse :=
  ⟨rfl, rfl⟩

/-- The role check under a defined effective role: the middleware passes
exactly when the role is allowed, and answers the 403 of the role check
otherwise. -/
theorem checkRole_of_effectiveRole {allowedRoles : List String} {roleSelect : Option String}
    {s : Store} {reqUser : JsObject} {role : String}
    (heff : effectiveRole s reqUser = some role)
    (hstore : (reqUser.get "role" = none ∨ reqUser.get "role" = some "") →
      roleSelect = none ∧ (profileRowsOf s (reqUser.get "id")).length ≤ 1) :
    checkRole allowedRoles roleSelect s (some reqUser) =
      if allowedRoles.contains role then .ok () else .error roleDeniedResponse := by
  have hstored : (reqUser.get "role" = none ∨ reqUser.get "role" = some "") →
      storedRole s reqUser = some role →
      getUserRoleFromSupabase roleSelect s (reqUser.get "id") = .ok role := by
    intro hr hst
    obtain ⟨hsel, hlen⟩ := hstore hr
    unfold storedRole at hst
    cases hid : reqUser.get "id" with
    | none => simp [hid] at hst
    | some userId =>
      rw [hid] at hlen
      simp only [hid] at hst
      rw [find?_eq_head?_filter] at hst
      have hrows : ∃ p, profileRows s userId = [p] ∧ p.role = role := by
        simp only [profileRowsOf, profileRows] at hlen
        unfold profileRows
        cases hf : s.profiles.filter (fun p => p.id == userId) with
        | nil => rw [hf] at hst; simp at hst
        | cons p rest =>
          cases rest with
          | nil =>
            rw [hf] at hst
            exact ⟨p, rfl, by simpa using hst⟩
          | cons q rest2 => rw [hf] at hlen; simp at hlen
      obtain ⟨p, hp, hrole⟩ := hrows
      simp [getUserRoleFromSupabase, profileRowsOf, hsel, hp, selectSingle_ok, hrole]
  unfold effectiveRole at heff
  cases hr : reqUser.get "role" with
  | none =>
    rw [hr] at heff
    have h := hstored (Or.inl hr) heff
    simp only [checkRole, hr, orElse, h]
    cases allowedRoles.contains role <;> simp
  | some r =>
    rw [hr] at heff
    by_cases hre : r = ""
    · subst hre
      simp only [if_true] at heff
      have h := hstored (Or.inr hr) heff
      simp only [checkRole, hr, orElse, if_true, h]
      cases allowedRoles.contains role <;> simp
    · simp only [hre, if_false] at heff
      have hrr : r = role := Option.some.inj heff
      subst hrr
      simp only [checkRole, hr, orElse, hre, if_false]
      cases allowedRoles.contains r <;> simp

/-- A role returned by `getUserRoleFromSupabase` is the role stored in the
profile of the attached user. -/
theorem storedRole_of_getUserRole {roleSelect : Option String} {s : Store}
    {reqUser : JsObject} {role : String}
    (h : getUserRoleFromSupabase roleSelect s (reqUser.get "id") = .ok role) :
    storedRole s reqUser = some role := by
  unfold getUserRoleFromSupabase at h
  cases hsel : selectSingle roleSelect (profileRowsOf s (reqUser.get "id")) with
  | error e => rw [hsel] at h; cases h
  | ok profile =>
    rw [hsel] at h
    have hrole : profile.role = role := by
      simpa using h
    obtain ⟨-, hrows⟩ := selectSingle_eq_ok.mp hsel
    unfold storedRole
    cases hid : reqUser.get "id" with
    | none => rw [hid] at hrows; simp [profileRowsOf] at hrows
    | some userId =>
      rw [hid] at hrows
      simp only [profileRowsOf, profileRows] at hrows
      simp only [find?_eq_head?_filter, hrows, List.head?_cons, Option.map_some', hrole]

/-- The role check passes only for a caller whose effective role is allowed,
whatever the outcome of the profile lookup. -/
theorem checkRole_ok_inv {allowedRoles : List String} {roleSelect : Option String}
    {s : Store} {reqUser : JsObject}
    (h : checkRole allowedRoles roleSelect s (some reqUser) = .ok ()) :
    ∃ role, effectiveRole s reqUser = some role ∧ role ∈ allowedRoles := by
  have hmem : ∀ (role : String), allowedRoles.contains role = true → role ∈ allowedRoles := by
    intro role hc
    rw [List.contains, List.elem_iff] at hc
    exact hc
  have hstored : orElse (reqUser.get "role") none = none →
      effectiveRole s reqUser = storedRole s reqUser →
      ∃ role, effectiveRole s reqUser = some role ∧ role ∈ allowedRoles := by
    intro hor heff
    simp only [checkRole, hor] at h
    cases hg : getUserRoleFromSupabase roleSelect s (reqUser.get "id") with
    | error e => rw [hg] at h; cases h
    | ok role =>
      rw [hg] at h
      refine ⟨role, ?_, ?_⟩
      · rw [heff]; exact storedRole_of_getUserRole hg
      · cases hc : allowedRoles.contains role with
        | true => exact hmem role hc
        | false => simp [hc] at h; exact h
  cases hr : reqUser.get "role" with
  | none => exact hstored (by rw [hr]; rfl) (by simp [effectiveRole, hr])
  | some r =>
    by_cases hre : r = ""
    · subst hre
      exact hstored (by rw [hr]; rfl) (by simp [effectiveRole, hr])
    · simp only [checkRole, hr, orElse, hre, if_false] at h
      refine ⟨r, by simp [effectiveRole, hr, hre], ?_⟩
      cases hc : allowedRoles.contains r with
      | true => exact hmem r hc
      | false => simp [hc] at h; exact h

/-- The role check of an attached user passes or answers its 403 or its 500. -/
theorem checkRole_cases (allowedRoles : List String) (roleSelect : Option String)
    (s : Store) (reqUser : JsObject) :
    checkRole allowedRoles roleSelect s (some reqUser) = .ok () ∨
    checkRole allowedRoles roleSelect s (some reqUser) = .error roleDeniedResponse ∨
    checkRole allowedRoles roleSelect s (some reqUser) = .error authorizationErrorResponse := by
  unfold checkRole
  simp only
  split
  · right; right; rfl
  · split
    · right; left; rfl
    · left; rfl

/-- C26, as stated, fails on "otherwise answers 403". (1) A verified caller
without role in the token or the metadata and without profile row has no
effective role, so no role that is a member of `["lead-finder"]`; the role
check answers 500 "Authorization error", not 403. (2) A verified caller
without role in the token whose profile has the role lead-applier, the lookup
of the profile failing, is answered 500 by `checkRole(["lead-finder"])`, not
403, and is not let through by `checkRole(["lead-applier"])` although the
role is a member of the list. -/
theorem C26_counterexample :
    effectiveRole marketStore (attachUser ghostUser) = none ∧
    checkRole ["lead-finder"] none marketStore (some (attachUser ghostUser))
      = .error authorizationErrorResponse ∧
    authorizationErrorResponse.status = 500 ∧
    effectiveRole marketStore (attachUser rolelessUser) = some "lead-applier" ∧
    checkRole ["lead-finder"] (some "connection lost") marketStore
      (some (attachUser rolelessUser)) = .error authorizationErrorResponse ∧
    checkRole ["lead-applier"] (some "connection lost") marketStore
      (some (attachUser rolelessUser)) = .error authorizationErrorResponse :=
  ⟨by decide, rfl, rfl, by decide, rfl, rfl⟩

/-- C26, amended. Role gating, for every attached user, every `allowedRoles`
list and every outcome of the profile lookup: (1) `checkRole(allowedRoles)`
calls the handler only if the effective role of the caller (`req.user.role`
when non-empty, otherwise the role stored in the caller's profile) is a member
of `allowedRoles`; (2) otherwise it answers 403 or 500 without running the
handler; (3) when the effective role is defined and the lookup of the profile,
where it is made, succeeds on a table with at most one row for the id, it
calls the handler if and only if the role is a member of `allowedRoles` and
answers 403 otherwise; (4) hence the route `POST /applications` leaves the
store untouched, answering that 403 or 500, for a caller whose effective role
is not lead-finder, and `PUT /applications/:id` for a caller whose effective
role is not lead-applier. -/
theorem C26_role_gating (allowedRoles : List String) (roleSelect : Option String) (s : Store)
    (reqUser : JsObject) :
    (checkRole allowedRoles roleSelect s (some reqUser) = .ok () →
      ∃ role, effectiveRole s reqUser = some role ∧ role ∈ allowedRoles) ∧
    (checkRole allowedRoles roleSelect s (some reqUser) = .ok () ∨
      checkRole allowedRoles roleSelect s (some reqUser) = .error roleDeniedResponse ∨
      checkRole allowedRoles roleSelect s (some reqUser)
        = .error authorizationErrorResponse) ∧
    roleDeniedResponse.status = 403 ∧ authorizationErrorResponse.status = 500 ∧
    (∀ role, effectiveRole s reqUser = some role →
      ((reqUser.get "role" = none ∨ reqUser.get "role" = some "") →
        roleSelect = none ∧ (profileRowsOf s (reqUser.get "id")).length ≤ 1) →
      (checkRole allowedRoles roleSelect s (some reqUser) = .ok () ↔ role ∈ allowedRoles) ∧
      (role ∉ allowedRoles →
        checkRole allowedRoles roleSelect s (some reqUser) = .error roleDeniedResponse)) ∧
    (∀ (user : AuthUser) (env : PostEnv) (body : PostBody),
      attachUser user = reqUser → effectiveRole s reqUser ≠ some "lead-finder" →
      postApplicationsRoute roleSelect env s user body = (s, roleDeniedResponse) ∨
      postApplicationsRoute roleSelect env s user body = (s, authorizationErrorResponse)) ∧
    (∀ (user : AuthUser) (env : PutEnv) (id : String) (body : PutBody),
      attachUser user = reqUser → effectiveRole s reqUser ≠ some "lead-applier" →
      putApplicationRoute roleSelect env s user id body = (s, roleDeniedResponse) ∨
      putApplicationRoute roleSelect env s user id body = (s, authorizationErrorResponse)) := by
  have hmem : ∀ (l : List String) (role : String), l.contains role = true ↔ role ∈ l := by
    intro l role
    rw [List.contains, List.elem_iff]
  have hblocked : ∀ (target : String), effectiveRole s reqUser ≠ some target →
      checkRole [target] roleSelect s (some reqUser) = .error roleDeniedResponse ∨
      checkRole [target] roleSelect s (some reqUser) = .error authorizationErrorResponse := by
    intro target hne
    rcases checkRole_cases [target] roleSelect s reqUser with h | h
    · obtain ⟨role, heff, hin⟩ := checkRole_ok_inv h
      have hrt : role = target := by simpa using hin
      rw [hrt] at heff
      exact absurd heff hne
    · exact h
  refine ⟨checkRole_ok_inv, checkRole_cases allowedRoles roleSelect s reqUser, rfl, rfl,
    ?_, ?_, ?_⟩
  · intro role heff hstore
    have hcheck : checkRole allowedRoles roleSelect s (some reqUser) =
        if allowedRoles.contains role then .ok () else .error roleDeniedResponse :=
      checkRole_of_effectiveRole heff hstore
    constructor
    · rw [hcheck]
      constructor
      · intro h
        cases hc : allowedRoles.contains role with
        | true => exact (hmem allowedRoles role).mp hc
        | false =>
          rw [hc] at h
          simp at h
      · intro h
        rw [(hmem allowedRoles role).mpr h]
        rfl
    · intro hl
      rw [hcheck]
      have hc : allowedRoles.contains role = false := by
        cases h : allowedRoles.contains role with
        | false => rfl
        | true => exact absurd ((hmem allowedRoles role).mp h) hl
      rw [hc]
      rfl
  · intro user env body hu hne
    unfold postApplicationsRoute
    rw [hu]
    rcases hblocked "lead-finder" hne with h | h <;> rw [h]
    · left; rfl
    · right; rfl
  · intro user env id body hu hne
    unfold putApplicationRoute
    rw [hu]
    rcases hblocked "lead-applier" hne with h | h <;> rw [h]
    · left; rfl
    · right; rfl

/-- Witness of C26 (amended): the verified lead-finder `u1` passes
`checkRole(["lead-finder"])` and the effective role found is lead-finder; a
verified user without role in the token whose profile has the role
lead-applier is refused with 403, and the route `POST /applications` leaves
the store as it was for that user, also when the lookup of the profile fails. -/
theorem C26_role_gating_witness :
    checkRole ["lead-finder"] none marketStore (some (attachUser plainUser)) = .ok () ∧
    (∃ role, effectiveRole marketStore (attachUser plainUser) = some role ∧
      role ∈ ["lead-finder"]) ∧
    effectiveRole marketStore (attachUser rolelessUser) = some "lead-applier" ∧
    checkRole ["lead-finder"] none marketStore (some (attachUser rolelessUser))
      = .error roleDeniedResponse ∧
    (postApplicationsRoute (some "connection lost") (okEnv 0) marketStore rolelessUser bodyL1
        = (marketStore, roleDeniedResponse) ∨
      postApplicationsRoute (some "connection lost") (okEnv 0) marketStore rolelessUser bodyL1
        = (marketStore, authorizationErrorResponse)) :=
  have hpass : checkRole ["lead-finder"] none marketStore (some (attachUser plainUser))
      = .ok () := rfl
  ⟨hpass,
   (C26_role_gating ["lead-finder"] none marketStore (attachUser plainUser)).1 hpass,
   by decide,
   ((C26_role_gating ["lead-finder"] none marketStore (attachUser rolelessUser)).2.2.2.2.1
      "lead-applier" (by decide) (fun _ => ⟨rfl, by decide⟩)).2 (by decide),
   (C26_role_gating ["lead-finder"] (some "connection lost") marketStore
      (attachUser rolelessUser)).2.2.2.2.2.1 rolelessUser (okEnv 0) bodyL1 rfl (by decide)⟩

/-- C27 fails on the code.  The tokens "aaa.bbb.plain" and "aaa.bbb.forged"
resolve to two verified users with the same id `u1`; the metadata of the second
carries a property `id` naming `u2`.  The identity attached for the first has
`id = "u1"`, the one attached for the second has `id = "u2"`: the metadata,
spread last, overwrites the id.  A purchase through the route by the second
user is then answered 201 and paid from the balance of `u2`. -/
theorem C27_metadata_overrides_id :
    plainUser.id = forgedUser.id ∧
    verifySupabaseSession sampleProvider (some "aaa.bbb.plain") none
      = .ok (attachUser plainUser) ∧
    verifySupabaseSession sampleProvider (some "aaa.bbb.forged") none
      = .ok (attachUser forgedUser) ∧
    (attachUser plainUser).get "id" = some "u1" ∧
    (attachUser forgedUser).get "id" = some "u2" ∧
    (postApplicationsRoute none (okEnv 0) marketStore forgedUser bodyL1).2.status = 201 ∧
    balances (postApplicationsRoute none (okEnv 0) marketStore forgedUser bodyL1).1 "u1"
      = [10] ∧
    balances (postApplicationsRoute none (okEnv 0) marketStore forgedUser bodyL1).1 "u2"
      = [5] :=
  ⟨rfl, rfl, rfl, by decide, by decide, by decide, by decide, by decide⟩

end Breds
